import Mathlib

/-!
# ShowZa: seat reservation and hold-window reconciliation

A shallow embedding of the booking core of the ShowZa server:

* `server/controllers/bookingController.js` : `checkSeatAvailability`, `createBooking`,
  `getOccupiedSeats`, `getTopBookedMovie`
* `server/inngest/index.js` : the `check-payment-status` step of `releaseSeatAndDeleteBooking`,
  `sendShowReminders`, `sendNewShowNotifications`, the `qrData` of `sendBookingConfirmationEmail`
* `server/controllers/tmdbController.js`, `server/controllers/showController.js` : the retry
  interceptors of the two catalog clients, `handleTMDBError`
* `server/middleware/auth.js`, `server/routes/bookingRoutes.js` : `requireAuth`, `protectAdmin`
  and the booking routes

The MongoDB collections are lists of documents, each handler is a function from the
store (and the outcomes of the external calls it awaits) to the new store, the events it
sent and the HTTP response it wrote.  An exception thrown by a handler does not undo
the writes that were already awaited, so handlers return the store together with their
outcome instead of living in an error monad.
-/

namespace ShowZa

/-! ## Values -/

/-- A holder identity: the `userId` of an authenticated request.  `createBooking` is routed
behind `requireAuth`, which answers 401 unless `userId` is truthy, so the identities that reach
the booking core are non-empty strings. -/
abbrev UserId := { s : String // s ≠ "" }

/-- JavaScript truthiness of a holder identity (a string is truthy unless it is empty). -/
def truthy (u : UserId) : Bool := decide (u.val ≠ "")

/-- The `occupiedSeats` object of a show: its own properties, seat label to holder, in
insertion order. -/
abbrev SeatMap := List (String × UserId)

/-- Property names every plain object inherits from `Object.prototype`; reading one of them
from `occupiedSeats` yields a truthy value although the object has no such own key. -/
def objectPrototypeKeys : List String :=
  ["constructor", "__defineGetter__", "__defineSetter__", "hasOwnProperty",
   "__lookupGetter__", "__lookupSetter__", "isPrototypeOf", "propertyIsEnumerable",
   "toString", "valueOf", "__proto__", "toLocaleString"]

namespace SeatMap

/-- The own keys, as `Object.keys` lists them. -/
def keys (m : SeatMap) : List String := m.map Prod.fst

/-- The own property stored under `seat`, if any. -/
def get (m : SeatMap) (seat : String) : Option UserId := List.lookup seat m

/-- Truthiness of the expression `occupiedSeats[seat]`. -/
def isTruthyAt (m : SeatMap) (seat : String) : Bool :=
  match m.get seat with
  | some u => truthy u
  | none => decide (seat ∈ objectPrototypeKeys)

/-- The assignment `occupiedSeats[seat] = userId`: overwrite in place or append. -/
def set : SeatMap → String → UserId → SeatMap
  | [], seat, u => [(seat, u)]
  | (k, v) :: rest, seat, u =>
    if k = seat then (k, u) :: rest else (k, v) :: set rest seat u

/-- The statement `delete occupiedSeats[seat]`. -/
def delete (m : SeatMap) (seat : String) : SeatMap :=
  m.filter (fun p => decide (p.1 ≠ seat))

end SeatMap

/-! ## Numbers

A JavaScript number is an IEEE 754 double.  The finite doubles are rational numbers, and
the model keeps numbers as rationals; an arithmetic operation of the code is the exact
operation followed by rounding to the nearest double.  Infinity and NaN have no
counterpart, so a result beyond the largest double is outside the model. -/

/-- The integer nearest to `x`; of two equally near integers, the even one. -/
def roundHalfEven (x : ℚ) : ℤ :=
  let f := ⌊x⌋
  if x - f < 1 / 2 then f
  else if 1 / 2 < x - f then f + 1
  else if f % 2 = 0 then f else f + 1

/-- The double nearest to `q` (round to nearest, ties to even): a double with binary exponent
`e` is a multiple of `2 ^ (e - 52)`, and below `2 ^ (-1022)` the spacing stays `2 ^ (-1074)`
(the subnormal doubles). -/
def roundDouble (q : ℚ) : ℚ :=
  let e := max (Int.log 2 |q|) (-1022)
  let ulp : ℚ := 2 ^ (e - 52)
  (roundHalfEven (q / ulp) : ℚ) * ulp

/-- JavaScript `a * b` on finite doubles with a finite result. -/
def jsMul (a b : ℚ) : ℚ := roundDouble (a * b)

/-! ## Documents and the store -/

structure Movie where
  id : String
  title : String
  deriving DecidableEq, Repr

/-- A show document.  `showPrice` is a finite double, kept as the rational number it is; a
`Date` is its time value (milliseconds since the epoch). -/
structure Show where
  id : String
  movie : String
  showDateTime : Int
  showPrice : ℚ
  occupiedSeats : SeatMap
  deriving DecidableEq

/-- Modelled from the spec: the Booking schema (`models/Booking.js` is not among the
sources).  `isPaid` is initially false and `paymentLink` is set after creation.  The `_id` of
a document is unique in its collection: an insert under an `_id` already present is refused
by the database. -/
structure Booking where
  id : String
  user : UserId
  «show» : String
  amount : ℚ
  bookedSeats : List String
  isPaid : Bool
  paymentLink : Option String
  deriving DecidableEq

/-- Modelled from the spec: the User record mirrored from the identity provider
(`models/User.js` is not among the sources); the core reads `name` and `email`. -/
structure User where
  id : String
  name : String
  email : String
  deriving DecidableEq, Repr

structure Store where
  movies : List Movie
  shows : List Show
  bookings : List Booking
  users : List User
  deriving DecidableEq

namespace Store

/-- The query `Show.findById(showId)`. -/
def findShow (st : Store) (showId : String) : Option Show :=
  st.shows.find? (fun s => decide (s.id = showId))

/-- The query `Movie.findById`, as used by `populate('movie')`. -/
def findMovie (st : Store) (movieId : String) : Option Movie :=
  st.movies.find? (fun m => decide (m.id = movieId))

/-- The call `showData.save()` after `markModified('occupiedSeats')`: the document with this
id gets the in-memory `occupiedSeats`. -/
def saveShowSeats (st : Store) (showId : String) (occ : SeatMap) : Store :=
  let update := fun (s : Show) => if s.id = showId then { s with occupiedSeats := occ } else s
  { st with shows := st.shows.map update }

/-- The call `booking.save()` after `booking.paymentLink = session.url`. -/
def saveBookingLink (st : Store) (bookingId : String) (url : String) : Store :=
  let update := fun (b : Booking) =>
    if b.id = bookingId then { b with paymentLink := some url } else b
  { st with bookings := st.bookings.map update }

/-- The query `Booking.findById(id)` for a string id. -/
def findBooking (st : Store) (bookingId : String) : Option Booking :=
  st.bookings.find? (fun b => decide (b.id = bookingId))

/-- The call `Booking.findByIdAndDelete(id)`: removes the document found under this id. -/
def deleteBooking (st : Store) (bookingId : String) : Store :=
  { st with bookings := st.bookings.eraseP (fun b => decide (b.id = bookingId)) }

end Store

/-! ## `createBooking` -/

/-- The JSON body written by a handler together with its HTTP status. -/
structure Response where
  status : Nat
  success : Bool
  message : Option String
  url : Option String
  deriving DecidableEq, Repr

/-- Response `res.status(400).json({ success: false, message: 'Selected seats are not available' })`. -/
def seatsNotAvailable : Response :=
  { status := 400, success := false, message := some "Selected seats are not available",
    url := none }

/-- Response `res.status(500).json({ success: false, message: error.message })` of the catch block. -/
def serverError (msg : String) : Response :=
  { status := 500, success := false, message := some msg, url := none }

/-- Response `res.json({ success: true, url: session.url })`. -/
def successResponse (url : String) : Response :=
  { status := 200, success := true, message := none, url := some url }

/-- The authenticated request: `req.auth().userId` and the two fields read from `req.body`. -/
structure BookingRequest where
  userId : UserId
  showId : String
  selectedSeats : List String
  deriving DecidableEq

/-- The arguments of `stripeInstance.checkout.sessions.create` that depend on the booking. -/
structure SessionParams where
  productName : String
  unitAmount : ℚ
  quantity : Nat
  bookingId : String
  deriving DecidableEq

/-- An event handed to `inngest.send`. -/
structure SentEvent where
  name : String
  bookingId : String
  deriving DecidableEq, Repr

/-- Outcomes of the awaited calls whose result the handler does not control: an `Except.error`
is the message of the exception the call throws. -/
structure BookingEnv where
  /-- Result of `Booking.create`: the `_id` (as a string) of the created document. -/
  create : Except String String
  /-- Result of `showData.save()`. -/
  showSave : Except String Unit
  /-- Result of `stripeInstance.checkout.sessions.create`: the `url` of the session. -/
  session : Except String String
  /-- Result of `booking.save()`. -/
  bookingSave : Except String Unit
  /-- Result of `inngest.send`. -/
  send : Except String Unit

/-- What one run of a handler leaves behind. -/
structure Outcome where
  store : Store
  sessions : List SessionParams
  events : List SentEvent
  response : Response

/-- Source `checkSeatAvailability(showId, selectedSeats)`. -/
def checkSeatAvailability (st : Store) (showId : String) (selectedSeats : List String) : Bool :=
  match st.findShow showId with
  | none => false
  | some showData =>
    let occupiedSeats := showData.occupiedSeats
    let isAnySeatTaken := selectedSeats.any (fun seat => occupiedSeats.isTruthyAt seat)
    !isAnySeatTaken

/-- The loop `selectedSeats.map((seat) => { showData.occupiedSeats[seat] = userId })`. -/
def markSeats (occ : SeatMap) (selectedSeats : List String) (userId : UserId) : SeatMap :=
  selectedSeats.foldl (fun m seat => m.set seat userId) occ

/-- Source `createBooking(req, res)`. -/
def createBooking (st : Store) (env : BookingEnv) (req : BookingRequest) : Outcome :=
  let isAvailable := checkSeatAvailability st req.showId req.selectedSeats
  if !isAvailable then
    { store := st, sessions := [], events := [], response := seatsNotAvailable }
  else
    match st.findShow req.showId with
    | none =>
      { store := st, sessions := [], events := [],
        response := serverError "Cannot read properties of null (reading 'showPrice')" }
    | some showData =>
      match env.create with
      | .error msg => { store := st, sessions := [], events := [], response := serverError msg }
      | .ok bookingId =>
        if st.bookings.any (fun b => decide (b.id = bookingId)) then
          { store := st, sessions := [], events := [],
            response := serverError "E11000 duplicate key error" }
        else
        let booking : Booking :=
          { id := bookingId, user := req.userId, «show» := req.showId,
            amount := jsMul showData.showPrice (req.selectedSeats.length : ℚ),
            bookedSeats := req.selectedSeats, isPaid := false, paymentLink := none }
        let st1 : Store := { st with bookings := st.bookings ++ [booking] }
        let occ := markSeats showData.occupiedSeats req.selectedSeats req.userId
        match env.showSave with
        | .error msg => { store := st1, sessions := [], events := [], response := serverError msg }
        | .ok _ =>
          let st2 := st1.saveShowSeats showData.id occ
          match st.findMovie showData.movie with
          | none =>
            { store := st2, sessions := [], events := [],
              response := serverError "Cannot read properties of null (reading 'title')" }
          | some movie =>
            let params : SessionParams :=
              { productName := movie.title, unitAmount := jsMul (⌊booking.amount⌋ : ℚ) 100,
                quantity := 1, bookingId := booking.id }
            match env.session with
            | .error msg =>
              { store := st2, sessions := [params], events := [], response := serverError msg }
            | .ok url =>
              match env.bookingSave with
              | .error msg =>
                { store := st2, sessions := [params], events := [], response := serverError msg }
              | .ok _ =>
                let st3 := st2.saveBookingLink booking.id url
                match env.send with
                | .error msg =>
                  { store := st3, sessions := [params], events := [],
                    response := serverError msg }
                | .ok _ =>
                  { store := st3, sessions := [params],
                    events := [{ name := "app/checkpayment", bookingId := booking.id }],
                    response := successResponse url }


/-! ## The `check-payment-status` step of `releaseSeatAndDeleteBooking` -/

/-- A primitive JavaScript value found where an id is expected. -/
inductive JSPrim
  | undefined
  | null
  | str (s : String)
  deriving DecidableEq, Repr

/-- The value of `event.data.bookingId`: a primitive, or an object with primitive-valued
own properties. -/
inductive JSValue
  | prim (v : JSPrim)
  | obj (props : List (String × JSPrim))
  deriving DecidableEq, Repr

/-- The `app/checkpayment` event as the function receives it. -/
structure CheckPaymentEvent where
  bookingId : JSValue
  deriving DecidableEq, Repr

/-- The event a handler receives for an event `createBooking` sent:
`data: { bookingId: booking._id.toString() }`. -/
def SentEvent.received (e : SentEvent) : CheckPaymentEvent :=
  { bookingId := .prim (.str e.bookingId) }

/-- The declaration `const { booking_id } = event.data.bookingId`.  Destructuring `undefined` or
`null` throws; a string is boxed, and neither a string nor `String.prototype` has a property
named `booking_id`, so the variable is `undefined`; an object yields its own property of that
name, or `undefined` when it has none. -/
def destructureBookingId : JSValue → Except String JSPrim
  | .prim .undefined =>
    .error "Cannot destructure property 'booking_id' of 'event.data.bookingId' as it is undefined."
  | .prim .null =>
    .error "Cannot destructure property 'booking_id' of 'event.data.bookingId' as it is null."
  | .prim (.str _) => .ok .undefined
  | .obj props => .ok ((List.lookup "booking_id" props).getD .undefined)

/-- The query `Booking.findById(booking_id)`: no document has the id `undefined` or `null`. -/
def Store.findBookingById (st : Store) : JSPrim → Option Booking
  | .undefined => none
  | .null => none
  | .str s => st.findBooking s

/-- Outcomes of the two awaited writes of the step. -/
structure ReleaseEnv where
  /-- Result of `show.save()`. -/
  showSave : Except String Unit
  /-- Result of `Booking.findByIdAndDelete`. -/
  bookingDelete : Except String Unit

/-- How a step function ended: it returned, or it threw the error with this message. -/
inductive StepResult
  | completed
  | threw (message : String)
  deriving DecidableEq, Repr

structure StepOutcome where
  store : Store
  result : StepResult
  deriving DecidableEq

/-- The loop `booking.bookedSeats.forEach(seat => { delete show.occupiedSeats[seat] })`. -/
def releaseSeats (occ : SeatMap) (bookedSeats : List String) : SeatMap :=
  bookedSeats.foldl (fun m seat => m.delete seat) occ

/-- Source: the callback of `step.run('check-payment-status', ...)` in
`releaseSeatAndDeleteBooking`. -/
def checkPaymentStatus (st : Store) (env : ReleaseEnv) (event : CheckPaymentEvent) :
    StepOutcome :=
  match destructureBookingId event.bookingId with
  | .error msg => { store := st, result := .threw msg }
  | .ok booking_id =>
    match st.findBookingById booking_id with
    | none =>
      { store := st, result := .threw "Cannot read properties of null (reading 'isPaid')" }
    | some booking =>
      if !booking.isPaid then
        match st.findShow booking.show with
        | none =>
          { store := st,
            result := .threw (if booking.bookedSeats.isEmpty
              then "Cannot read properties of null (reading 'markModified')"
              else "Cannot read properties of null (reading 'occupiedSeats')") }
        | some showDoc =>
          let occ := releaseSeats showDoc.occupiedSeats booking.bookedSeats
          match env.showSave with
          | .error msg => { store := st, result := .threw msg }
          | .ok _ =>
            let st1 := st.saveShowSeats showDoc.id occ
            match env.bookingDelete with
            | .error msg => { store := st1, result := .threw msg }
            | .ok _ => { store := st1.deleteBooking booking.id, result := .completed }
      else
        { store := st, result := .completed }

/-! ## `createBooking` as a sequence of awaited calls

Between two `await`s a handler runs without interruption; at an `await` another request
may run.  A run of `createBooking` is therefore a sequence of atomic steps, one per awaited
call, each carrying the local variables that are live at that point. -/

/-- The awaited call a run of `createBooking` performs next, with its live local variables. -/
inductive Pc
  /-- About to `await checkSeatAvailability(showId, selectedSeats)`. -/
  | checkAvailability
  /-- About to `await Show.findById(showId).populate('movie')`. -/
  | loadShow
  /-- About to `await Booking.create(...)`. -/
  | createDocument (showData : Show) (movie : Option Movie)
  /-- About to `await showData.save()`; `showData` holds the marked seats. -/
  | saveShow (showData : Show) (movie : Option Movie) (booking : Booking)
  /-- About to `await stripeInstance.checkout.sessions.create(...)`. -/
  | createSession (movie : Movie) (booking : Booking)
  /-- About to `await booking.save()`. -/
  | saveBooking (booking : Booking) (url : String)
  /-- About to `await inngest.send(...)`. -/
  | sendEvent (booking : Booking) (url : String)
  /-- The response has been written. -/
  | finished (response : Response)
  deriving DecidableEq

/-- The steps that follow `showData.save()`: from there on a run writes no show. -/
def Pc.pastSave : Pc → Bool
  | .createSession _ _ => true
  | .saveBooking _ _ => true
  | .sendEvent _ _ => true
  | .finished _ => true
  | _ => false

/-- One request in flight. -/
structure Run where
  req : BookingRequest
  env : BookingEnv
  pc : Pc
  sessions : List SessionParams
  events : List SentEvent

/-- A request that has just entered the handler. -/
def Run.start (env : BookingEnv) (req : BookingRequest) : Run :=
  { req := req, env := env, pc := .checkAvailability, sessions := [], events := [] }

/-- The response of a finished run. -/
def Run.response (r : Run) : Option Response :=
  match r.pc with
  | .finished response => some response
  | _ => none

/-- One atomic step of a run: the awaited call and the synchronous code up to the next
`await` (or to the response). -/
def Run.step (st : Store) (r : Run) : Store × Run :=
  match r.pc with
  | .checkAvailability =>
    if !checkSeatAvailability st r.req.showId r.req.selectedSeats then
      (st, { r with pc := .finished seatsNotAvailable })
    else
      (st, { r with pc := .loadShow })
  | .loadShow =>
    match st.findShow r.req.showId with
    | none =>
      let response := serverError "Cannot read properties of null (reading 'showPrice')"
      (st, { r with pc := .finished response })
    | some showData =>
      (st, { r with pc := .createDocument showData (st.findMovie showData.movie) })
  | .createDocument showData movie =>
    match r.env.create with
    | .error msg => (st, { r with pc := .finished (serverError msg) })
    | .ok bookingId =>
      if st.bookings.any (fun b => decide (b.id = bookingId)) then
        (st, { r with pc := .finished (serverError "E11000 duplicate key error") })
      else
        let booking : Booking :=
          { id := bookingId, user := r.req.userId, «show» := r.req.showId,
            amount := jsMul showData.showPrice (r.req.selectedSeats.length : ℚ),
            bookedSeats := r.req.selectedSeats, isPaid := false, paymentLink := none }
        let marked : Show :=
          { showData with
            occupiedSeats := markSeats showData.occupiedSeats r.req.selectedSeats r.req.userId }
        ({ st with bookings := st.bookings ++ [booking] },
         { r with pc := .saveShow marked movie booking })
  | .saveShow showData movie booking =>
    match r.env.showSave with
    | .error msg => (st, { r with pc := .finished (serverError msg) })
    | .ok _ =>
      let st2 := st.saveShowSeats showData.id showData.occupiedSeats
      match movie with
      | none =>
        let response := serverError "Cannot read properties of null (reading 'title')"
        (st2, { r with pc := .finished response })
      | some m => (st2, { r with pc := .createSession m booking })
  | .createSession movie booking =>
    let params : SessionParams :=
      { productName := movie.title, unitAmount := jsMul (⌊booking.amount⌋ : ℚ) 100,
        quantity := 1, bookingId := booking.id }
    match r.env.session with
    | .error msg => (st, { r with pc := .finished (serverError msg), sessions := [params] })
    | .ok url => (st, { r with pc := .saveBooking booking url, sessions := [params] })
  | .saveBooking booking url =>
    match r.env.bookingSave with
    | .error msg => (st, { r with pc := .finished (serverError msg) })
    | .ok _ => (st.saveBookingLink booking.id url, { r with pc := .sendEvent booking url })
  | .sendEvent booking url =>
    match r.env.send with
    | .error msg => (st, { r with pc := .finished (serverError msg) })
    | .ok _ =>
      (st, { r with pc := .finished (successResponse url),
                    events := [{ name := "app/checkpayment", bookingId := booking.id }] })
  | .finished _ => (st, r)

/-- The run left alone for `n` steps. -/
def Run.exec : Nat → Store → Run → Store × Run
  | 0, st, r => (st, r)
  | n + 1, st, r => Run.exec n (Run.step st r).1 (Run.step st r).2

/-- Two requests in flight on one store. -/
structure Pair where
  store : Store
  first : Run
  second : Run

/-- The scheduler lets one of the two runs perform its next step (`true`: the second). -/
def Pair.step (p : Pair) (second : Bool) : Pair :=
  if second then
    { p with store := (Run.step p.store p.second).1, second := (Run.step p.store p.second).2 }
  else
    { p with store := (Run.step p.store p.first).1, first := (Run.step p.store p.first).2 }

/-- An interleaving: the order in which the scheduler resumes the two runs. -/
def Pair.run (p : Pair) (schedule : List Bool) : Pair :=
  schedule.foldl Pair.step p

/-- Two requests that have both just entered the handler. -/
def Pair.start (st : Store) (env1 : BookingEnv) (req1 : BookingRequest) (env2 : BookingEnv)
    (req2 : BookingRequest) : Pair :=
  { store := st, first := Run.start env1 req1, second := Run.start env2 req2 }

/-! ## Sequences of requests and reconciliation steps -/

/-- One sequentially executed operation on the store. -/
inductive Action
  | book (env : BookingEnv) (req : BookingRequest)
  | reconcile (env : ReleaseEnv) (event : CheckPaymentEvent)

def applyAction (st : Store) : Action → Store
  | .book env req => (createBooking st env req).store
  | .reconcile env event => (checkPaymentStatus st env event).store

def runActions (st : Store) (acts : List Action) : Store :=
  acts.foldl applyAction st

/-- No orphan holds: every occupied seat of every show is a booked seat of some stored
booking that references the show. -/
def NoOrphanHolds (st : Store) : Prop :=
  ∀ s ∈ st.shows, ∀ seat ∈ s.occupiedSeats.keys,
    ∃ b ∈ st.bookings, b.«show» = s.id ∧ seat ∈ b.bookedSeats

instance (st : Store) : Decidable (NoOrphanHolds st) := by
  unfold NoOrphanHolds
  infer_instance

/-! ## `getOccupiedSeats` -/

/-- The JSON body written by `getOccupiedSeats` together with its HTTP status. -/
structure SeatsResponse where
  status : Nat
  success : Bool
  occupiedSeats : Option (List String)
  message : Option String
  deriving DecidableEq, Repr

/-- Source `getOccupiedSeats(req, res)`, with `showId` read from `req.params`.  The list is
`Object.keys(showData.occupiedSeats)`; for a show that is not found the property access
throws and the catch block answers 500. -/
def getOccupiedSeats (st : Store) (showId : String) : SeatsResponse :=
  match st.findShow showId with
  | none =>
    { status := 500, success := false, occupiedSeats := none,
      message := some "Cannot read properties of null (reading 'occupiedSeats')" }
  | some showData =>
    let occupiedSeats := showData.occupiedSeats.keys
    { status := 200, success := true, occupiedSeats := some occupiedSeats, message := none }

/-- Every stored `occupiedSeats` object has each own key once. -/
def Store.SeatKeysDistinct (st : Store) : Prop :=
  ∀ s ∈ st.shows, s.occupiedSeats.keys.Nodup

instance (st : Store) : Decidable st.SeatKeysDistinct := by
  unfold Store.SeatKeysDistinct
  infer_instance

/-! ## The reminder sweep `sendShowReminders` -/

/-- The values `Object.values(show.occupiedSeats)`. -/
def SeatMap.values (m : SeatMap) : List String := m.map (fun p => p.2.val)

/-- The array `[...new Set(values)]`: every value once, in order of first occurrence. -/
def distinctValues : List String → List String
  | [] => []
  | x :: xs => x :: (distinctValues xs).filter (fun y => decide (y ≠ x))

/-- The query `Show.find` with `showDateTime` at or after `windowStart` and before
`in8Hours`. -/
def Store.findShowsBetween (st : Store) (windowStart in8Hours : Int) : List Show :=
  st.shows.filter (fun s => decide (windowStart ≤ s.showDateTime) && decide (s.showDateTime < in8Hours))

/-- The query `User.find` for the users whose `_id` is in `userIds`. -/
def Store.findUsersIn (st : Store) (userIds : List String) : List User :=
  st.users.filter (fun u => decide (u.id ∈ userIds))

/-- One element of `tasks` (`showTime: show.showTime` reads a field the Show does not have
and is left out). -/
structure ReminderTask where
  userEmail : String
  userName : String
  movieTitle : String
  deriving DecidableEq, Repr

/-- The body of the loop `for (const show of shows)` in the `prepare-reminder-tasks` step: the
tasks pushed for one show.  The populated `show.movie` is null when the Movie is not found;
`show.occupiedSeats` is an object, hence truthy. -/
def tasksForShow (st : Store) (s : Show) : List ReminderTask :=
  match st.findMovie s.movie with
  | none => []
  | some movie =>
    let userIds := distinctValues s.occupiedSeats.values
    if userIds.length = 0 then []
    else
      let users := st.findUsersIn userIds
      users.map (fun user =>
        { userEmail := user.email, userName := user.name, movieTitle := movie.title })

/-- Source: the `prepare-reminder-tasks` step of `sendShowReminders`, run at time `now`. -/
def prepareReminderTasks (st : Store) (now : Int) : List ReminderTask :=
  let in8Hours := now + 8 * 60 * 60 * 1000
  let windowStart := in8Hours - 10 * 60 * 1000
  let shows := st.findShowsBetween windowStart in8Hours
  shows.foldl (fun tasks s => tasks ++ tasksForShow st s) []

/-- The arguments of one `sendEmail` call (the HTML body is left out). -/
structure Email where
  recipient : String
  subject : String
  deriving DecidableEq, Repr

/-- An entry of the array `Promise.allSettled` resolves to. -/
inductive Settled
  | fulfilled
  | rejected
  deriving DecidableEq, Repr

/-- The object `sendShowReminders` returns; `failed` is absent from the early return. -/
structure SweepReturn where
  sent : Nat
  failed : Option Nat
  message : String
  deriving DecidableEq, Repr

/-- What one run of the sweep did: the `sendEmail` calls it made, in order, how each
settled, and what it returned. -/
structure SweepOutcome where
  attempts : List Email
  results : List Settled
  returned : SweepReturn
  deriving DecidableEq, Repr

/-- The `sendEmail` call made for one task. -/
def reminderEmail (task : ReminderTask) : Email :=
  { recipient := task.userEmail,
    subject := "Reminder: Your movie " ++ task.movieTitle ++ " is starting soon!" }

/-- Source: `sendShowReminders` after the `prepare-reminder-tasks` step.  `delivered i` tells
whether the `i`-th `sendEmail` call (counted from 0) resolves or rejects. -/
def sendReminders (reminderTasks : List ReminderTask) (delivered : Nat → Bool) : SweepOutcome :=
  if reminderTasks.length = 0 then
    { attempts := [], results := [],
      returned := { sent := 0, failed := none, message := "No reminders to send" } }
  else
    let attempts := reminderTasks.map reminderEmail
    let results := (List.range attempts.length).map
      (fun i => if delivered i then Settled.fulfilled else Settled.rejected)
    let sent := (results.filter (fun result => decide (result = Settled.fulfilled))).length
    let failed := results.length - sent
    { attempts := attempts, results := results,
      returned :=
        { sent := sent, failed := some failed,
          message := toString sent ++ " reminder(s) sent successfully, " ++ toString failed ++
            " failed" } }

/-- Source `sendShowReminders`, run at time `now`. -/
def sendShowReminders (st : Store) (now : Int) (delivered : Nat → Bool) : SweepOutcome :=
  sendReminders (prepareReminderTasks st now) delivered

/-! ## `sendNewShowNotifications` -/

/-- What one run of `sendNewShowNotifications` did: the `sendEmail` calls it made, in order,
and the message it returned (`none` when a rejected `sendEmail` made the function throw). -/
structure NotifyOutcome where
  attempts : List Email
  returned : Option String
  deriving DecidableEq, Repr

/-- The `sendEmail` call made for one user in `sendNewShowNotifications`. -/
def newShowEmail (movieTitle : String) (user : User) : Email :=
  { recipient := user.email,
    subject := "New Show Alert: " ++ movieTitle ++ " is now playing!" }

/-- The loop `for (const user of users) { ... await sendEmail(...) }`, from the `i`-th call on:
the calls made, and whether the loop ran to its end.  A rejected `sendEmail` is not
caught, so it ends the loop. -/
def notifyLoop (movieTitle : String) (delivered : Nat → Bool) : List User → Nat → List Email × Bool
  | [], _ => ([], true)
  | user :: rest, i =>
    if delivered i then
      ((newShowEmail movieTitle user) :: (notifyLoop movieTitle delivered rest (i + 1)).1,
        (notifyLoop movieTitle delivered rest (i + 1)).2)
    else
      ([newShowEmail movieTitle user], false)

/-- Source `sendNewShowNotifications`, for the event data `{ movieTitle }`; `users` is the
result of `User.find({})`. -/
def sendNewShowNotifications (st : Store) (movieTitle : String) (delivered : Nat → Bool) :
    NotifyOutcome :=
  let users := st.users
  let loop := notifyLoop movieTitle delivered users 0
  { attempts := loop.1,
    returned :=
      if loop.2 then
        some ("Notifications sent to " ++ toString users.length ++ " users for new show: " ++
          movieTitle)
      else none }

/-! ## The verification code of `sendBookingConfirmationEmail` -/

/-- The call `s.slice(-8)`: the last eight characters, or all of `s` when it is shorter. -/
def sliceLast8 (s : String) : String :=
  ⟨s.data.drop (s.data.length - 8)⟩

/-- The call `s.toUpperCase()`, on the ASCII letters a booking id (a hexadecimal ObjectId
string) is made of. -/
def toUpperCase (s : String) : String :=
  ⟨s.data.map Char.toUpper⟩

/-- The booking with `show` (and its `movie`) and `user` populated, as the handler reads
it. -/
structure PopulatedBooking where
  booking : Booking
  movieTitle : String
  showDateTime : Int
  user : User

/-- The object `qrData`. -/
structure QrData where
  bookingId : String
  movieTitle : String
  showDate : Int
  seats : List String
  userName : String
  userEmail : String
  amount : ℚ
  venue : String
  verificationCode : String

/-- Source: the `qrData` object built in `sendBookingConfirmationEmail`. -/
def confirmationQrData (b : PopulatedBooking) : QrData :=
  { bookingId := b.booking.id,
    movieTitle := b.movieTitle,
    showDate := b.showDateTime,
    seats := b.booking.bookedSeats,
    userName := b.user.name,
    userEmail := b.user.email,
    amount := b.booking.amount,
    venue := "ShowZa Cinema",
    verificationCode := "SZ-" ++ toUpperCase (sliceLast8 b.booking.id) }

/-! ## The catalog clients: `handleTMDBError` and the retry interceptors -/

/-- The fields of an axios error the handlers read: `error.code`, `error.response?.status`
(absent when there is no response) and the raw text `error.message`. -/
structure UpstreamFailure where
  code : Option String
  status : Option Nat
  message : String
  deriving DecidableEq, Repr

/-- The body `handleTMDBError` returns. -/
structure FailureBody where
  success : Bool
  message : String
  deriving DecidableEq, Repr

/-- Source `handleTMDBError(error, operation)`. -/
def handleTMDBError (error : UpstreamFailure) (operation : String) : FailureBody :=
  if error.code = some "ECONNRESET" ∨ error.code = some "ETIMEDOUT" then
    { success := false,
      message := "Movie database temporarily unavailable. Please try again later." }
  else if error.status = some 401 then
    { success := false, message := "Invalid API configuration. Please contact support." }
  else if error.status = some 429 then
    { success := false, message := "Too many requests. Please wait a moment and try again." }
  else
    { success := false, message := "Failed to " ++ operation ++ ". Please try again." }

/-- The request config of a catalog client: `retry`, `retryDelay` (milliseconds) and the
counter `__retryCount`, undefined until the first retry. -/
structure RequestConfig where
  retry : Nat
  retryDelay : Nat
  retryCount : Option Nat
  deriving DecidableEq, Repr

/-- The client of `tmdbController.js`: `retry: 5, retryDelay: 1500`. -/
def tmdbConfig : RequestConfig := { retry := 5, retryDelay := 1500, retryCount := none }

/-- The client of `showController.js`: `retry: 3, retryDelay: 1000`. -/
def showConfig : RequestConfig := { retry := 3, retryDelay := 1000, retryCount := none }

/-- The error handed to a response interceptor. -/
structure AxiosError where
  config : Option RequestConfig
  failure : UpstreamFailure
  deriving DecidableEq, Repr

/-- A value of `Math.random()`: at least 0 and less than 1. -/
abbrev UnitRandom := { q : ℚ // 0 ≤ q ∧ q < 1 }

/-- What an interceptor does with an error: reject it to the caller, or wait `delay`
milliseconds and re-issue the request with the updated config. -/
inductive Decision
  | reject
  | retry (config : RequestConfig) (delay : ℚ)
  deriving DecidableEq

/-- The retry condition of the interceptor in `tmdbController.js`. -/
def tmdbRetryable (f : UpstreamFailure) : Bool :=
  decide (f.code = some "ECONNRESET") || decide (f.code = some "ETIMEDOUT") ||
  decide (f.code = some "ENOTFOUND") || decide (f.code = some "ECONNREFUSED") ||
  decide (f.code = some "EPIPE") ||
  (match f.status with
   | some status => decide (status ≥ 500)
   | none => false) ||
  decide (f.status = some 429)

/-- Source: the response error interceptor of `tmdbApi` in `tmdbController.js`; `random` is the
value `Math.random()` returns if it is called. -/
def tmdbInterceptor (error : AxiosError) (random : UnitRandom) : Decision :=
  match error.config with
  | none => .reject
  | some config =>
    if config.retry = 0 then .reject
    else if tmdbRetryable error.failure then
      let retryCount := config.retryCount.getD 0
      if retryCount < config.retry then
        let retryCount := retryCount + 1
        let delay := (config.retryDelay : ℚ) * 2 ^ (retryCount - 1) + random.val * 1000
        .retry { config with retryCount := some retryCount } delay
      else .reject
    else .reject

/-- The retry condition of the interceptor in `showController.js`. -/
def showRetryable (f : UpstreamFailure) : Bool :=
  decide (f.code = some "ECONNRESET") || decide (f.code = some "ETIMEDOUT") ||
  decide (f.code = some "ENOTFOUND") ||
  (match f.status with
   | some status => decide (status ≥ 500)
   | none => false)

/-- Source: the response error interceptor of `tmdbApi` in `showController.js`. -/
def showInterceptor (error : AxiosError) : Decision :=
  match error.config with
  | none => .reject
  | some config =>
    if config.retry = 0 then .reject
    else if showRetryable error.failure then
      let retryCount := config.retryCount.getD 0
      if retryCount < config.retry then
        let retryCount := retryCount + 1
        let delay := (config.retryDelay : ℚ) * (retryCount : ℚ)
        .retry { config with retryCount := some retryCount } delay
      else .reject
    else .reject

/-- What the upstream does with one attempt: it responds, or the attempt fails (and `random`
is what `Math.random()` yields while the failure is handled). -/
inductive Upstream
  | responded
  | failed (failure : UpstreamFailure) (random : UnitRandom)

/-- How a request ended: its promise resolved, was rejected with an error, or the outcome of
the attempt in flight is not known yet. -/
inductive RequestResult
  | pending
  | resolved
  | rejected (failure : UpstreamFailure)
  deriving DecidableEq, Repr

/-- The attempts made for one request, the delays waited before the re-issues, and the
result. -/
structure RequestTrace where
  attempts : Nat
  delays : List ℚ
  result : RequestResult
  deriving DecidableEq

/-- One request through a client whose response interceptor is `intercept`: each failed
attempt is handed to the interceptor, and a re-issued request that fails is handed to it
again with the same, updated config. -/
def runRequest (intercept : AxiosError → UnitRandom → Decision) (config : RequestConfig) :
    List Upstream → RequestTrace
  | [] => { attempts := 0, delays := [], result := .pending }
  | .responded :: _ => { attempts := 1, delays := [], result := .resolved }
  | .failed failure random :: rest =>
    match intercept { config := some config, failure := failure } random with
    | .reject => { attempts := 1, delays := [], result := .rejected failure }
    | .retry config' delay =>
      { attempts := (runRequest intercept config' rest).attempts + 1,
        delays := delay :: (runRequest intercept config' rest).delays,
        result := (runRequest intercept config' rest).result }

/-- A request through the client of `tmdbController.js`. -/
def tmdbRequest (config : RequestConfig) (upstream : List Upstream) : RequestTrace :=
  runRequest tmdbInterceptor config upstream

/-- A request through the client of `showController.js`. -/
def showRequest (config : RequestConfig) (upstream : List Upstream) : RequestTrace :=
  runRequest (fun error _ => showInterceptor error) config upstream

/-! ## The middleware `requireAuth` and `protectAdmin` -/

/-- What the call `req.auth()` does: it throws, or it returns an object whose `userId` is a
string or is missing (`null`, `undefined`). -/
inductive AuthCall
  | throws (message : String)
  | returns (userId : Option String)
  deriving DecidableEq, Repr

/-- What a middleware does with a request: call `next()`, or write a response. -/
inductive Gate
  | next
  | respond (response : Response)
  deriving DecidableEq, Repr

/-- Source `requireAuth(req, res, next)`. -/
def requireAuth (auth : AuthCall) : Gate :=
  match auth with
  | .throws _ =>
    .respond { status := 401, success := false, message := some "Invalid authentication",
               url := none }
  | .returns userId =>
    match userId with
    | none =>
      .respond { status := 401, success := false, message := some "Authentication required",
                 url := none }
    | some id =>
      if id = "" then
        .respond { status := 401, success := false, message := some "Authentication required",
                   url := none }
      else .next

/-- The identity `req.auth().userId` of a request that `requireAuth` let through. -/
def AuthCall.userIdOfNext (auth : AuthCall) (h : requireAuth auth = .next) : UserId :=
  match auth, h with
  | .returns (some id), h =>
    ⟨id, by
      intro hid
      subst hid
      simp [requireAuth] at h⟩
  | .returns none, h => absurd h (by simp [requireAuth])
  | .throws _, h => absurd h (by simp [requireAuth])

/-- What a route does with a request: a middleware answered it, or the handler ran. -/
inductive RouteResult (α : Type)
  | rejected (response : Response)
  | handled (result : α)

/-- A route `router.post(path, requireAuth, handler)`: the handler runs only when `requireAuth`
calls `next()`, and then reads the same `req.auth().userId`. -/
def behindRequireAuth {α : Type} (auth : AuthCall) (handler : UserId → α) : RouteResult α :=
  match h : requireAuth auth with
  | .respond response => .rejected response
  | .next => .handled (handler (auth.userIdOfNext h))

/-- The route `router.post('/create', requireAuth, createBooking)`. -/
def postCreateBooking (st : Store) (env : BookingEnv) (auth : AuthCall) (showId : String)
    (selectedSeats : List String) : RouteResult Outcome :=
  behindRequireAuth auth (fun userId => createBooking st env ⟨userId, showId, selectedSeats⟩)

/-- The route `router.get('/occupied-seats/:showId', requireAuth, getOccupiedSeats)`. -/
def getOccupiedSeatsRoute (st : Store) (auth : AuthCall) (showId : String) :
    RouteResult SeatsResponse :=
  behindRequireAuth auth (fun _ => getOccupiedSeats st showId)

/-- The user the identity provider returns, as far as `protectAdmin` reads it:
`user.privateMetadata.role`, which may be missing. -/
structure ClerkUser where
  role : Option String
  deriving DecidableEq, Repr

/-- Source `protectAdmin(req, res, next)`; `getUser` is `clerkClient.users.getUser`, which
rejects for an id it does not know. -/
def protectAdmin (auth : AuthCall) (getUser : Option String → Except String ClerkUser) : Gate :=
  match auth with
  | .throws message => .respond (serverError message)
  | .returns userId =>
    match getUser userId with
    | .error message => .respond (serverError message)
    | .ok user =>
      if user.role ≠ some "admin" then
        .respond { status := 403, success := false, message := some "Access denied",
                   url := none }
      else .next

/-! ## `getTopBookedMovie` -/

/-- One group of the aggregation: the movie with its totals. -/
structure MovieStats where
  movie : Movie
  totalBookings : Nat
  totalSeats : Nat
  totalRevenue : ℚ
  deriving DecidableEq

/-- The stages `$match`, `$lookup`/`$unwind` on shows and `$lookup`/`$unwind` on movies: every
paid booking whose show and whose show's movie are found, with that movie. -/
def paidRows (st : Store) : List (Booking × Movie) :=
  (st.bookings.filter (fun b => b.isPaid)).filterMap (fun b =>
    match st.findShow b.«show» with
    | none => none
    | some showData =>
      match st.findMovie showData.movie with
      | none => none
      | some movieData => some (b, movieData))

/-- The accumulator `$sum` of the database on the `amount` values of one group, given in
the order in which the rows reach the `$group` stage.  The amounts are doubles and the
database adds them in floating point, so the total is not their exact sum in general
(0.1 and 0.2 give 0.30000000000000004); the handler passes on what the database computes,
and the model takes the accumulator as given. -/
abbrev SumAccumulator := List ℚ → ℚ

/-- The accumulators of the `$group` stage for the rows of one movie id: `$sum: 1` and the
`$sum` of `$size: '$bookedSeats'` add integers, `sumAmounts` is `$sum: '$amount'`. -/
def groupStats (sumAmounts : SumAccumulator) (rows : List (Booking × Movie))
    (movieId : String) : Option MovieStats :=
  match rows.filter (fun r => decide (r.2.id = movieId)) with
  | [] => none
  | first :: others =>
    some { movie := first.2,
           totalBookings := (first :: others).length,
           totalSeats := ((first :: others).map (fun r => r.1.bookedSeats.length)).sum,
           totalRevenue := sumAmounts ((first :: others).map (fun r => r.1.amount)) }

/-- The `$group` stage: one group per movie id among the rows. -/
def groupByMovie (sumAmounts : SumAccumulator) (rows : List (Booking × Movie)) :
    List MovieStats :=
  (distinctValues (rows.map (fun r => r.2.id))).filterMap (groupStats sumAmounts rows)

/-- The stages `$sort: { totalBookings: -1 }` and `$limit: 1`: a group with the largest
`totalBookings` (among equal ones the model keeps the earliest). -/
def topGroup : List MovieStats → Option MovieStats
  | [] => none
  | g :: rest =>
    match topGroup rest with
    | none => some g
    | some best => if g.totalBookings < best.totalBookings then some best else some g

/-- The JSON body written by `getTopBookedMovie` together with its HTTP status. -/
structure TopMovieResponse where
  status : Nat
  success : Bool
  movie : Option MovieStats
  message : Option String
  deriving DecidableEq

/-- Source `getTopBookedMovie(req, res)`.  Without any group, the handler falls back to the
most recently created show (the last stored one) and reports its movie with zero totals. -/
def getTopBookedMovie (sumAmounts : SumAccumulator) (st : Store) : TopMovieResponse :=
  match topGroup (groupByMovie sumAmounts (paidRows st)) with
  | none =>
    match st.shows.getLast? with
    | some defaultShow =>
      match st.findMovie defaultShow.movie with
      | some movie =>
        { status := 200, success := true,
          movie := some { movie := movie, totalBookings := 0, totalSeats := 0,
                          totalRevenue := 0 },
          message := none }
      | none =>
        { status := 500, success := false, movie := none,
          message := some "Cannot read properties of null (reading 'toObject')" }
    | none => { status := 404, success := false, movie := none, message := some "No movies found" }
  | some top => { status := 200, success := true, movie := some top, message := none }

/-- The paid bookings on shows of the movie with this id. -/
def paidBookingsOf (st : Store) (movieId : String) : List Booking :=
  st.bookings.filter (fun b => b.isPaid &&
    match st.findShow b.«show» with
    | some showData => decide (showData.movie = movieId)
    | none => false)

/-! ## Scenario data -/

def U1 : UserId := ⟨"U1", by decide⟩

def U2 : UserId := ⟨"U2", by decide⟩

/-- Show S of the scenario: price 10.00, every seat free. -/
def showS : Show :=
  { id := "S", movie := "M", showDateTime := 28500000, showPrice := 10, occupiedSeats := [] }

def store0 : Store :=
  { movies := [{ id := "M", title := "Movie" }], shows := [showS], bookings := [],
    users := [{ id := "U1", name := "Ann", email := "ann@example.org" },
              { id := "U2", name := "Bob", email := "bob@example.org" }] }

/-- Every external call succeeds; the created booking gets the given id. -/
def envOk (bookingId : String) : BookingEnv :=
  { create := .ok bookingId, showSave := .ok (), session := .ok "https://pay/session",
    bookingSave := .ok (), send := .ok () }

/-- The store after U1 booked A1 and A2 on show S. -/
def store1 : Store := (createBooking store0 (envOk "b1") ⟨U1, "S", ["A1", "A2"]⟩).store

/-- The booking U1 holds after the first request of the scenario: two seats at 10.00. -/
def bookingB1 : Booking :=
  { id := "b1", user := U1, «show» := "S", amount := 20, bookedSeats := ["A1", "A2"],
    isPaid := false, paymentLink := some "https://pay/session" }

/-- The scenario store after U1 paid for the booking. -/
def storePaid : Store :=
  { store1 with bookings := [{ bookingB1 with isPaid := true }] }

/-- Both availability checks run before either request writes: the first run checks, the
second run checks, then the first run and after it the second run go on to their response. -/
def racingSchedule : List Bool :=
  [false, true] ++ List.replicate 6 false ++ List.replicate 6 true

/-- The two overlapping requests of the scenario, both arriving while every seat is free. -/
def racingPair : Pair :=
  Pair.start store0 (envOk "b1") ⟨U1, "S", ["A1", "A2"]⟩ (envOk "b2") ⟨U2, "S", ["A2", "B1"]⟩

/-- Both writes of the reconciliation step succeed. -/
def releaseOk : ReleaseEnv := { showSave := .ok (), bookingDelete := .ok () }


/-- Every external call resolves: the created booking gets `bookingId`, the payment session
has the given `url`. -/
def envResolving (bookingId url : String) : BookingEnv :=
  { create := .ok bookingId, showSave := .ok (), session := .ok url,
    bookingSave := .ok (), send := .ok () }

/-- The payment gateway rejects the session; every other call resolves. -/
def envSessionFails : BookingEnv :=
  { envOk "b1" with session := .error "payment gateway unavailable" }

/-- Saving the show fails; every other call would resolve. -/
def envShowSaveFails : BookingEnv :=
  { envOk "b1" with showSave := .error "show save failed" }

/-- A store whose only show costs 10.50 per seat. -/
def storeHalf : Store :=
  { store0 with shows := [{ showS with showPrice := 21 / 2 }] }

/-- A store whose only show starts at `start` and has two seats held by two users. -/
def sweepStore (start : Int) : Store :=
  { store0 with
    shows := [{ showS with showDateTime := start, occupiedSeats := [("A1", U1), ("B1", U2)] }] }

/-- A rate-limited response of the movie catalog. -/
def rateLimited : UpstreamFailure :=
  { code := some "ERR_BAD_RESPONSE", status := some 429,
    message := "Request failed with status code 429" }

/-- A server error of the movie catalog. -/
def serverDown : UpstreamFailure :=
  { code := some "ERR_BAD_RESPONSE", status := some 503,
    message := "Request failed with status code 503" }

/-- A value of `Math.random()`. -/
def halfRandom : UnitRandom := ⟨1 / 2, by norm_num⟩

/-- A value of `Math.random()` close to 1: a jitter of 999.9 ms. -/
def lateRandom : UnitRandom := ⟨9999 / 10000, by norm_num⟩

/-- The smallest value of `Math.random()`: no jitter. -/
def earlyRandom : UnitRandom := ⟨0, by norm_num⟩

/-- Six server errors in a row; the jitter drawn is alternately the largest and the
smallest. -/
def jitterUpstream : List Upstream :=
  [.failed serverDown lateRandom, .failed serverDown earlyRandom,
   .failed serverDown lateRandom, .failed serverDown earlyRandom,
   .failed serverDown lateRandom, .failed serverDown earlyRandom]

/-- The error axios raises for a response with status 404: `code` is `ERR_BAD_REQUEST`. -/
def notFound : UpstreamFailure :=
  { code := some "ERR_BAD_REQUEST", status := some 404,
    message := "Request failed with status code 404" }

/-- The scenario store with show price 8.2, as `Number('8.2')` stores it: the double
nearest to 8.2. -/
def storeFraction : Store :=
  { store0 with shows := [{ showS with showPrice := 2308094809027379 / 281474976710656 }] }

/-- Fifteen free seats of the scenario show. -/
def fifteenSeats : List String :=
  ["A1", "A2", "A3", "A4", "A5", "A6", "A7", "A8", "A9", "A10", "A11", "A12", "A13", "A14",
   "A15"]

/-- The scenario booking with a 24-character id, populated. -/
def populatedB1 : PopulatedBooking :=
  { booking := { bookingB1 with id := "65a1b2c3d4e5f60718293a4b" }, movieTitle := "Movie",
    showDateTime := 28500000,
    user := { id := "U1", name := "Ann", email := "ann@example.org" } }

/-- The identity provider of the scenario: U1 is an admin, U2 is a plain user, nobody else
is known. -/
def clerkUsers : Option String → Except String ClerkUser
  | some "U1" => .ok { role := some "admin" }
  | some "U2" => .ok { role := none }
  | _ => .error "Not Found"

/-- An accumulator for the scenario: the exact total rounded to the nearest double. -/
def roundedSum : SumAccumulator := fun amounts => roundDouble amounts.sum

/-- The scenario store with U1's booking paid and a second, unpaid booking of U2. -/
def storeTwoBookings : Store :=
  { store0 with
    shows := [{ showS with occupiedSeats := [("A1", U1), ("A2", U1), ("B1", U2)] }],
    bookings := [{ bookingB1 with isPaid := true },
                 { id := "b2", user := U2, «show» := "S", amount := 10, bookedSeats := ["B1"],
                   isPaid := false, paymentLink := none }] }

/-! ## Lemmas on the seat map -/

namespace SeatMap

theorem get_cons (k : String) (v : UserId) (rest : SeatMap) (seat : String) :
    get ((k, v) :: rest) seat = if seat = k then some v else get rest seat := by
  by_cases h : seat = k
  · subst h; simp [get, List.lookup]
  · have hb : (seat == k) = false := by simpa using h
    simp [get, List.lookup, hb, h]

theorem get_eq_none_iff (m : SeatMap) (seat : String) : m.get seat = none ↔ seat ∉ m.keys := by
  induction m with
  | nil => simp [get, keys, List.lookup]
  | cons p rest ih =>
    obtain ⟨k, v⟩ := p
    rw [get_cons]
    by_cases h : seat = k
    · simp [h, keys]
    · simp only [h, if_false, ih]
      simp [keys, h]

theorem isTruthyAt_of_mem_keys (m : SeatMap) (seat : String) (h : seat ∈ m.keys) :
    m.isTruthyAt seat = true := by
  unfold isTruthyAt
  cases hg : m.get seat with
  | none => exact absurd h ((get_eq_none_iff m seat).1 hg)
  | some u => simpa [truthy] using u.property

theorem get_set (m : SeatMap) (seat : String) (u : UserId) (k : String) :
    (m.set seat u).get k = if k = seat then some u else m.get k := by
  induction m with
  | nil =>
    unfold set
    rw [get_cons]
  | cons p rest ih =>
    obtain ⟨k0, v0⟩ := p
    unfold set
    by_cases h0 : k0 = seat
    · subst h0
      simp only [if_true, get_cons]
      by_cases hk : k = k0 <;> simp [hk]
    · simp only [h0, if_false, get_cons, ih]
      by_cases hk : k = k0
      · subst hk; simp [h0]
      · simp [hk]

theorem get_delete (m : SeatMap) (seat k : String) :
    (m.delete seat).get k = if k = seat then none else m.get k := by
  induction m with
  | nil => simp [delete, get, List.lookup]
  | cons p rest ih =>
    obtain ⟨k0, v0⟩ := p
    unfold delete at ih ⊢
    by_cases h0 : k0 = seat
    · subst h0
      simp only [List.filter, ne_eq, not_true_eq_false, decide_False, ih, get_cons]
      by_cases hk : k = k0 <;> simp [hk]
    · simp only [List.filter, ne_eq, h0, not_false_eq_true, decide_True, get_cons, ih]
      by_cases hk : k = k0
      · subst hk; simp [h0]
      · simp [hk]

end SeatMap

theorem get_markSeats (seats : List String) (occ : SeatMap) (u : UserId) (k : String) :
    (markSeats occ seats u).get k = if k ∈ seats then some u else occ.get k := by
  induction seats generalizing occ with
  | nil => simp [markSeats]
  | cons s rest ih =>
    have hstep : markSeats occ (s :: rest) u = markSeats (occ.set s u) rest u := rfl
    rw [hstep, ih, SeatMap.get_set]
    by_cases h1 : k ∈ rest
    · simp [h1]
    · by_cases h2 : k = s <;> simp [h1, h2]

/-! ## Lemmas on the store -/

theorem find?_map_of_preserve {α : Type} (p : α → Bool) (f : α → α)
    (hp : ∀ a, p (f a) = p a) (l : List α) : (l.map f).find? p = (l.find? p).map f := by
  induction l with
  | nil => rfl
  | cons a rest ih =>
    simp only [List.map_cons, List.find?_cons, hp]
    cases p a <;> simp [ih]

namespace Store

theorem findShow_saveShowSeats (st : Store) (showId : String) (occ : SeatMap) (k : String) :
    (st.saveShowSeats showId occ).findShow k =
      (st.findShow k).map (fun s => if s.id = showId then { s with occupiedSeats := occ } else s) := by
  unfold findShow saveShowSeats
  apply find?_map_of_preserve
  intro s
  by_cases h : s.id = showId <;> simp [h]

theorem findShow_id (st : Store) (k : String) (s : Show) (h : st.findShow k = some s) :
    s.id = k := by
  unfold findShow at h
  simpa using List.find?_some h

theorem findShow_mem (st : Store) (k : String) (s : Show) (h : st.findShow k = some s) :
    s ∈ st.shows := by
  unfold findShow at h
  exact List.mem_of_find?_eq_some h

theorem findShow_saveBookingLink (st : Store) (bookingId url k : String) :
    (st.saveBookingLink bookingId url).findShow k = st.findShow k := rfl

theorem shows_saveBookingLink (st : Store) (bookingId url : String) :
    (st.saveBookingLink bookingId url).shows = st.shows := rfl

theorem bookings_saveShowSeats (st : Store) (showId : String) (occ : SeatMap) :
    (st.saveShowSeats showId occ).bookings = st.bookings := rfl

theorem bookings_saveBookingLink_fresh (st : Store) (b : Booking) (url : String)
    (old : List Booking) (hst : st.bookings = old ++ [b]) (hfresh : ∀ x ∈ old, x.id ≠ b.id) :
    (st.saveBookingLink b.id url).bookings = old ++ [{ b with paymentLink := some url }] := by
  unfold saveBookingLink
  simp only [hst, List.map_append, List.map_cons, List.map_nil, if_true]
  congr 1
  conv_rhs => rw [← List.map_id old]
  apply List.map_congr_left
  intro x hx
  simp [hfresh x hx]

end Store

/-! ## Rounding to the nearest double -/

/-- An integer is its own nearest integer. -/
theorem roundHalfEven_intCast (z : ℤ) : roundHalfEven (z : ℚ) = z := by
  unfold roundHalfEven
  simp

/-- Rounding a number of known binary exponent. -/
theorem roundDouble_of_log (q : ℚ) (e : ℤ) (he : -1022 ≤ e) (hlo : (2 : ℚ) ^ e ≤ |q|)
    (hhi : |q| < (2 : ℚ) ^ (e + 1)) :
    roundDouble q = (roundHalfEven (q / 2 ^ (e - 52)) : ℚ) * 2 ^ (e - 52) := by
  have hpos : 0 < |q| := lt_of_lt_of_le (zpow_pos (by norm_num) e) hlo
  have hlog : Int.log 2 |q| = e := by
    apply le_antisymm
    · have hiff : |q| < ((2 : ℕ) : ℚ) ^ (e + 1) ↔ Int.log 2 |q| < e + 1 :=
        Int.lt_zpow_iff_log_lt (by norm_num) hpos
      have := hiff.1 (by exact_mod_cast hhi)
      omega
    · have hiff : ((2 : ℕ) : ℚ) ^ e ≤ |q| ↔ e ≤ Int.log 2 |q| :=
        Int.zpow_le_iff_le_log (by norm_num) hpos
      exact hiff.1 (by exact_mod_cast hlo)
  unfold roundDouble
  simp only [hlog, max_eq_left he]

/-- A number `m * 2 ^ k` with `|m| < 2 ^ 53` and `k` at least -1074 is a double: rounding
leaves it as it is. -/
theorem roundDouble_of_representable (m k : ℤ) (hm : |m| < 2 ^ 53) (hk : -1074 ≤ k) :
    roundDouble ((m : ℚ) * 2 ^ k) = (m : ℚ) * 2 ^ k := by
  by_cases h0 : m = 0
  · subst h0
    simp [roundDouble, roundHalfEven]
  have hmpos : (0 : ℚ) < |(m : ℚ)| := abs_pos.2 (by exact_mod_cast h0)
  have hq : |(m : ℚ) * 2 ^ k| = |(m : ℚ)| * 2 ^ k := by
    rw [abs_mul, abs_of_pos (zpow_pos (by norm_num : (0 : ℚ) < 2) k)]
  have hpos : (0 : ℚ) < |(m : ℚ) * 2 ^ k| := by
    rw [hq]; exact mul_pos hmpos (zpow_pos (by norm_num) k)
  have hmq : |(m : ℚ)| < 2 ^ (53 : ℤ) := by
    have : ((|m| : ℤ) : ℚ) < ((2 ^ 53 : ℤ) : ℚ) := by exact_mod_cast hm
    rw [Int.cast_abs] at this
    rw [zpow_ofNat]
    exact_mod_cast this
  have hlt : |(m : ℚ) * 2 ^ k| < (2 : ℚ) ^ (53 + k) := by
    rw [hq, zpow_add₀ (by norm_num : (2 : ℚ) ≠ 0)]
    exact mul_lt_mul_of_pos_right hmq (zpow_pos (by norm_num) k)
  have hiff : |(m : ℚ) * 2 ^ k| < ((2 : ℕ) : ℚ) ^ (53 + k) ↔
      Int.log 2 |(m : ℚ) * 2 ^ k| < 53 + k := Int.lt_zpow_iff_log_lt (by norm_num) hpos
  have hlog : Int.log 2 |(m : ℚ) * 2 ^ k| < 53 + k := hiff.1 (by exact_mod_cast hlt)
  obtain ⟨j, hj⟩ : ∃ j : ℕ, k = max (Int.log 2 |(m : ℚ) * 2 ^ k|) (-1022) - 52 + j := by
    refine ⟨(k - (max (Int.log 2 |(m : ℚ) * 2 ^ k|) (-1022) - 52)).toNat, ?_⟩
    have : max (Int.log 2 |(m : ℚ) * 2 ^ k|) (-1022) - 52 ≤ k := by
      rcases max_cases (Int.log 2 |(m : ℚ) * 2 ^ k|) (-1022) with ⟨h, _⟩ | ⟨h, _⟩ <;> omega
    omega
  unfold roundDouble
  simp only
  generalize max (Int.log 2 |(m : ℚ) * 2 ^ k|) (-1022) - 52 = u at hj
  have hu : (2 : ℚ) ^ u ≠ 0 := zpow_ne_zero _ (by norm_num)
  have hdiv : (m : ℚ) * 2 ^ k / 2 ^ u = ((m * 2 ^ j : ℤ) : ℚ) := by
    rw [hj, zpow_add₀ (by norm_num : (2 : ℚ) ≠ 0), zpow_natCast]
    push_cast
    field_simp
    ring
  rw [hdiv, roundHalfEven_intCast]
  rw [hj, zpow_add₀ (by norm_num : (2 : ℚ) ≠ 0), zpow_natCast]
  push_cast
  ring

/-- The natural numbers below `2 ^ 53` are doubles. -/
theorem roundDouble_natCast (n : ℕ) (h : n < 2 ^ 53) : roundDouble (n : ℚ) = n := by
  have := roundDouble_of_representable (n : ℤ) 0 (by
    rw [abs_of_nonneg (Int.natCast_nonneg n)]; exact_mod_cast h) (by norm_num)
  simpa using this

/-- Rounding down: the fractional part is less than a half. -/
theorem roundHalfEven_of_lt (x : ℚ) (f : ℤ) (h0 : (f : ℚ) ≤ x) (h1 : x - f < 1 / 2) :
    roundHalfEven x = f := by
  have hf : ⌊x⌋ = f := by
    rw [Int.floor_eq_iff]
    constructor
    · exact h0
    · linarith
  unfold roundHalfEven
  simp only [hf, h1, if_true]

/-- The nearest integer is at most a half away. -/
theorem roundHalfEven_sub_abs_le (x : ℚ) : |(roundHalfEven x : ℚ) - x| ≤ 1 / 2 := by
  have h0 : (⌊x⌋ : ℚ) ≤ x := Int.floor_le x
  have h1 : x < ⌊x⌋ + 1 := Int.lt_floor_add_one x
  unfold roundHalfEven
  simp only
  split_ifs with ha hb hc
  · rw [abs_le]; constructor <;> linarith
  · rw [abs_le]; push_cast; constructor <;> linarith
  · rw [abs_le]; constructor <;> linarith
  · rw [abs_le]; push_cast; constructor <;> linarith

/-- The rounding error: at most `2 ^ (-53)` of the number, or `2 ^ (-1075)` among the
subnormal doubles. -/
theorem roundDouble_sub_abs_le (q : ℚ) :
    |roundDouble q - q| ≤ max (|q| * 2 ^ (-53 : ℤ)) (2 ^ (-1075 : ℤ)) := by
  have h2 : (2 : ℚ) ≠ 0 := by norm_num
  have key : ∀ u : ℤ, |(roundHalfEven (q / 2 ^ u) : ℚ) * 2 ^ u - q| ≤ 2 ^ (u - 1) := by
    intro u
    have hu : (0 : ℚ) < 2 ^ u := zpow_pos (by norm_num) u
    have heq : (roundHalfEven (q / 2 ^ u) : ℚ) * 2 ^ u - q =
        ((roundHalfEven (q / 2 ^ u) : ℚ) - q / 2 ^ u) * 2 ^ u := by
      field_simp
    rw [heq, abs_mul, abs_of_pos hu, zpow_sub₀ h2, zpow_one]
    have := roundHalfEven_sub_abs_le (q / 2 ^ u)
    have hmul := mul_le_mul_of_nonneg_right this (le_of_lt hu)
    calc _ ≤ 1 / 2 * 2 ^ u := hmul
      _ = 2 ^ u / 2 := by ring
  by_cases hq0 : q = 0
  · subst hq0
    have h0 : roundDouble 0 = 0 := by simp [roundDouble, roundHalfEven]
    rw [h0, sub_zero, abs_zero]
    exact le_trans (le_of_lt (zpow_pos (by norm_num) _)) (le_max_right _ _)
  unfold roundDouble
  simp only
  rcases le_total (Int.log 2 |q|) (-1022) with hle | hge
  · rw [max_eq_right hle]
    refine le_trans (key _) (le_trans ?_ (le_max_right _ _))
    norm_num
  · rw [max_eq_left hge]
    refine le_trans (key _) (le_trans ?_ (le_max_left _ _))
    have hpos : 0 < |q| := abs_pos.2 hq0
    have hlog : (2 : ℚ) ^ Int.log 2 |q| ≤ |q| := by
      have h : ((2 : ℕ) : ℚ) ^ Int.log 2 |q| ≤ |q| :=
        Int.zpow_log_le_self (by norm_num) hpos
      exact_mod_cast h
    have hsplit : (2 : ℚ) ^ (Int.log 2 |q| - 52 - 1) = 2 ^ Int.log 2 |q| * 2 ^ (-53 : ℤ) := by
      rw [← zpow_add₀ h2]
      congr 1
      omega
    rw [hsplit]
    exact mul_le_mul_of_nonneg_right hlog (le_of_lt (zpow_pos (by norm_num) _))

theorem jsMul_ten_two : jsMul 10 ((2 : ℕ) : ℚ) = 20 := by
  have h : (10 : ℚ) * ((2 : ℕ) : ℚ) = ((20 : ℕ) : ℚ) := by norm_num
  rw [jsMul, h, roundDouble_natCast 20 (by norm_num)]
  norm_num

/-! ## Lemmas on `createBooking` -/

theorem checkSeatAvailability_false_of_key (st : Store) (showId : String) (seats : List String)
    (showData : Show) (seat : String) (hs : st.findShow showId = some showData)
    (hmem : seat ∈ seats) (hk : seat ∈ showData.occupiedSeats.keys) :
    checkSeatAvailability st showId seats = false := by
  unfold checkSeatAvailability
  simp only [hs, Bool.not_eq_false', List.any_eq_true]
  exact ⟨seat, hmem, SeatMap.isTruthyAt_of_mem_keys _ _ hk⟩

theorem checkSeatAvailability_missing (st : Store) (showId : String) (seats : List String)
    (hs : st.findShow showId = none) : checkSeatAvailability st showId seats = false := by
  unfold checkSeatAvailability
  simp [hs]

theorem createBooking_unavailable (st : Store) (env : BookingEnv) (req : BookingRequest)
    (h : checkSeatAvailability st req.showId req.selectedSeats = false) :
    createBooking st env req =
      { store := st, sessions := [], events := [], response := seatsNotAvailable } := by
  unfold createBooking
  simp [h]

theorem createBooking_store (st : Store) (env : BookingEnv) (req : BookingRequest) :
    (createBooking st env req).store = st ∨
    ∃ showData bookingId link,
      checkSeatAvailability st req.showId req.selectedSeats = true ∧
      st.findShow req.showId = some showData ∧ env.create = .ok bookingId ∧
      (∀ x ∈ st.bookings, x.id ≠ bookingId) ∧
      (createBooking st env req).store.movies = st.movies ∧
      (createBooking st env req).store.bookings = st.bookings ++
        [{ id := bookingId, user := req.userId, «show» := req.showId,
           amount := jsMul showData.showPrice (req.selectedSeats.length : ℚ),
           bookedSeats := req.selectedSeats, isPaid := false, paymentLink := link }] ∧
      ((createBooking st env req).store.shows = st.shows ∨
       (createBooking st env req).store.shows =
        (st.saveShowSeats showData.id
          (markSeats showData.occupiedSeats req.selectedSeats req.userId)).shows) := by
  cases hc : checkSeatAvailability st req.showId req.selectedSeats with
  | false => left; rw [createBooking_unavailable st env req hc]
  | true =>
    cases hf : st.findShow req.showId with
    | none => left; simp [createBooking, hc, hf]
    | some showData =>
      cases hcr : env.create with
      | error msg => left; simp [createBooking, hc, hf, hcr]
      | ok bookingId =>
        by_cases hdup : st.bookings.any (fun b => decide (b.id = bookingId)) = true
        · left; simp only [createBooking, hc, hf, hcr, hdup]; simp
        · right
          have hfresh : ∀ x ∈ st.bookings, x.id ≠ bookingId := by
            intro x hx hid
            exact hdup (List.any_eq_true.2 ⟨x, hx, by simpa using hid⟩)
          refine ⟨showData, bookingId, ?_⟩
          cases hss : env.showSave with
          | error msg =>
            refine ⟨none, rfl, rfl, rfl, hfresh, ?_, ?_, Or.inl ?_⟩ <;>
              simp [createBooking, hc, hf, hcr, hdup, hss]
          | ok u1 =>
            cases hm : st.findMovie showData.movie with
            | none =>
              refine ⟨none, rfl, rfl, rfl, hfresh, ?_, ?_, Or.inr ?_⟩ <;>
                simp [createBooking, hc, hf, hcr, hdup, hss, hm, Store.saveShowSeats]
            | some movie =>
              cases hse : env.session with
              | error msg =>
                refine ⟨none, rfl, rfl, rfl, hfresh, ?_, ?_, Or.inr ?_⟩ <;>
                  simp [createBooking, hc, hf, hcr, hdup, hss, hm, hse, Store.saveShowSeats]
              | ok url =>
                cases hbs : env.bookingSave with
                | error msg =>
                  refine ⟨none, rfl, rfl, rfl, hfresh, ?_, ?_, Or.inr ?_⟩ <;>
                    simp [createBooking, hc, hf, hcr, hdup, hss, hm, hse, hbs,
                      Store.saveShowSeats]
                | ok u2 =>
                  have hlink := Store.bookings_saveBookingLink_fresh
                    (Store.saveShowSeats { st with bookings := st.bookings ++
                      [{ id := bookingId, user := req.userId, «show» := req.showId,
                         amount := jsMul showData.showPrice (req.selectedSeats.length : ℚ),
                         bookedSeats := req.selectedSeats, isPaid := false,
                         paymentLink := none }] } showData.id
                      (markSeats showData.occupiedSeats req.selectedSeats req.userId))
                    { id := bookingId, user := req.userId, «show» := req.showId,
                      amount := jsMul showData.showPrice (req.selectedSeats.length : ℚ),
                      bookedSeats := req.selectedSeats, isPaid := false, paymentLink := none }
                    url st.bookings rfl hfresh
                  cases hsd : env.send with
                  | error msg =>
                    refine ⟨some url, rfl, rfl, rfl, hfresh, ?_, ?_, Or.inr ?_⟩
                    · simp [createBooking, hc, hf, hcr, hdup, hss, hm, hse, hbs, hsd,
                        Store.saveShowSeats, Store.saveBookingLink]
                    · simp only [createBooking, hc, hf, hcr, hdup, hss, hm, hse, hbs, hsd]
                      simpa using hlink
                    · simp [createBooking, hc, hf, hcr, hdup, hss, hm, hse, hbs, hsd,
                        Store.saveShowSeats, Store.saveBookingLink]
                  | ok u3 =>
                    refine ⟨some url, rfl, rfl, rfl, hfresh, ?_, ?_, Or.inr ?_⟩
                    · simp [createBooking, hc, hf, hcr, hdup, hss, hm, hse, hbs, hsd,
                        Store.saveShowSeats, Store.saveBookingLink]
                    · simp only [createBooking, hc, hf, hcr, hdup, hss, hm, hse, hbs, hsd]
                      simpa using hlink
                    · simp [createBooking, hc, hf, hcr, hdup, hss, hm, hse, hbs, hsd,
                        Store.saveShowSeats, Store.saveBookingLink]

/-- A success response is written only at the end of the handler: every awaited call
resolved, the show was saved with the marked seats and the event was sent. -/
theorem createBooking_success (st : Store) (env : BookingEnv) (req : BookingRequest)
    (h : (createBooking st env req).response.success = true) :
    ∃ showData bookingId url,
      checkSeatAvailability st req.showId req.selectedSeats = true ∧
      st.findShow req.showId = some showData ∧ env.create = .ok bookingId ∧
      (∀ x ∈ st.bookings, x.id ≠ bookingId) ∧
      (createBooking st env req).store.bookings = st.bookings ++
        [{ id := bookingId, user := req.userId, «show» := req.showId,
           amount := jsMul showData.showPrice (req.selectedSeats.length : ℚ),
           bookedSeats := req.selectedSeats, isPaid := false, paymentLink := some url }] ∧
      (createBooking st env req).store.shows =
        (st.saveShowSeats showData.id
          (markSeats showData.occupiedSeats req.selectedSeats req.userId)).shows ∧
      (createBooking st env req).events = [{ name := "app/checkpayment", bookingId := bookingId }] ∧
      (createBooking st env req).response = successResponse url := by
  cases hc : checkSeatAvailability st req.showId req.selectedSeats with
  | false => rw [createBooking_unavailable st env req hc] at h; simp [seatsNotAvailable] at h
  | true =>
    cases hf : st.findShow req.showId with
    | none => simp [createBooking, hc, hf, serverError] at h
    | some showData =>
      cases hcr : env.create with
      | error msg => simp [createBooking, hc, hf, hcr, serverError] at h
      | ok bookingId =>
        by_cases hdup : st.bookings.any (fun b => decide (b.id = bookingId)) = true
        · simp only [createBooking, hc, hf, hcr, hdup] at h; simp [serverError] at h
        · have hfresh : ∀ x ∈ st.bookings, x.id ≠ bookingId := by
            intro x hx hid
            exact hdup (List.any_eq_true.2 ⟨x, hx, by simpa using hid⟩)
          cases hss : env.showSave with
          | error msg => simp [createBooking, hc, hf, hcr, hdup, hss, serverError] at h
          | ok u1 =>
            cases hm : st.findMovie showData.movie with
            | none => simp [createBooking, hc, hf, hcr, hdup, hss, hm, serverError] at h
            | some movie =>
              cases hse : env.session with
              | error msg =>
                simp [createBooking, hc, hf, hcr, hdup, hss, hm, hse, serverError] at h
              | ok url =>
                cases hbs : env.bookingSave with
                | error msg =>
                  simp [createBooking, hc, hf, hcr, hdup, hss, hm, hse, hbs, serverError] at h
                | ok u2 =>
                  cases hsd : env.send with
                  | error msg =>
                    simp [createBooking, hc, hf, hcr, hdup, hss, hm, hse, hbs, hsd,
                      serverError] at h
                  | ok u3 =>
                    have hlink := Store.bookings_saveBookingLink_fresh
                      (Store.saveShowSeats { st with bookings := st.bookings ++
                        [{ id := bookingId, user := req.userId, «show» := req.showId,
                           amount := jsMul showData.showPrice (req.selectedSeats.length : ℚ),
                           bookedSeats := req.selectedSeats, isPaid := false,
                           paymentLink := none }] } showData.id
                        (markSeats showData.occupiedSeats req.selectedSeats req.userId))
                      { id := bookingId, user := req.userId, «show» := req.showId,
                        amount := jsMul showData.showPrice (req.selectedSeats.length : ℚ),
                        bookedSeats := req.selectedSeats, isPaid := false,
                        paymentLink := none }
                      url st.bookings rfl hfresh
                    refine ⟨showData, bookingId, url, rfl, rfl, rfl, hfresh, ?_, ?_, ?_, ?_⟩
                    · simp only [createBooking, hc, hf, hcr, hdup, hss, hm, hse, hbs, hsd]
                      simpa using hlink
                    · simp [createBooking, hc, hf, hcr, hdup, hss, hm, hse, hbs, hsd,
                        Store.saveShowSeats, Store.saveBookingLink]
                    · simp [createBooking, hc, hf, hcr, hdup, hss, hm, hse, hbs, hsd]
                    · simp [createBooking, hc, hf, hcr, hdup, hss, hm, hse, hbs, hsd]

/-- Only the availability guard answers with status 400. -/
theorem createBooking_status_of_available (st : Store) (env : BookingEnv) (req : BookingRequest)
    (hc : checkSeatAvailability st req.showId req.selectedSeats = true) :
    (createBooking st env req).response.status ≠ 400 := by
  cases hf : st.findShow req.showId with
  | none => simp [createBooking, hc, hf, serverError]
  | some showData =>
    cases hcr : env.create with
    | error msg => simp [createBooking, hc, hf, hcr, serverError]
    | ok bookingId =>
      by_cases hdup : st.bookings.any (fun b => decide (b.id = bookingId)) = true
      · simp only [createBooking, hc, hf, hcr, hdup]; simp [serverError]
      · cases hss : env.showSave with
        | error msg => simp [createBooking, hc, hf, hcr, hdup, hss, serverError]
        | ok u1 =>
          cases hm : st.findMovie showData.movie with
          | none => simp [createBooking, hc, hf, hcr, hdup, hss, hm, serverError]
          | some movie =>
            cases hse : env.session with
            | error msg => simp [createBooking, hc, hf, hcr, hdup, hss, hm, hse, serverError]
            | ok url =>
              cases hbs : env.bookingSave with
              | error msg =>
                simp [createBooking, hc, hf, hcr, hdup, hss, hm, hse, hbs, serverError]
              | ok u2 =>
                cases hsd : env.send with
                | error msg =>
                  simp [createBooking, hc, hf, hcr, hdup, hss, hm, hse, hbs, hsd, serverError]
                | ok u3 =>
                  simp [createBooking, hc, hf, hcr, hdup, hss, hm, hse, hbs, hsd,
                    successResponse]

/-! ## Seat reservation: the claims -/

/-- C1: a `createBooking` request that selects at least one seat label which is already a key
of the show's `occupiedSeats` is answered with the 'Selected seats are not available' response
(status 400, `success: false`), never with the success response, whoever the requesting user
is and whatever the external calls would have returned. -/
theorem createBooking_occupied_seat_rejected (st : Store) (env : BookingEnv)
    (req : BookingRequest) (showData : Show) (seat : String)
    (hshow : st.findShow req.showId = some showData)
    (hsel : seat ∈ req.selectedSeats)
    (hocc : seat ∈ showData.occupiedSeats.keys) :
    (createBooking st env req).response = seatsNotAvailable ∧
    (createBooking st env req).response.success = false ∧
    ∀ url, (createBooking st env req).response ≠ successResponse url := by
  have hc := checkSeatAvailability_false_of_key st req.showId req.selectedSeats showData seat
    hshow hsel hocc
  rw [createBooking_unavailable st env req hc]
  refine ⟨rfl, rfl, ?_⟩
  intro url h
  simp [seatsNotAvailable, successResponse] at h

/-- Witness for C1: seat A1 of show S is held by U1; U1 asking for A1 again and U2 asking for
A1 and B1 are both rejected. -/
theorem createBooking_occupied_seat_rejected_witness :
    (store1.findShow "S" = some { showS with occupiedSeats := [("A1", U1), ("A2", U1)] } ∧
     (createBooking store1 (envOk "b2") ⟨U1, "S", ["A1"]⟩).response = seatsNotAvailable) ∧
    (createBooking store1 (envOk "b2") ⟨U2, "S", ["B1", "A1"]⟩).response = seatsNotAvailable :=
  ⟨⟨by decide,
    (createBooking_occupied_seat_rejected store1 (envOk "b2") ⟨U1, "S", ["A1"]⟩
      { showS with occupiedSeats := [("A1", U1), ("A2", U1)] } "A1"
      (by decide) (by decide) (by decide)).1⟩,
   (createBooking_occupied_seat_rejected store1 (envOk "b2") ⟨U2, "S", ["B1", "A1"]⟩
      { showS with occupiedSeats := [("A1", U1), ("A2", U1)] } "A1"
      (by decide) (by decide) (by decide)).1⟩

/-- C2: when `createBooking` answers 'Selected seats are not available', the store is exactly
what it was before the request: no Booking was created, no seat of the request was marked,
and no payment session or event was requested. -/
theorem createBooking_rejected_store_unchanged (st : Store) (env : BookingEnv)
    (req : BookingRequest)
    (hrej : (createBooking st env req).response = seatsNotAvailable) :
    (createBooking st env req).store = st ∧
    (createBooking st env req).store.bookings = st.bookings ∧
    (∀ k, (createBooking st env req).store.findShow k = st.findShow k) ∧
    (createBooking st env req).sessions = [] ∧ (createBooking st env req).events = [] := by
  cases hc : checkSeatAvailability st req.showId req.selectedSeats with
  | false =>
    rw [createBooking_unavailable st env req hc]
    exact ⟨rfl, rfl, fun _ => rfl, rfl, rfl⟩
  | true =>
    have h400 := createBooking_status_of_available st env req hc
    rw [hrej] at h400
    exact absurd rfl h400

/-- Witness for C2: after U1 booked A1 and A2, the request of U2 for A2 and B1 is rejected
and `occupiedSeats` is still A1 and A2 held by U1 (B1 is not marked). -/
theorem createBooking_rejected_store_unchanged_witness :
    (createBooking store1 (envOk "b2") ⟨U2, "S", ["A2", "B1"]⟩).response = seatsNotAvailable ∧
    (createBooking store1 (envOk "b2") ⟨U2, "S", ["A2", "B1"]⟩).store = store1 ∧
    store1.shows = [{ showS with occupiedSeats := [("A1", U1), ("A2", U1)] }] :=
  ⟨by decide,
   (createBooking_rejected_store_unchanged store1 (envOk "b2") ⟨U2, "S", ["A2", "B1"]⟩
     (by decide)).1,
   by decide⟩

/-- C3: a `createBooking` request by user U on an existing show that gets the success
response leaves that show with `occupiedSeats` equal to the old map extended with seat -> U for
every requested seat (every other entry as before, every other show untouched), and adds
exactly one Booking to the store, with user U, that show and `bookedSeats` equal to the
requested list, unpaid. -/
theorem createBooking_success_effect (st : Store) (env : BookingEnv) (req : BookingRequest)
    (showData : Show)
    (hshow : st.findShow req.showId = some showData)
    (hfree : ∀ seat ∈ req.selectedSeats, seat ∉ showData.occupiedSeats.keys)
    (hok : (createBooking st env req).response.success = true) :
    (∃ showData', (createBooking st env req).store.findShow req.showId = some showData' ∧
      ∀ seat, showData'.occupiedSeats.get seat =
        if seat ∈ req.selectedSeats then some req.userId else showData.occupiedSeats.get seat) ∧
    (∀ k, k ≠ req.showId → (createBooking st env req).store.findShow k = st.findShow k) ∧
    (∃ b, (createBooking st env req).store.bookings = st.bookings ++ [b] ∧
      b ∉ st.bookings ∧ b.user = req.userId ∧ b.«show» = req.showId ∧
      b.bookedSeats = req.selectedSeats ∧ b.isPaid = false) := by
  obtain ⟨sd, bookingId, url, _, hsd, _, hfresh, hbook, hshows, _, _⟩ :=
    createBooking_success st env req hok
  have hsdeq : sd = showData := Option.some.inj (hsd.symm.trans hshow)
  subst hsdeq
  have hid : sd.id = req.showId := Store.findShow_id st _ _ hshow
  have hfind : ∀ k, (createBooking st env req).store.findShow k =
      (st.saveShowSeats sd.id (markSeats sd.occupiedSeats req.selectedSeats req.userId)).findShow k := by
    intro k
    unfold Store.findShow
    rw [hshows]
  refine ⟨?_, ?_, ?_⟩
  · refine ⟨{ sd with occupiedSeats := markSeats sd.occupiedSeats req.selectedSeats req.userId }, ?_, ?_⟩
    · rw [hfind, Store.findShow_saveShowSeats, hshow]
      simp
    · intro seat
      exact get_markSeats _ _ _ _
  · intro k hk
    rw [hfind, Store.findShow_saveShowSeats]
    cases hfk : st.findShow k with
    | none => rfl
    | some s =>
      have : s.id = k := Store.findShow_id st _ _ hfk
      have hne : s.id ≠ sd.id := by rw [this, hid]; exact hk
      simp [hne]
  · refine ⟨_, hbook, ?_, rfl, rfl, rfl, rfl⟩
    intro hmem
    exact hfresh _ hmem rfl

/-- Witness for C3: price 10.00, free seats, request A1 and A2 by U1: `occupiedSeats` becomes
A1 -> U1, A2 -> U1 and the one booking created is U1's. -/
theorem createBooking_success_effect_witness :
    (store0.findShow "S" = some showS ∧
     (createBooking store0 (envOk "b1") ⟨U1, "S", ["A1", "A2"]⟩).response.success = true) ∧
    (∃ b, (createBooking store0 (envOk "b1") ⟨U1, "S", ["A1", "A2"]⟩).store.bookings =
        store0.bookings ++ [b] ∧ b ∉ store0.bookings ∧ b.user = U1 ∧ b.«show» = "S" ∧
        b.bookedSeats = ["A1", "A2"] ∧ b.isPaid = false) ∧
    (createBooking store0 (envOk "b1") ⟨U1, "S", ["A1", "A2"]⟩).store.shows =
      [{ showS with occupiedSeats := [("A1", U1), ("A2", U1)] }] :=
  ⟨⟨by decide, by decide⟩,
   (createBooking_success_effect store0 (envOk "b1") ⟨U1, "S", ["A1", "A2"]⟩ showS
     (by decide) (by decide) (by decide)).2.2,
   by decide⟩

theorem store1_bookings : store1.bookings = [bookingB1] := by
  have h : store1.bookings = [{ bookingB1 with amount := jsMul 10 ((2 : ℕ) : ℚ) }] := by rfl
  rw [h, jsMul_ten_two]
  rfl

/-- C4 as stated fails: show price 8.2 (the double nearest to 8.2) and fifteen seats.  The
request succeeds, and the amount of the booking it creates is the double
122.99999999999999, which is not the price multiplied by 15; the payment session is
requested with `unit_amount` 12200. -/
theorem createBooking_amount_not_product :
    roundDouble (41 / 5) = 2308094809027379 / 281474976710656 ∧
    (createBooking storeFraction (envOk "b1") ⟨U1, "S", fifteenSeats⟩).response.success = true ∧
    (createBooking storeFraction (envOk "b1") ⟨U1, "S", fifteenSeats⟩).store.bookings.map
      (fun b => (b.amount, b.bookedSeats.length)) = [(8655355533852671 / 70368744177664, 15)] ∧
    (8655355533852671 / 70368744177664 : ℚ) ≠ 2308094809027379 / 281474976710656 * 15 ∧
    (8655355533852671 / 70368744177664 : ℚ) < 123 ∧
    (createBooking storeFraction (envOk "b1") ⟨U1, "S", fifteenSeats⟩).sessions =
      [{ productName := "Movie", unitAmount := 12200, quantity := 1, bookingId := "b1" }] := by
  have hprice : roundDouble (41 / 5) = 2308094809027379 / 281474976710656 := by
    rw [roundDouble_of_log _ 3 (by norm_num) (by rw [abs_of_pos (by norm_num)]; norm_num)
      (by rw [abs_of_pos (by norm_num)]; norm_num)]
    rw [roundHalfEven_of_lt _ 4616189618054758 (by norm_num) (by norm_num)]
    norm_num
  have hamount : jsMul (2308094809027379 / 281474976710656) ((15 : ℕ) : ℚ) =
      8655355533852671 / 70368744177664 := by
    unfold jsMul
    rw [roundDouble_of_log _ 6 (by norm_num) (by rw [abs_of_pos (by norm_num)]; norm_num)
      (by rw [abs_of_pos (by norm_num)]; norm_num)]
    rw [roundHalfEven_of_lt _ 8655355533852671 (by norm_num) (by norm_num)]
    norm_num
  have hfloor : ⌊(8655355533852671 / 70368744177664 : ℚ)⌋ = 122 := by
    rw [Int.floor_eq_iff]
    constructor <;> norm_num
  have hunit : jsMul ((122 : ℤ) : ℚ) 100 = 12200 := by
    have h : (((122 : ℤ) : ℚ)) * 100 = ((12200 : ℕ) : ℚ) := by norm_num
    rw [jsMul, h, roundDouble_natCast 12200 (by norm_num)]
    norm_num
  refine ⟨hprice, by decide, ?_, by norm_num, by norm_num, ?_⟩
  · have h : (createBooking storeFraction (envOk "b1") ⟨U1, "S", fifteenSeats⟩).store.bookings.map
        (fun b => (b.amount, b.bookedSeats.length)) =
        [(jsMul (2308094809027379 / 281474976710656) ((15 : ℕ) : ℚ), 15)] := by rfl
    rw [h, hamount]
  · have h : (createBooking storeFraction (envOk "b1") ⟨U1, "S", fifteenSeats⟩).sessions =
        [{ productName := "Movie",
           unitAmount := jsMul ((⌊jsMul (2308094809027379 / 281474976710656)
             ((15 : ℕ) : ℚ)⌋ : ℤ) : ℚ) 100,
           quantity := 1, bookingId := "b1" }] := by rfl
    rw [h, hamount, hfloor, hunit]

/-- C4 amended: every Booking that `createBooking` adds to the store has as `amount` the
double nearest to the `showPrice` of the show it was requested for multiplied by the number
of labels in its `bookedSeats` (the product being within the range of the finite doubles).
The amount differs from the product by at most `2 ^ (-53)` of the product (`2 ^ (-1075)` for a
product among the subnormal doubles), and it is the product itself whenever the product is
a double, that is `m * 2 ^ k` for integers `|m| < 2 ^ 53` and `k >= -1074`. -/
theorem createBooking_amount_nearest_double (st : Store) (env : BookingEnv)
    (req : BookingRequest) (b : Booking)
    (hb : b ∈ (createBooking st env req).store.bookings)
    (hnew : b ∉ st.bookings)
    (hfinite : ∀ sd, st.findShow req.showId = some sd →
      |sd.showPrice * (req.selectedSeats.length : ℚ)| < 2 ^ 1024 - 2 ^ 970) :
    ∃ showData, st.findShow req.showId = some showData ∧
      |showData.showPrice * (b.bookedSeats.length : ℚ)| < 2 ^ 1024 - 2 ^ 970 ∧
      b.amount = roundDouble (showData.showPrice * (b.bookedSeats.length : ℚ)) ∧
      |b.amount - showData.showPrice * (b.bookedSeats.length : ℚ)| ≤
        max (|showData.showPrice * (b.bookedSeats.length : ℚ)| * 2 ^ (-53 : ℤ))
          (2 ^ (-1075 : ℤ)) ∧
      (∀ m k : ℤ, |m| < 2 ^ 53 → -1074 ≤ k →
        showData.showPrice * (b.bookedSeats.length : ℚ) = (m : ℚ) * 2 ^ k →
        b.amount = showData.showPrice * (b.bookedSeats.length : ℚ)) := by
  rcases createBooking_store st env req with h | ⟨sd, bookingId, link, _, hsd, _, _, _, hbook, _⟩
  · rw [h] at hb
    exact absurd hb hnew
  · rw [hbook] at hb
    rcases List.mem_append.1 hb with hold | hlast
    · exact absurd hold hnew
    · rw [List.mem_singleton] at hlast
      subst hlast
      refine ⟨sd, hsd, hfinite sd hsd, rfl, roundDouble_sub_abs_le _, ?_⟩
      intro m k hm hk hprod
      show roundDouble (sd.showPrice * (req.selectedSeats.length : ℚ)) =
        sd.showPrice * (req.selectedSeats.length : ℚ)
      have hprod' : sd.showPrice * (req.selectedSeats.length : ℚ) = (m : ℚ) * 2 ^ k := hprod
      rw [hprod']
      exact roundDouble_of_representable m k hm hk

/-- Witness for C4 amended: the booking of the scenario, price 10.00 and two seats; the
product 20 is a double, and the amount is 20.00. -/
theorem createBooking_amount_nearest_double_witness :
    (bookingB1 ∈ (createBooking store0 (envOk "b1") ⟨U1, "S", ["A1", "A2"]⟩).store.bookings ∧
     bookingB1 ∉ store0.bookings ∧
     ∀ sd, store0.findShow "S" = some sd →
       |sd.showPrice * ((["A1", "A2"] : List String).length : ℚ)| < 2 ^ 1024 - 2 ^ 970) ∧
    ∃ showData, store0.findShow "S" = some showData ∧
      |showData.showPrice * (bookingB1.bookedSeats.length : ℚ)| < 2 ^ 1024 - 2 ^ 970 ∧
      bookingB1.amount = roundDouble (showData.showPrice * (bookingB1.bookedSeats.length : ℚ)) ∧
      |bookingB1.amount - showData.showPrice * (bookingB1.bookedSeats.length : ℚ)| ≤
        max (|showData.showPrice * (bookingB1.bookedSeats.length : ℚ)| * 2 ^ (-53 : ℤ))
          (2 ^ (-1075 : ℤ)) ∧
      (∀ m k : ℤ, |m| < 2 ^ 53 → -1074 ≤ k →
        showData.showPrice * (bookingB1.bookedSeats.length : ℚ) = (m : ℚ) * 2 ^ k →
        bookingB1.amount = showData.showPrice * (bookingB1.bookedSeats.length : ℚ)) := by
  have hmem : bookingB1 ∈
      (createBooking store0 (envOk "b1") ⟨U1, "S", ["A1", "A2"]⟩).store.bookings := by
    have h : (createBooking store0 (envOk "b1") ⟨U1, "S", ["A1", "A2"]⟩).store.bookings
        = [bookingB1] := store1_bookings
    rw [h]
    exact List.mem_singleton.2 rfl
  have hfin : ∀ sd, store0.findShow "S" = some sd →
      |sd.showPrice * ((["A1", "A2"] : List String).length : ℚ)| < 2 ^ 1024 - 2 ^ 970 := by
    intro sd hsd
    have hs : store0.findShow "S" = some showS := by decide
    rw [hs] at hsd
    cases hsd
    simp only [showS, List.length_cons, List.length_nil]
    rw [abs_of_pos (by norm_num)]
    norm_num
  exact ⟨⟨hmem, by decide, hfin⟩,
    createBooking_amount_nearest_double store0 (envOk "b1") ⟨U1, "S", ["A1", "A2"]⟩ bookingB1
      hmem (by decide) hfin⟩

/-- C5 as stated fails: a request for a show id that references no Show gets exactly the
response of a request for a taken seat (status 400, 'Selected seats are not available'), not
a distinguishable NotFound. -/
theorem createBooking_missing_show_not_distinguished :
    store1.findShow "nowhere" = none ∧
    (createBooking store1 (envOk "b2") ⟨U2, "nowhere", ["B1"]⟩).response =
      (createBooking store1 (envOk "b2") ⟨U2, "S", ["A1"]⟩).response ∧
    (createBooking store1 (envOk "b2") ⟨U2, "nowhere", ["B1"]⟩).response.status = 400 ∧
    (createBooking store1 (envOk "b2") ⟨U2, "nowhere", ["B1"]⟩).response.message =
      some "Selected seats are not available" := by
  decide

/-- C5 amended: a request whose show id references no Show is answered with the same
'Selected seats are not available' response (status 400) as a seat conflict, and it creates no
Booking: the store is unchanged. -/
theorem createBooking_missing_show (st : Store) (env : BookingEnv) (req : BookingRequest)
    (hmissing : st.findShow req.showId = none) :
    (createBooking st env req).response = seatsNotAvailable ∧
    (createBooking st env req).store = st ∧
    (createBooking st env req).store.bookings = st.bookings := by
  rw [createBooking_unavailable st env req
    (checkSeatAvailability_missing st req.showId req.selectedSeats hmissing)]
  exact ⟨rfl, rfl, rfl⟩

/-- Witness for C5 amended: show id "nowhere" on the scenario store. -/
theorem createBooking_missing_show_witness :
    store1.findShow "nowhere" = none ∧
    (createBooking store1 (envOk "b2") ⟨U2, "nowhere", ["B1"]⟩).response = seatsNotAvailable ∧
    (createBooking store1 (envOk "b2") ⟨U2, "nowhere", ["B1"]⟩).store = store1 :=
  ⟨by decide,
   (createBooking_missing_show store1 (envOk "b2") ⟨U2, "nowhere", ["B1"]⟩ (by decide)).1,
   (createBooking_missing_show store1 (envOk "b2") ⟨U2, "nowhere", ["B1"]⟩ (by decide)).2.1⟩

/-! ## Reconciliation: the claims -/

/-- For the event `createBooking` sends, whose `bookingId` is a string, the destructuring
leaves `booking_id` undefined, the query finds nothing and the step throws on
`booking.isPaid`, with the store untouched. -/
theorem checkPaymentStatus_string_payload (st : Store) (env : ReleaseEnv) (id : String) :
    checkPaymentStatus st env { bookingId := .prim (.str id) } =
      { store := st, result := .threw "Cannot read properties of null (reading 'isPaid')" } :=
  rfl

/-- C6 (the code fails the claim): U1's booking of A1 and A2 is unpaid and the step runs for
the event `createBooking` sent for it; the step throws a TypeError, the booking is still
stored and A1, A2 are still occupied. -/
theorem checkPaymentStatus_unpaid_not_released :
    (createBooking store0 (envOk "b1") ⟨U1, "S", ["A1", "A2"]⟩).events =
      [{ name := "app/checkpayment", bookingId := "b1" }] ∧
    store1.bookings = [bookingB1] ∧ bookingB1.isPaid = false ∧
    checkPaymentStatus store1 releaseOk
        (SentEvent.received { name := "app/checkpayment", bookingId := "b1" }) =
      { store := store1,
        result := .threw "Cannot read properties of null (reading 'isPaid')" } ∧
    store1.shows = [{ showS with occupiedSeats := [("A1", U1), ("A2", U1)] }] :=
  ⟨by decide, store1_bookings, rfl, rfl, by decide⟩

/-- C7 (the code fails the claim): when no Booking is stored under the id, the step does not
short-circuit but throws a TypeError on `booking.isPaid`; this holds for the event as
`createBooking` sends it and also for a payload that does carry a `booking_id` property. The
store is unchanged. -/
theorem checkPaymentStatus_missing_booking_throws :
    store0.bookings = [] ∧
    checkPaymentStatus store0 releaseOk
        (SentEvent.received { name := "app/checkpayment", bookingId := "b1" }) =
      { store := store0,
        result := .threw "Cannot read properties of null (reading 'isPaid')" } ∧
    checkPaymentStatus store0 releaseOk { bookingId := .obj [("booking_id", .str "b1")] } =
      { store := store0,
        result := .threw "Cannot read properties of null (reading 'isPaid')" } :=
  ⟨rfl, rfl, by decide⟩

/-- C8: when the booking stored under an id is paid and the step runs for an event that
refers to that id (the event `createBooking` sent, or a payload carrying the id as
`booking_id`), the store is unchanged: the Booking is still stored and every show, hence
every seat with its holder, is as before. -/
theorem checkPaymentStatus_paid_unchanged (st : Store) (env : ReleaseEnv) (b : Booking)
    (event : CheckPaymentEvent)
    (hstored : st.findBooking b.id = some b)
    (hpaid : b.isPaid = true)
    (hevent : event = SentEvent.received { name := "app/checkpayment", bookingId := b.id } ∨
      event = { bookingId := .obj [("booking_id", .str b.id)] }) :
    (checkPaymentStatus st env event).store = st ∧
    (checkPaymentStatus st env event).store.findBooking b.id = some b ∧
    (checkPaymentStatus st env event).store.shows = st.shows := by
  have h : (checkPaymentStatus st env event).store = st := by
    rcases hevent with h | h
    · subst h
      rfl
    · subst h
      simp [checkPaymentStatus, destructureBookingId, List.lookup, Store.findBookingById,
        hstored, hpaid]
  rw [h]
  exact ⟨rfl, hstored, rfl⟩

/-- Witness for C8: the scenario booking, paid, and the event sent for it. -/
theorem checkPaymentStatus_paid_unchanged_witness :
    (storePaid.findBooking "b1" = some { bookingB1 with isPaid := true }) ∧
    (checkPaymentStatus storePaid releaseOk
        (SentEvent.received { name := "app/checkpayment", bookingId := "b1" })).store = storePaid ∧
    (checkPaymentStatus storePaid releaseOk
        { bookingId := .obj [("booking_id", .str "b1")] }).store = storePaid :=
  ⟨rfl,
   (checkPaymentStatus_paid_unchanged storePaid releaseOk { bookingB1 with isPaid := true }
     _ rfl rfl (Or.inl rfl)).1,
   (checkPaymentStatus_paid_unchanged storePaid releaseOk { bookingB1 with isPaid := true }
     _ rfl rfl (Or.inr rfl)).1⟩

/-! ## The no-orphan-holds invariant -/

theorem SeatMap.mem_keys_iff (m : SeatMap) (seat : String) :
    seat ∈ m.keys ↔ m.get seat ≠ none := by
  rw [Ne, SeatMap.get_eq_none_iff, not_not]

theorem mem_keys_markSeats (occ : SeatMap) (seats : List String) (u : UserId) (seat : String)
    (h : seat ∈ (markSeats occ seats u).keys) : seat ∈ seats ∨ seat ∈ occ.keys := by
  rw [SeatMap.mem_keys_iff, get_markSeats] at h
  by_cases hs : seat ∈ seats
  · exact Or.inl hs
  · right
    rw [if_neg hs] at h
    exact (SeatMap.mem_keys_iff _ _).2 h

theorem get_releaseSeats (bookedSeats : List String) (occ : SeatMap) (k : String) :
    (releaseSeats occ bookedSeats).get k = if k ∈ bookedSeats then none else occ.get k := by
  induction bookedSeats generalizing occ with
  | nil => simp [releaseSeats]
  | cons s rest ih =>
    have hstep : releaseSeats occ (s :: rest) = releaseSeats (occ.delete s) rest := rfl
    rw [hstep, ih, SeatMap.get_delete]
    by_cases h1 : k ∈ rest
    · simp [h1]
    · by_cases h2 : k = s <;> simp [h1, h2]

theorem mem_keys_releaseSeats (occ : SeatMap) (bookedSeats : List String) (seat : String)
    (h : seat ∈ (releaseSeats occ bookedSeats).keys) :
    seat ∈ occ.keys ∧ seat ∉ bookedSeats := by
  rw [SeatMap.mem_keys_iff, get_releaseSeats] at h
  by_cases hs : seat ∈ bookedSeats
  · rw [if_pos hs] at h
    exact absurd rfl h
  · rw [if_neg hs] at h
    exact ⟨(SeatMap.mem_keys_iff _ _).2 h, hs⟩

theorem mem_eraseP_of_ne_found {α : Type} (p : α → Bool) (l : List α) (found a : α)
    (hfound : l.find? p = some found) (ha : a ∈ l) (hne : a ≠ found) : a ∈ l.eraseP p := by
  induction l with
  | nil => cases ha
  | cons x rest ih =>
    cases hpx : p x with
    | true =>
      rw [List.find?_cons, hpx] at hfound
      have hx : x = found := Option.some.inj hfound
      rw [List.eraseP_cons, hpx]
      rcases List.mem_cons.1 ha with h | h
      · exact absurd (h.trans hx) hne
      · simpa using h
    | false =>
      rw [List.find?_cons, hpx] at hfound
      rw [List.eraseP_cons, hpx]
      rcases List.mem_cons.1 ha with h | h
      · simp [h]
      · simpa using Or.inr (ih hfound h)

theorem noOrphanHolds_createBooking (st : Store) (env : BookingEnv) (req : BookingRequest)
    (hinv : NoOrphanHolds st) : NoOrphanHolds (createBooking st env req).store := by
  rcases createBooking_store st env req with
    h | ⟨sd, bookingId, link, _, hsd, _, _, _, hbook, hshows⟩
  · rw [h]; exact hinv
  · intro s hs seat hseat
    rw [hbook]
    rcases hshows with hsame | hsaved
    · rw [hsame] at hs
      obtain ⟨b, hb, hbs, hbseat⟩ := hinv s hs seat hseat
      exact ⟨b, List.mem_append.2 (Or.inl hb), hbs, hbseat⟩
    · rw [hsaved] at hs
      simp only [Store.saveShowSeats, List.mem_map] at hs
      obtain ⟨s0, hs0, hupd⟩ := hs
      by_cases hid : s0.id = sd.id
      · rw [if_pos hid] at hupd
        subst hupd
        rcases mem_keys_markSeats _ _ _ _ hseat with hnew | hold
        · refine ⟨_, List.mem_append.2 (Or.inr (List.mem_singleton.2 rfl)), ?_, hnew⟩
          show req.showId = s0.id
          rw [hid]
          exact (Store.findShow_id st _ _ hsd).symm
        · obtain ⟨b, hb, hbs, hbseat⟩ := hinv sd (Store.findShow_mem st _ _ hsd) seat hold
          exact ⟨b, List.mem_append.2 (Or.inl hb), hbs.trans hid.symm, hbseat⟩
      · rw [if_neg hid] at hupd
        subst hupd
        obtain ⟨b, hb, hbs, hbseat⟩ := hinv s0 hs0 seat hseat
        exact ⟨b, List.mem_append.2 (Or.inl hb), hbs, hbseat⟩

/-- The stores the step can leave behind. -/
theorem checkPaymentStatus_store (st : Store) (env : ReleaseEnv) (event : CheckPaymentEvent) :
    (checkPaymentStatus st env event).store = st ∨
    ∃ booking showDoc, st.bookings.find? (fun b => decide (b.id = booking.id)) = some booking ∧
      booking.isPaid = false ∧ st.findShow booking.«show» = some showDoc ∧
      ((checkPaymentStatus st env event).store =
          st.saveShowSeats showDoc.id (releaseSeats showDoc.occupiedSeats booking.bookedSeats) ∨
       (checkPaymentStatus st env event).store =
          (st.saveShowSeats showDoc.id
            (releaseSeats showDoc.occupiedSeats booking.bookedSeats)).deleteBooking booking.id) := by
  cases hd : destructureBookingId event.bookingId with
  | error msg => left; simp [checkPaymentStatus, hd]
  | ok v =>
    cases hb : st.findBookingById v with
    | none => left; simp [checkPaymentStatus, hd, hb]
    | some booking =>
      have hfind : st.bookings.find? (fun b => decide (b.id = booking.id)) = some booking := by
        cases v with
        | undefined => simp [Store.findBookingById] at hb
        | null => simp [Store.findBookingById] at hb
        | str id =>
          have hb' : st.bookings.find? (fun b => decide (b.id = id)) = some booking := hb
          have hid : booking.id = id := by simpa using List.find?_some hb'
          rw [hid]; exact hb'
      cases hp : booking.isPaid with
      | true => left; simp [checkPaymentStatus, hd, hb, hp]
      | false =>
        cases hs : st.findShow booking.«show» with
        | none => left; simp [checkPaymentStatus, hd, hb, hp, hs]
        | some showDoc =>
          cases hss : env.showSave with
          | error msg => left; simp [checkPaymentStatus, hd, hb, hp, hs, hss]
          | ok u1 =>
            right
            refine ⟨booking, showDoc, hfind, hp, hs, ?_⟩
            cases hbd : env.bookingDelete with
            | error msg => left; simp [checkPaymentStatus, hd, hb, hp, hs, hss, hbd]
            | ok u2 => right; simp [checkPaymentStatus, hd, hb, hp, hs, hss, hbd]

theorem noOrphanHolds_releaseSeats (st : Store) (showDoc : Show) (booking : Booking)
    (hinv : NoOrphanHolds st) (hs : st.findShow booking.«show» = some showDoc)
    (bookings : List Booking)
    (hkeep : ∀ b ∈ st.bookings, b ≠ booking → b ∈ bookings) :
    NoOrphanHolds
      { (st.saveShowSeats showDoc.id
          (releaseSeats showDoc.occupiedSeats booking.bookedSeats)) with bookings := bookings } := by
  intro s hmem seat hseat
  simp only [Store.saveShowSeats, List.mem_map] at hmem
  obtain ⟨s0, hs0, hupd⟩ := hmem
  have hsid : showDoc.id = booking.«show» := Store.findShow_id st _ _ hs
  by_cases hid : s0.id = showDoc.id
  · rw [if_pos hid] at hupd
    subst hupd
    obtain ⟨hold, hnot⟩ := mem_keys_releaseSeats _ _ _ hseat
    obtain ⟨b, hb, hbs, hbseat⟩ := hinv showDoc (Store.findShow_mem st _ _ hs) seat hold
    refine ⟨b, hkeep b hb ?_, hbs.trans hid.symm, hbseat⟩
    intro heq
    rw [heq] at hbseat
    exact hnot hbseat
  · rw [if_neg hid] at hupd
    subst hupd
    obtain ⟨b, hb, hbs, hbseat⟩ := hinv s0 hs0 seat hseat
    refine ⟨b, hkeep b hb ?_, hbs, hbseat⟩
    intro heq
    rw [heq] at hbs
    exact hid (hbs.symm.trans hsid.symm)

theorem noOrphanHolds_checkPaymentStatus (st : Store) (env : ReleaseEnv)
    (event : CheckPaymentEvent) (hinv : NoOrphanHolds st) :
    NoOrphanHolds (checkPaymentStatus st env event).store := by
  rcases checkPaymentStatus_store st env event with
    h | ⟨booking, showDoc, hfind, _, hs, h | h⟩
  · rw [h]; exact hinv
  · rw [h]
    exact noOrphanHolds_releaseSeats st showDoc booking hinv hs st.bookings (fun b hb _ => hb)
  · rw [h]
    exact noOrphanHolds_releaseSeats st showDoc booking hinv hs _
      (fun b hb hne => mem_eraseP_of_ne_found _ _ booking b hfind hb hne)

theorem noOrphanHolds_runActions (acts : List Action) (st : Store) (hinv : NoOrphanHolds st) :
    NoOrphanHolds (runActions st acts) := by
  induction acts generalizing st with
  | nil => exact hinv
  | cons a rest ih =>
    have hstep : runActions st (a :: rest) = runActions (applyAction st a) rest := rfl
    rw [hstep]
    apply ih
    cases a with
    | book env req => exact noOrphanHolds_createBooking st env req hinv
    | reconcile env event => exact noOrphanHolds_checkPaymentStatus st env event hinv

/-- C9: starting from a store in which every show's `occupiedSeats` is empty and there is no
booking, after any sequence of sequentially executed `createBooking` requests and
`check-payment-status` steps (whatever the external calls return, whatever the event
payloads), every key of every show's `occupiedSeats` is among the `bookedSeats` of some
stored Booking that references that show. -/
theorem noOrphanHolds_reachable (st : Store) (acts : List Action)
    (hfree : ∀ s ∈ st.shows, s.occupiedSeats = [])
    (_hnone : st.bookings = []) :
    NoOrphanHolds (runActions st acts) := by
  apply noOrphanHolds_runActions
  intro s hs seat hseat
  rw [hfree s hs] at hseat
  cases hseat

/-- Witness for C9: the scenario (two requests, then the reconciliation step for the event
of the first, once as sent and once with a payload that resolves the booking). -/
theorem noOrphanHolds_reachable_witness :
    ((∀ s ∈ store0.shows, s.occupiedSeats = []) ∧ store0.bookings = []) ∧
    NoOrphanHolds (runActions store0
      [.book (envOk "b1") ⟨U1, "S", ["A1", "A2"]⟩,
       .book (envOk "b2") ⟨U2, "S", ["A2", "B1"]⟩,
       .reconcile releaseOk (SentEvent.received { name := "app/checkpayment", bookingId := "b1" }),
       .reconcile releaseOk { bookingId := .obj [("booking_id", .str "b1")] }]) :=
  ⟨⟨by decide, rfl⟩, noOrphanHolds_reachable store0 _ (by decide) rfl⟩

/-! ## Interleaved requests -/

/-- Left alone, a run performs its awaited calls in order and ends, after seven steps, with
the store, the sessions, the events and the response of `createBooking`. -/
theorem Run.exec_start (st : Store) (env : BookingEnv) (req : BookingRequest) :
    (Run.exec 7 st (Run.start env req)).1 = (createBooking st env req).store ∧
    (Run.exec 7 st (Run.start env req)).2.pc = .finished (createBooking st env req).response ∧
    (Run.exec 7 st (Run.start env req)).2.sessions = (createBooking st env req).sessions ∧
    (Run.exec 7 st (Run.start env req)).2.events = (createBooking st env req).events := by
  cases hc : checkSeatAvailability st req.showId req.selectedSeats with
  | false => simp [Run.exec, Run.step, Run.start, createBooking, hc]
  | true =>
    cases hf : st.findShow req.showId with
    | none => simp [Run.exec, Run.step, Run.start, createBooking, hc, hf]
    | some showData =>
      cases hcr : env.create with
      | error msg => simp [Run.exec, Run.step, Run.start, createBooking, hc, hf, hcr]
      | ok bookingId =>
        by_cases hdup : st.bookings.any (fun b => decide (b.id = bookingId)) = true
        · simp [Run.exec, Run.step, Run.start, createBooking, hc, hf, hcr, hdup]
        · cases hss : env.showSave with
          | error msg =>
            simp [Run.exec, Run.step, Run.start, createBooking, hc, hf, hcr, hdup, hss]
          | ok u1 =>
            cases hm : st.findMovie showData.movie with
            | none =>
              simp [Run.exec, Run.step, Run.start, createBooking, hc, hf, hcr, hdup, hss, hm]
            | some movie =>
              cases hse : env.session with
              | error msg =>
                simp [Run.exec, Run.step, Run.start, createBooking, hc, hf, hcr, hdup, hss, hm,
                  hse]
              | ok url =>
                cases hbs : env.bookingSave with
                | error msg =>
                  simp [Run.exec, Run.step, Run.start, createBooking, hc, hf, hcr, hdup, hss,
                    hm, hse, hbs]
                | ok u2 =>
                  cases hsd : env.send with
                  | error msg =>
                    simp [Run.exec, Run.step, Run.start, createBooking, hc, hf, hcr, hdup, hss,
                      hm, hse, hbs, hsd]
                  | ok u3 =>
                    simp [Run.exec, Run.step, Run.start, createBooking, hc, hf, hcr, hdup, hss,
                      hm, hse, hbs, hsd]

theorem Run.step_finished (st : Store) (r : Run) (resp : Response)
    (h : r.pc = .finished resp) : Run.step st r = (st, r) := by
  unfold Run.step
  rw [h]

theorem Run.step_pastSave (st : Store) (r : Run) (h : r.pc.pastSave = true) :
    (Run.step st r).1.shows = st.shows ∧ (Run.step st r).2.pc.pastSave = true ∧
    (Run.step st r).2.req = r.req := by
  obtain ⟨req, env, pc, sessions, events⟩ := r
  cases pc with
  | checkAvailability => simp [Pc.pastSave] at h
  | loadShow => simp [Pc.pastSave] at h
  | createDocument showData movie => simp [Pc.pastSave] at h
  | saveShow showData movie booking => simp [Pc.pastSave] at h
  | createSession movie booking =>
    cases he : env.session <;> simp [Run.step, he, Pc.pastSave]
  | saveBooking booking url =>
    cases he : env.bookingSave <;> simp [Run.step, he, Pc.pastSave, Store.saveBookingLink]
  | sendEvent booking url =>
    cases he : env.send <;> simp [Run.step, he, Pc.pastSave]
  | finished resp => simp [Run.step, Pc.pastSave]

theorem Run.step_check_occupied (st : Store) (r : Run) (showData : Show) (seat : String)
    (hpc : r.pc = .checkAvailability)
    (hshow : st.findShow r.req.showId = some showData)
    (hsel : seat ∈ r.req.selectedSeats) (hocc : seat ∈ showData.occupiedSeats.keys) :
    Run.step st r = (st, { r with pc := .finished seatsNotAvailable }) := by
  have hc := checkSeatAvailability_false_of_key st r.req.showId r.req.selectedSeats showData
    seat hshow hsel hocc
  unfold Run.step
  rw [hpc]
  simp [hc]

theorem Pair.run_cons (p : Pair) (b : Bool) (rest : List Bool) :
    p.run (b :: rest) = (p.step b).run rest := rfl

theorem Pair.run_append (p : Pair) (s1 s2 : List Bool) :
    p.run (s1 ++ s2) = (p.run s1).run s2 := by
  unfold Pair.run
  exact List.foldl_append _ _ _ _

theorem Pair.run_replicate_false (n : Nat) (p : Pair) :
    p.run (List.replicate n false) =
      { p with store := (Run.exec n p.store p.first).1, first := (Run.exec n p.store p.first).2 } := by
  induction n generalizing p with
  | zero => rfl
  | succ n ih =>
    rw [List.replicate_succ, Pair.run_cons, ih]
    simp [Pair.step, Run.exec]

theorem Pair.run_first_finished (schedule : List Bool) (p : Pair) (resp : Response)
    (h : p.first.pc = .finished resp) : (p.run schedule).first.pc = .finished resp := by
  induction schedule generalizing p with
  | nil => exact h
  | cons b rest ih =>
    rw [Pair.run_cons]
    apply ih
    cases b with
    | true => simpa [Pair.step] using h
    | false =>
      simp only [Pair.step, Bool.false_eq_true, if_false]
      rw [Run.step_finished p.store p.first resp h]
      exact h

/-- After its first four steps (check, load, create, save) a run either has already failed,
or it is past `showData.save()` and every seat it selected is occupied in the store. -/
theorem Run.exec_four (st : Store) (env : BookingEnv) (req : BookingRequest) :
    (∃ resp, (Run.exec 4 st (Run.start env req)).2.pc = .finished resp ∧ resp.success = false) ∨
    ((Run.exec 4 st (Run.start env req)).2.pc.pastSave = true ∧
      ∃ sd, (Run.exec 4 st (Run.start env req)).1.findShow req.showId = some sd ∧
        ∀ seat ∈ req.selectedSeats, seat ∈ sd.occupiedSeats.keys) := by
  cases hc : checkSeatAvailability st req.showId req.selectedSeats with
  | false =>
    left
    exact ⟨seatsNotAvailable, by simp [Run.exec, Run.step, Run.start, hc], rfl⟩
  | true =>
    cases hf : st.findShow req.showId with
    | none =>
      left
      exact ⟨serverError "Cannot read properties of null (reading 'showPrice')",
        by simp [Run.exec, Run.step, Run.start, hc, hf], rfl⟩
    | some showData =>
      cases hcr : env.create with
      | error msg =>
        left
        exact ⟨serverError msg, by simp [Run.exec, Run.step, Run.start, hc, hf, hcr], rfl⟩
      | ok bookingId =>
        by_cases hdup : st.bookings.any (fun b => decide (b.id = bookingId)) = true
        · left
          exact ⟨serverError "E11000 duplicate key error",
            by simp [Run.exec, Run.step, Run.start, hc, hf, hcr, hdup], rfl⟩
        · cases hss : env.showSave with
          | error msg =>
            left
            exact ⟨serverError msg,
              by simp [Run.exec, Run.step, Run.start, hc, hf, hcr, hdup, hss], rfl⟩
          | ok u1 =>
            cases hm : st.findMovie showData.movie with
            | none =>
              left
              exact ⟨serverError "Cannot read properties of null (reading 'title')",
                by simp [Run.exec, Run.step, Run.start, hc, hf, hcr, hdup, hss, hm], rfl⟩
            | some movie =>
              right
              have hstore : (Run.exec 4 st (Run.start env req)).1.shows =
                  (st.saveShowSeats showData.id
                    (markSeats showData.occupiedSeats req.selectedSeats req.userId)).shows := by
                simp [Run.exec, Run.step, Run.start, hc, hf, hcr, hdup, hss, hm,
                  Store.saveShowSeats]
              refine ⟨by simp [Run.exec, Run.step, Run.start, hc, hf, hcr, hdup, hss, hm,
                Pc.pastSave], ?_⟩
              have hmarked : ∃ sd : Show, sd = ⟨showData.id, showData.movie, showData.showDateTime, showData.showPrice,
                  markSeats showData.occupiedSeats req.selectedSeats req.userId⟩ := ⟨_, rfl⟩
              obtain ⟨marked, hmk⟩ := hmarked
              refine ⟨marked, ?_, ?_⟩
              · have hfind : (Run.exec 4 st (Run.start env req)).1.findShow req.showId =
                    (st.saveShowSeats showData.id
                      (markSeats showData.occupiedSeats req.selectedSeats req.userId)).findShow
                      req.showId := by
                  unfold Store.findShow
                  rw [hstore]
                rw [hfind, Store.findShow_saveShowSeats, hf, hmk]
                simp
              · intro seat hseat
                rw [hmk, SeatMap.mem_keys_iff]
                show (markSeats showData.occupiedSeats req.selectedSeats req.userId).get seat ≠ none
                rw [get_markSeats, if_pos hseat]
                simp

/-- From the moment the seat is occupied and the first run is past its save, whatever the
scheduler does, the second run can only be rejected. -/
theorem Pair.run_second_rejected (schedule : List Bool) (p : Pair) (seat : String)
    (hpast : p.first.pc.pastSave = true)
    (hocc : ∃ sd, p.store.findShow p.second.req.showId = some sd ∧ seat ∈ sd.occupiedSeats.keys)
    (hsel : seat ∈ p.second.req.selectedSeats)
    (hpc : p.second.pc = .checkAvailability ∨ p.second.pc = .finished seatsNotAvailable) :
    (p.run schedule).second.pc = .checkAvailability ∨
    (p.run schedule).second.pc = .finished seatsNotAvailable := by
  induction schedule generalizing p with
  | nil => exact hpc
  | cons b rest ih =>
    rw [Pair.run_cons]
    obtain ⟨sd, hsd, hkey⟩ := hocc
    cases b with
    | false =>
      obtain ⟨hshows, hpast', _⟩ := Run.step_pastSave p.store p.first hpast
      apply ih
      · simpa [Pair.step] using hpast'
      · refine ⟨sd, ?_, hkey⟩
        simp only [Pair.step, Bool.false_eq_true, if_false]
        unfold Store.findShow at hsd ⊢
        rw [hshows]
        exact hsd
      · simpa [Pair.step] using hsel
      · simpa [Pair.step] using hpc
    | true =>
      have hstep : Run.step p.store p.second =
          (p.store, { p.second with pc := .finished seatsNotAvailable }) := by
        rcases hpc with h | h
        · exact Run.step_check_occupied p.store p.second sd seat h hsd hsel hkey
        · rw [Run.step_finished p.store p.second _ h]
          congr 1
          cases hsec : p.second with
          | mk req env pc sessions events =>
            rw [hsec] at h
            simp only at h
            subst h
            rfl
      apply ih
      · simpa [Pair.step, hstep] using hpast
      · refine ⟨sd, ?_, hkey⟩
        simpa [Pair.step, hstep] using hsd
      · simpa [Pair.step, hstep] using hsel
      · right
        simp [Pair.step, hstep]

/-- C10 as stated fails: seats A1, A2, B1 are free, U1 asks for A1, A2 and U2 for A2, B1; in
the interleaving where both availability checks run before either request saves, both
requests get the success response, both bookings are stored, and A2 is in both. -/
theorem overlapping_requests_both_succeed :
    ("A2" ∈ ["A1", "A2"] ∧ "A2" ∈ ["A2", "B1"] ∧ store0.shows = [showS] ∧
      showS.occupiedSeats = []) ∧
    (racingPair.run racingSchedule).first.response =
      some (successResponse "https://pay/session") ∧
    (racingPair.run racingSchedule).second.response =
      some (successResponse "https://pay/session") ∧
    (racingPair.run racingSchedule).store.shows =
      [{ showS with occupiedSeats := [("A1", U1), ("A2", U2), ("B1", U2)] }] ∧
    (racingPair.run racingSchedule).store.bookings.map (fun b => (b.user, b.bookedSeats)) =
      [(U1, ["A1", "A2"]), (U2, ["A2", "B1"])] := by
  decide

/-- C10 amended: for two requests on the same show that share a seat, in every interleaving
in which the first request has performed its `showData.save()` (its first four awaited
calls) before the second request runs its availability check, if the first request gets
the success response then the second is rejected as seats-unavailable; so exactly one of the
two succeeds. -/
theorem overlapping_requests_after_save (st : Store) (env1 env2 : BookingEnv)
    (req1 req2 : BookingRequest) (seat : String) (rest : List Bool) (r1 r2 : Response)
    (hshow : req1.showId = req2.showId)
    (h1 : seat ∈ req1.selectedSeats) (h2 : seat ∈ req2.selectedSeats)
    (hr1 : ((Pair.start st env1 req1 env2 req2).run
      (List.replicate 4 false ++ rest)).first.response = some r1)
    (hr2 : ((Pair.start st env1 req1 env2 req2).run
      (List.replicate 4 false ++ rest)).second.response = some r2)
    (hsucc : r1.success = true) :
    r2 = seatsNotAvailable ∧ r2.success = false := by
  rw [Pair.run_append, Pair.run_replicate_false] at hr1 hr2
  rcases Run.exec_four st env1 req1 with ⟨resp, hfin, hfail⟩ | ⟨hpast, sd, hfind, hall⟩
  · have hkeep := Pair.run_first_finished rest
      { Pair.start st env1 req1 env2 req2 with
        store := (Run.exec 4 st (Run.start env1 req1)).1,
        first := (Run.exec 4 st (Run.start env1 req1)).2 } resp hfin
    have hresp : r1 = resp := by
      unfold Run.response at hr1
      simp only [Pair.start] at hr1 hkeep
      rw [hkeep] at hr1
      exact (Option.some.inj hr1).symm
    rw [hresp, hfail] at hsucc
    cases hsucc
  · have hsecond := Pair.run_second_rejected rest
      { Pair.start st env1 req1 env2 req2 with
        store := (Run.exec 4 st (Run.start env1 req1)).1,
        first := (Run.exec 4 st (Run.start env1 req1)).2 } seat hpast
      ⟨sd, by rw [hshow] at hfind; exact hfind, hall seat h1⟩ h2 (Or.inl rfl)
    simp only [Pair.start] at hr2 hsecond
    unfold Run.response at hr2
    rcases hsecond with h | h
    · rw [h] at hr2
      cases hr2
    · rw [h] at hr2
      have : r2 = seatsNotAvailable := (Option.some.inj hr2).symm
      subst this
      exact ⟨rfl, rfl⟩

/-- Witness for C10 amended: U1's request has saved the show when U2's request is first
scheduled; the remaining steps interleave; U1 succeeds and U2 is rejected. -/
theorem overlapping_requests_after_save_witness :
    ((Pair.start store0 (envOk "b1") ⟨U1, "S", ["A1", "A2"]⟩ (envOk "b2")
        ⟨U2, "S", ["A2", "B1"]⟩).run
      (List.replicate 4 false ++ [true, false, false, false])).first.response =
      some (successResponse "https://pay/session") ∧
    (seatsNotAvailable = seatsNotAvailable ∧ seatsNotAvailable.success = false) :=
  ⟨by decide,
   overlapping_requests_after_save store0 (envOk "b1") (envOk "b2") ⟨U1, "S", ["A1", "A2"]⟩
     ⟨U2, "S", ["A2", "B1"]⟩ "A2" [true, false, false, false]
     (successResponse "https://pay/session") seatsNotAvailable
     rfl (by decide) (by decide) (by decide) (by decide) rfl⟩

/-! ## Requests on disjoint seats -/

theorem createBooking_movies (st : Store) (env : BookingEnv) (req : BookingRequest) :
    (createBooking st env req).store.movies = st.movies := by
  rcases createBooking_store st env req with h | ⟨_, _, _, _, _, _, _, hm, _, _⟩
  · rw [h]
  · exact hm

theorem checkSeatAvailability_of_free (st : Store) (showId : String) (seats : List String)
    (sd : Show) (hshow : st.findShow showId = some sd)
    (hfree : ∀ seat ∈ seats, seat ∉ sd.occupiedSeats.keys)
    (hlabel : ∀ seat ∈ seats, seat ∉ objectPrototypeKeys) :
    checkSeatAvailability st showId seats = true := by
  unfold checkSeatAvailability
  simp only [hshow, Bool.not_eq_true', List.any_eq_false]
  intro seat hseat
  unfold SeatMap.isTruthyAt
  rw [(SeatMap.get_eq_none_iff _ _).2 (hfree seat hseat)]
  simpa using hlabel seat hseat

/-- When the seats are free, carry no inherited property name, the show has its movie and
every external call resolves with a fresh id, the request succeeds. -/
theorem createBooking_resolving (st : Store) (req : BookingRequest) (sd : Show) (m : Movie)
    (bookingId url : String)
    (hshow : st.findShow req.showId = some sd) (hmovie : st.findMovie sd.movie = some m)
    (hfree : ∀ seat ∈ req.selectedSeats, seat ∉ sd.occupiedSeats.keys)
    (hlabel : ∀ seat ∈ req.selectedSeats, seat ∉ objectPrototypeKeys)
    (hfresh : ∀ b ∈ st.bookings, b.id ≠ bookingId) :
    (createBooking st (envResolving bookingId url) req).response = successResponse url ∧
    (createBooking st (envResolving bookingId url) req).store.findShow req.showId =
      some { sd with
        occupiedSeats := markSeats sd.occupiedSeats req.selectedSeats req.userId } ∧
    (∀ b ∈ (createBooking st (envResolving bookingId url) req).store.bookings,
      b ∈ st.bookings ∨ b.id = bookingId) := by
  have hc := checkSeatAvailability_of_free st req.showId req.selectedSeats sd hshow hfree hlabel
  have hdup : ¬ st.bookings.any (fun b => decide (b.id = bookingId)) = true := by
    intro h
    obtain ⟨b, hb, hid⟩ := List.any_eq_true.1 h
    exact hfresh b hb (by simpa using hid)
  have hresp : (createBooking st (envResolving bookingId url) req).response =
      successResponse url := by
    simp [createBooking, hc, hshow, hmovie, envResolving, hdup]
  have hsucc : (createBooking st (envResolving bookingId url) req).response.success = true := by
    rw [hresp]; rfl
  obtain ⟨sd', id', url', _, hsd', hid', _, hbook, hshows, _, _⟩ :=
    createBooking_success st (envResolving bookingId url) req hsucc
  have hsdeq : sd' = sd := Option.some.inj (hsd'.symm.trans hshow)
  have hideq : id' = bookingId := by
    have : Except.ok id' = (Except.ok bookingId : Except String String) := hid'.symm
    injection this
  subst hsdeq hideq
  refine ⟨hresp, ?_, ?_⟩
  · have hfind : (createBooking st (envResolving id' url) req).store.findShow req.showId =
        (st.saveShowSeats sd'.id
          (markSeats sd'.occupiedSeats req.selectedSeats req.userId)).findShow req.showId := by
      unfold Store.findShow
      rw [hshows]
    rw [hfind, Store.findShow_saveShowSeats, hshow]
    simp
  · intro b hb
    rw [hbook] at hb
    rcases List.mem_append.1 hb with h | h
    · exact Or.inl h
    · right
      rw [List.mem_singleton] at h
      rw [h]

/-- Two resolving requests on the same show, the second for seats that are free and are not
seats of the first: both succeed, and the show ends with the seats of both. -/
theorem createBooking_two_resolving (st : Store) (sd : Show) (m : Movie)
    (req1 req2 : BookingRequest) (id1 id2 url1 url2 : String)
    (hshow : st.findShow req1.showId = some sd) (hsame : req2.showId = req1.showId)
    (hmovie : st.findMovie sd.movie = some m)
    (hfree1 : ∀ seat ∈ req1.selectedSeats, seat ∉ sd.occupiedSeats.keys)
    (hfree2 : ∀ seat ∈ req2.selectedSeats, seat ∉ sd.occupiedSeats.keys)
    (hdisj : ∀ seat ∈ req2.selectedSeats, seat ∉ req1.selectedSeats)
    (hlabel1 : ∀ seat ∈ req1.selectedSeats, seat ∉ objectPrototypeKeys)
    (hlabel2 : ∀ seat ∈ req2.selectedSeats, seat ∉ objectPrototypeKeys)
    (hfresh1 : ∀ b ∈ st.bookings, b.id ≠ id1) (hfresh2 : ∀ b ∈ st.bookings, b.id ≠ id2)
    (hids : id1 ≠ id2) :
    (createBooking st (envResolving id1 url1) req1).response = successResponse url1 ∧
    (createBooking (createBooking st (envResolving id1 url1) req1).store
      (envResolving id2 url2) req2).response = successResponse url2 ∧
    ∃ sd2, (createBooking (createBooking st (envResolving id1 url1) req1).store
        (envResolving id2 url2) req2).store.findShow req1.showId = some sd2 ∧
      ∀ seat, sd2.occupiedSeats.get seat =
        if seat ∈ req2.selectedSeats then some req2.userId
        else if seat ∈ req1.selectedSeats then some req1.userId
        else sd.occupiedSeats.get seat := by
  obtain ⟨hresp1, hfind1, hbook1⟩ :=
    createBooking_resolving st req1 sd m id1 url1 hshow hmovie hfree1 hlabel1 hfresh1
  have hmarked : ∃ sd1 : Show, sd1 = { sd with
      occupiedSeats := markSeats sd.occupiedSeats req1.selectedSeats req1.userId } := ⟨_, rfl⟩
  obtain ⟨sd1, hsd1⟩ := hmarked
  rw [← hsd1] at hfind1
  have hocc1 : sd1.occupiedSeats = markSeats sd.occupiedSeats req1.selectedSeats req1.userId := by
    rw [hsd1]
  have hmov1 : sd1.movie = sd.movie := by rw [hsd1]
  have hshow2 : (createBooking st (envResolving id1 url1) req1).store.findShow req2.showId =
      some sd1 := by rw [hsame]; exact hfind1
  have hmovie2 : (createBooking st (envResolving id1 url1) req1).store.findMovie sd1.movie =
      some m := by
    unfold Store.findMovie
    rw [createBooking_movies, hmov1]
    exact hmovie
  have hfree2' : ∀ seat ∈ req2.selectedSeats, seat ∉ sd1.occupiedSeats.keys := by
    intro seat hseat hkey
    rw [hocc1] at hkey
    rcases mem_keys_markSeats _ _ _ _ hkey with h | h
    · exact hdisj seat hseat h
    · exact hfree2 seat hseat h
  have hfresh2' : ∀ b ∈ (createBooking st (envResolving id1 url1) req1).store.bookings,
      b.id ≠ id2 := by
    intro b hb
    rcases hbook1 b hb with h | h
    · exact hfresh2 b h
    · rw [h]; exact hids
  obtain ⟨hresp2, hfind2, _⟩ :=
    createBooking_resolving (createBooking st (envResolving id1 url1) req1).store req2 sd1 m
      id2 url2 hshow2 hmovie2 hfree2' hlabel2 hfresh2'
  refine ⟨hresp1, hresp2, _, by rw [← hsame]; exact hfind2, ?_⟩
  intro seat
  show (markSeats sd1.occupiedSeats req2.selectedSeats req2.userId).get seat = _
  rw [get_markSeats, hocc1, get_markSeats]

/-- C11 as stated fails: on a show with every seat free, the requests for the seat lists
[constructor] and [A1] are disjoint and name no key of `occupiedSeats`, yet the first is
answered 'Selected seats are not available' although every external call would resolve:
`occupiedSeats[seat]` reads the property inherited from `Object.prototype`. -/
theorem disjoint_requests_inherited_name_rejected :
    (store0.findShow "S" = some showS ∧ showS.occupiedSeats.keys = [] ∧
      (∀ seat ∈ ["constructor"], seat ∉ ["A1"])) ∧
    (createBooking store0 (envOk "b1") ⟨U1, "S", ["constructor"]⟩).response =
      seatsNotAvailable ∧
    (createBooking store0 (envOk "b1") ⟨U1, "S", ["constructor"]⟩).response.success = false := by
  decide

/-- C11 amended: for two requests on the same show whose seat lists are disjoint, all free on
that show and without a label that names a property inherited from `Object.prototype`, when the
show's movie exists and every external call of both requests resolves (with fresh, distinct
booking ids), both requests succeed whichever is handled first, and the resulting
`occupiedSeats` is the same map in both orders: the old map plus every seat of the one
request mapped to its requester and every seat of the other mapped to its requester. -/
theorem disjoint_requests_both_orders (st : Store) (sd : Show) (m : Movie)
    (reqA reqB : BookingRequest) (idA idB urlA urlB : String)
    (hshow : st.findShow reqA.showId = some sd) (hsame : reqB.showId = reqA.showId)
    (hmovie : st.findMovie sd.movie = some m)
    (hfreeA : ∀ seat ∈ reqA.selectedSeats, seat ∉ sd.occupiedSeats.keys)
    (hfreeB : ∀ seat ∈ reqB.selectedSeats, seat ∉ sd.occupiedSeats.keys)
    (hdisj : ∀ seat ∈ reqA.selectedSeats, seat ∉ reqB.selectedSeats)
    (hlabelA : ∀ seat ∈ reqA.selectedSeats, seat ∉ objectPrototypeKeys)
    (hlabelB : ∀ seat ∈ reqB.selectedSeats, seat ∉ objectPrototypeKeys)
    (hfreshA : ∀ b ∈ st.bookings, b.id ≠ idA) (hfreshB : ∀ b ∈ st.bookings, b.id ≠ idB)
    (hids : idA ≠ idB) :
    ((createBooking st (envResolving idA urlA) reqA).response.success = true ∧
     (createBooking (createBooking st (envResolving idA urlA) reqA).store
        (envResolving idB urlB) reqB).response.success = true) ∧
    ((createBooking st (envResolving idB urlB) reqB).response.success = true ∧
     (createBooking (createBooking st (envResolving idB urlB) reqB).store
        (envResolving idA urlA) reqA).response.success = true) ∧
    ∃ sAB sBA,
      (createBooking (createBooking st (envResolving idA urlA) reqA).store
        (envResolving idB urlB) reqB).store.findShow reqA.showId = some sAB ∧
      (createBooking (createBooking st (envResolving idB urlB) reqB).store
        (envResolving idA urlA) reqA).store.findShow reqA.showId = some sBA ∧
      ∀ seat, sAB.occupiedSeats.get seat = sBA.occupiedSeats.get seat ∧
        sAB.occupiedSeats.get seat =
          if seat ∈ reqA.selectedSeats then some reqA.userId
          else if seat ∈ reqB.selectedSeats then some reqB.userId
          else sd.occupiedSeats.get seat := by
  have hdisj' : ∀ seat ∈ reqB.selectedSeats, seat ∉ reqA.selectedSeats :=
    fun seat hB hA => hdisj seat hA hB
  obtain ⟨hA1, hA2, sAB, hfindAB, hgetAB⟩ :=
    createBooking_two_resolving st sd m reqA reqB idA idB urlA urlB hshow hsame hmovie
      hfreeA hfreeB hdisj' hlabelA hlabelB hfreshA hfreshB hids
  obtain ⟨hB1, hB2, sBA, hfindBA, hgetBA⟩ :=
    createBooking_two_resolving st sd m reqB reqA idB idA urlB urlA (by rw [hsame]; exact hshow)
      hsame.symm hmovie hfreeB hfreeA hdisj hlabelB hlabelA hfreshB hfreshA (Ne.symm hids)
  rw [hsame] at hfindBA
  refine ⟨⟨by rw [hA1]; rfl, by rw [hA2]; rfl⟩, ⟨by rw [hB1]; rfl, by rw [hB2]; rfl⟩,
    sAB, sBA, hfindAB, hfindBA, ?_⟩
  intro seat
  rw [hgetAB, hgetBA]
  by_cases h1 : seat ∈ reqA.selectedSeats
  · have h2 : seat ∉ reqB.selectedSeats := hdisj seat h1
    simp [h1, h2]
  · simp [h1]

/-- Witness for C11 amended: on the scenario show, U1 asks for A1 and A2 and U2 for B1. -/
theorem disjoint_requests_both_orders_witness :
    ((createBooking store0 (envResolving "b1" "u1") ⟨U1, "S", ["A1", "A2"]⟩).response.success
        = true ∧
     (createBooking (createBooking store0 (envResolving "b1" "u1") ⟨U1, "S", ["A1", "A2"]⟩).store
        (envResolving "b2" "u2") ⟨U2, "S", ["B1"]⟩).response.success = true) ∧
    (createBooking (createBooking store0 (envResolving "b1" "u1") ⟨U1, "S", ["A1", "A2"]⟩).store
        (envResolving "b2" "u2") ⟨U2, "S", ["B1"]⟩).store.shows =
      [{ showS with occupiedSeats := [("A1", U1), ("A2", U1), ("B1", U2)] }] ∧
    (createBooking (createBooking store0 (envResolving "b2" "u2") ⟨U2, "S", ["B1"]⟩).store
        (envResolving "b1" "u1") ⟨U1, "S", ["A1", "A2"]⟩).store.shows =
      [{ showS with occupiedSeats := [("B1", U2), ("A1", U1), ("A2", U1)] }] :=
  ⟨(disjoint_requests_both_orders store0 showS { id := "M", title := "Movie" }
      ⟨U1, "S", ["A1", "A2"]⟩ ⟨U2, "S", ["B1"]⟩ "b1" "b2" "u1" "u2"
      (by decide) rfl (by decide) (by decide) (by decide) (by decide) (by decide) (by decide)
      (by decide) (by decide) (by decide)).1,
   by decide, by decide⟩

/-! ## Partial failures inside `createBooking` -/

/-- The event is sent by the last awaited call: a run that does not end with the success
response has sent none. -/
theorem createBooking_events_of_failure (st : Store) (env : BookingEnv) (req : BookingRequest)
    (h : (createBooking st env req).response.success = false) :
    (createBooking st env req).events = [] := by
  cases hc : checkSeatAvailability st req.showId req.selectedSeats with
  | false => rw [createBooking_unavailable st env req hc]
  | true =>
    cases hf : st.findShow req.showId with
    | none => simp [createBooking, hc, hf]
    | some showData =>
      cases hcr : env.create with
      | error msg => simp [createBooking, hc, hf, hcr]
      | ok bookingId =>
        by_cases hdup : st.bookings.any (fun b => decide (b.id = bookingId)) = true
        · simp [createBooking, hc, hf, hcr, hdup]
        · cases hss : env.showSave with
          | error msg => simp [createBooking, hc, hf, hcr, hdup, hss]
          | ok u1 =>
            cases hm : st.findMovie showData.movie with
            | none => simp [createBooking, hc, hf, hcr, hdup, hss, hm]
            | some movie =>
              cases hse : env.session with
              | error msg => simp [createBooking, hc, hf, hcr, hdup, hss, hm, hse]
              | ok url =>
                cases hbs : env.bookingSave with
                | error msg => simp [createBooking, hc, hf, hcr, hdup, hss, hm, hse, hbs]
                | ok u2 =>
                  cases hsd : env.send with
                  | error msg =>
                    simp [createBooking, hc, hf, hcr, hdup, hss, hm, hse, hbs, hsd]
                  | ok u3 =>
                    simp [createBooking, hc, hf, hcr, hdup, hss, hm, hse, hbs, hsd,
                      successResponse] at h

/-- C12 (the code fails the claim): the payment gateway rejects the session after U1's
booking of A1 and A2 was created and the seats were saved.  The request answers 500, the
booking stays (unpaid, without paymentLink), A1 and A2 stay occupied, and no event was
sent: `inngest.send` comes after the failing call and the catch block sends nothing. -/
theorem createBooking_session_failure_no_event :
    envSessionFails.session = .error "payment gateway unavailable" ∧
    (createBooking store0 envSessionFails ⟨U1, "S", ["A1", "A2"]⟩).response =
      serverError "payment gateway unavailable" ∧
    (createBooking store0 envSessionFails ⟨U1, "S", ["A1", "A2"]⟩).store.bookings =
      [{ bookingB1 with paymentLink := none }] ∧
    (createBooking store0 envSessionFails ⟨U1, "S", ["A1", "A2"]⟩).store.shows =
      [{ showS with occupiedSeats := [("A1", U1), ("A2", U1)] }] ∧
    (createBooking store0 envSessionFails ⟨U1, "S", ["A1", "A2"]⟩).events = [] := by
  refine ⟨rfl, by decide, ?_, by decide, by decide⟩
  have h : (createBooking store0 envSessionFails ⟨U1, "S", ["A1", "A2"]⟩).store.bookings =
      [{ bookingB1 with amount := jsMul 10 ((2 : ℕ) : ℚ), paymentLink := none }] := by rfl
  rw [h, jsMul_ten_two]
  rfl

/-- C13 as stated fails: saving the show fails after `Booking.create` resolved; the request
answers 500 and the booking it created is still in the store, with none of its seats
marked. -/
theorem createBooking_show_save_failure_keeps_booking :
    envShowSaveFails.showSave = .error "show save failed" ∧
    (createBooking store0 envShowSaveFails ⟨U1, "S", ["A1", "A2"]⟩).response =
      serverError "show save failed" ∧
    (createBooking store0 envShowSaveFails ⟨U1, "S", ["A1", "A2"]⟩).store.bookings =
      [{ bookingB1 with paymentLink := none }] ∧
    (createBooking store0 envShowSaveFails ⟨U1, "S", ["A1", "A2"]⟩).store.shows = [showS] := by
  refine ⟨rfl, by decide, ?_, by decide⟩
  have h : (createBooking store0 envShowSaveFails ⟨U1, "S", ["A1", "A2"]⟩).store.bookings =
      [{ bookingB1 with amount := jsMul 10 ((2 : ℕ) : ℚ), paymentLink := none }] := by rfl
  rw [h, jsMul_ten_two]
  rfl

/-- C13 amended: when `showData.save()` fails inside `createBooking` (after the availability
check passed and `Booking.create` resolved), the request answers 500 with the error's
message, the Booking it created remains in the store (unpaid, without paymentLink), no
show is changed, so none of the seats is marked, and no payment session or event is
requested. -/
theorem createBooking_show_save_failure (st : Store) (env : BookingEnv) (req : BookingRequest)
    (showData : Show) (bookingId msg : String)
    (havail : checkSeatAvailability st req.showId req.selectedSeats = true)
    (hshow : st.findShow req.showId = some showData)
    (hcreate : env.create = .ok bookingId)
    (hfresh : ∀ b ∈ st.bookings, b.id ≠ bookingId)
    (hsave : env.showSave = .error msg) :
    (createBooking st env req).response = serverError msg ∧
    (createBooking st env req).store.bookings = st.bookings ++
      [{ id := bookingId, user := req.userId, «show» := req.showId,
         amount := jsMul showData.showPrice (req.selectedSeats.length : ℚ),
         bookedSeats := req.selectedSeats, isPaid := false, paymentLink := none }] ∧
    (createBooking st env req).store.shows = st.shows ∧
    (createBooking st env req).sessions = [] ∧ (createBooking st env req).events = [] := by
  have hdup : ¬ st.bookings.any (fun b => decide (b.id = bookingId)) = true := by
    intro h
    obtain ⟨b, hb, hid⟩ := List.any_eq_true.1 h
    exact hfresh b hb (by simpa using hid)
  refine ⟨?_, ?_, ?_, ?_, ?_⟩ <;>
    simp [createBooking, havail, hshow, hcreate, hdup, hsave]

/-- Witness for C13 amended: the scenario request with a failing show save. -/
theorem createBooking_show_save_failure_witness :
    (checkSeatAvailability store0 "S" ["A1", "A2"] = true ∧ store0.findShow "S" = some showS) ∧
    (createBooking store0 envShowSaveFails ⟨U1, "S", ["A1", "A2"]⟩).response =
      serverError "show save failed" ∧
    (createBooking store0 envShowSaveFails ⟨U1, "S", ["A1", "A2"]⟩).store.shows = store0.shows :=
  ⟨⟨by decide, by decide⟩,
   (createBooking_show_save_failure store0 envShowSaveFails ⟨U1, "S", ["A1", "A2"]⟩ showS "b1"
     "show save failed" (by decide) (by decide) rfl (by decide) rfl).1,
   (createBooking_show_save_failure store0 envShowSaveFails ⟨U1, "S", ["A1", "A2"]⟩ showS "b1"
     "show save failed" (by decide) (by decide) rfl (by decide) rfl).2.2.1⟩

/-! ## The payment session and the event -/

/-- C14 (the code fails the claim): show price 10.50, one seat.  The booking's amount is
10.50, but the session is requested with `unit_amount = Math.floor(10.5) * 100 = 1000` and
quantity 1, which is not 10.50 x 100 = 1050. -/
theorem createBooking_unit_amount_truncated :
    (createBooking storeHalf (envOk "b1") ⟨U1, "S", ["A1"]⟩).response.success = true ∧
    (createBooking storeHalf (envOk "b1") ⟨U1, "S", ["A1"]⟩).store.bookings.map
      (fun b => b.amount) = [21 / 2] ∧
    (createBooking storeHalf (envOk "b1") ⟨U1, "S", ["A1"]⟩).sessions =
      [{ productName := "Movie", unitAmount := 1000, quantity := 1, bookingId := "b1" }] ∧
    (1000 : ℚ) * 1 ≠ 21 / 2 * 100 := by
  have hamount : jsMul (21 / 2) ((1 : ℕ) : ℚ) = 21 / 2 := by
    have h : (21 / 2 : ℚ) * ((1 : ℕ) : ℚ) = ((21 : ℤ) : ℚ) * 2 ^ (-1 : ℤ) := by norm_num
    rw [jsMul, h, roundDouble_of_representable 21 (-1) (by norm_num) (by norm_num)]
    norm_num
  have hfloor : ⌊(21 / 2 : ℚ)⌋ = 10 := by
    rw [Int.floor_eq_iff]
    constructor <;> norm_num
  have hunit : jsMul ((10 : ℤ) : ℚ) 100 = 1000 := by
    have h : (((10 : ℤ) : ℚ)) * 100 = ((1000 : ℕ) : ℚ) := by norm_num
    rw [jsMul, h, roundDouble_natCast 1000 (by norm_num)]
    norm_num
  refine ⟨by decide, ?_, ?_, by norm_num⟩
  · have h : (createBooking storeHalf (envOk "b1") ⟨U1, "S", ["A1"]⟩).store.bookings.map
        (fun b => b.amount) = [jsMul (21 / 2) ((1 : ℕ) : ℚ)] := by rfl
    rw [h, hamount]
  · have h : (createBooking storeHalf (envOk "b1") ⟨U1, "S", ["A1"]⟩).sessions =
        [{ productName := "Movie",
           unitAmount := jsMul ((⌊jsMul (21 / 2) ((1 : ℕ) : ℚ)⌋ : ℤ) : ℚ) 100,
           quantity := 1, bookingId := "b1" }] := by rfl
    rw [h, hamount, hfloor, hunit]

/-- C15: a request that gets the success response has sent exactly one event, named
'app/checkpayment', whose `bookingId` is the id of the one Booking the request created, and
that Booking carries as `paymentLink` the URL returned in the response; a request that is
rejected as seats-unavailable has sent no event. -/
theorem createBooking_event_and_link (st : Store) (env : BookingEnv) (req : BookingRequest) :
    ((createBooking st env req).response.success = true →
      ∃ b url, (createBooking st env req).store.bookings = st.bookings ++ [b] ∧
        b ∉ st.bookings ∧ b.user = req.userId ∧
        (createBooking st env req).events = [{ name := "app/checkpayment", bookingId := b.id }] ∧
        b.paymentLink = some url ∧
        (createBooking st env req).response.url = some url) ∧
    ((createBooking st env req).response = seatsNotAvailable →
      (createBooking st env req).events = []) := by
  constructor
  · intro hok
    obtain ⟨sd, bookingId, url, _, _, _, hfresh, hbook, _, hev, hresp⟩ :=
      createBooking_success st env req hok
    refine ⟨_, url, hbook, ?_, rfl, hev, rfl, by rw [hresp]; rfl⟩
    intro hmem
    exact hfresh _ hmem rfl
  · intro hrej
    apply createBooking_events_of_failure
    rw [hrej]
    rfl

/-- Witness for C15: the scenario request and the rejected request that follows it. -/
theorem createBooking_event_and_link_witness :
    ((createBooking store0 (envOk "b1") ⟨U1, "S", ["A1", "A2"]⟩).response.success = true ∧
     (createBooking store1 (envOk "b2") ⟨U2, "S", ["A2", "B1"]⟩).response = seatsNotAvailable) ∧
    (∃ b url, (createBooking store0 (envOk "b1") ⟨U1, "S", ["A1", "A2"]⟩).store.bookings =
        store0.bookings ++ [b] ∧ b ∉ store0.bookings ∧ b.user = U1 ∧
        (createBooking store0 (envOk "b1") ⟨U1, "S", ["A1", "A2"]⟩).events =
          [{ name := "app/checkpayment", bookingId := b.id }] ∧
        b.paymentLink = some url ∧
        (createBooking store0 (envOk "b1") ⟨U1, "S", ["A1", "A2"]⟩).response.url = some url) ∧
    (createBooking store1 (envOk "b2") ⟨U2, "S", ["A2", "B1"]⟩).events = [] :=
  ⟨⟨by decide, by decide⟩,
   (createBooking_event_and_link store0 (envOk "b1") ⟨U1, "S", ["A1", "A2"]⟩).1 (by decide),
   (createBooking_event_and_link store1 (envOk "b2") ⟨U2, "S", ["A2", "B1"]⟩).2 (by decide)⟩

/-! ## The seat list of a booking -/

/-- C17 as stated fails: on the free scenario show the request for the seat list [A1, A1]
succeeds and creates a Booking whose `bookedSeats` is [A1, A1], a label twice. -/
theorem createBooking_repeated_label_booked :
    (createBooking store0 (envOk "b1") ⟨U1, "S", ["A1", "A1"]⟩).response.success = true ∧
    (createBooking store0 (envOk "b1") ⟨U1, "S", ["A1", "A1"]⟩).store.bookings.map
      (fun b => b.bookedSeats) = [["A1", "A1"]] ∧
    ¬ (["A1", "A1"] : List String).Nodup := by
  decide

/-- C17 amended: every Booking that `createBooking` adds to the store has `bookedSeats`
equal to the seat list of the request, as sent, and every label of it passed the
availability check (`occupiedSeats[seat]` was falsy); the handler checks neither that the
list is non-empty nor that its labels are distinct. -/
theorem createBooking_bookedSeats (st : Store) (env : BookingEnv) (req : BookingRequest)
    (b : Booking)
    (hb : b ∈ (createBooking st env req).store.bookings)
    (hnew : b ∉ st.bookings) :
    b.bookedSeats = req.selectedSeats ∧
    ∃ showData, st.findShow req.showId = some showData ∧
      ∀ seat ∈ b.bookedSeats, showData.occupiedSeats.isTruthyAt seat = false := by
  rcases createBooking_store st env req with
    h | ⟨sd, bookingId, link, havail, hsd, _, _, _, hbook, _⟩
  · rw [h] at hb
    exact absurd hb hnew
  · rw [hbook] at hb
    rcases List.mem_append.1 hb with hold | hlast
    · exact absurd hold hnew
    · rw [List.mem_singleton] at hlast
      subst hlast
      refine ⟨rfl, sd, hsd, ?_⟩
      intro seat hseat
      unfold checkSeatAvailability at havail
      simp only [hsd, Bool.not_eq_true', List.any_eq_false] at havail
      simpa using havail seat hseat

/-- Witness for C17 amended: the booking the scenario request creates. -/
theorem createBooking_bookedSeats_witness :
    (bookingB1 ∈ (createBooking store0 (envOk "b1") ⟨U1, "S", ["A1", "A2"]⟩).store.bookings ∧
     bookingB1 ∉ store0.bookings) ∧
    bookingB1.bookedSeats = ["A1", "A2"] :=
  ⟨⟨by
      have h : (createBooking store0 (envOk "b1") ⟨U1, "S", ["A1", "A2"]⟩).store.bookings
          = [bookingB1] := store1_bookings
      rw [h]
      exact List.mem_singleton.2 rfl,
    by decide⟩,
   (createBooking_bookedSeats store0 (envOk "b1") ⟨U1, "S", ["A1", "A2"]⟩ bookingB1
     (by
      have h : (createBooking store0 (envOk "b1") ⟨U1, "S", ["A1", "A2"]⟩).store.bookings
          = [bookingB1] := store1_bookings
      rw [h]
      exact List.mem_singleton.2 rfl)
     (by decide)).1⟩

/-! ## `getOccupiedSeats` -/

theorem SeatMap.keys_set (m : SeatMap) (seat : String) (u : UserId) :
    (m.set seat u).keys = if seat ∈ m.keys then m.keys else m.keys ++ [seat] := by
  induction m with
  | nil => simp [SeatMap.set, SeatMap.keys]
  | cons p rest ih =>
    obtain ⟨k, v⟩ := p
    unfold SeatMap.set
    by_cases hk : k = seat
    · subst hk
      simp [SeatMap.keys]
    · have hk' : ¬ seat = k := fun h => hk h.symm
      simp only [SeatMap.keys] at ih
      simp only [hk, if_false, SeatMap.keys, List.map_cons, List.mem_cons, hk', false_or, ih]
      split <;> simp

theorem SeatMap.nodup_keys_set (m : SeatMap) (seat : String) (u : UserId)
    (h : m.keys.Nodup) : (m.set seat u).keys.Nodup := by
  rw [SeatMap.keys_set]
  split
  · exact h
  · rename_i hnot
    rw [List.nodup_append]
    refine ⟨h, List.nodup_singleton _, ?_⟩
    intro a ha hb
    rw [List.mem_singleton] at hb
    subst hb
    exact hnot ha

theorem SeatMap.nodup_keys_delete (m : SeatMap) (seat : String) (h : m.keys.Nodup) :
    (m.delete seat).keys.Nodup := by
  unfold SeatMap.delete SeatMap.keys at *
  exact (List.filter_sublist m).map _ |>.nodup h

theorem nodup_keys_markSeats (seats : List String) (occ : SeatMap) (u : UserId)
    (h : occ.keys.Nodup) : (markSeats occ seats u).keys.Nodup := by
  induction seats generalizing occ with
  | nil => exact h
  | cons s rest ih =>
    have hstep : markSeats occ (s :: rest) u = markSeats (occ.set s u) rest u := rfl
    rw [hstep]
    exact ih _ (SeatMap.nodup_keys_set occ s u h)

theorem nodup_keys_releaseSeats (bookedSeats : List String) (occ : SeatMap)
    (h : occ.keys.Nodup) : (releaseSeats occ bookedSeats).keys.Nodup := by
  induction bookedSeats generalizing occ with
  | nil => exact h
  | cons s rest ih =>
    have hstep : releaseSeats occ (s :: rest) = releaseSeats (occ.delete s) rest := rfl
    rw [hstep]
    exact ih _ (SeatMap.nodup_keys_delete occ s h)

theorem seatKeysDistinct_saveShowSeats (st : Store) (showId : String) (occ : SeatMap)
    (hst : st.SeatKeysDistinct) (hocc : occ.keys.Nodup) (bookings : List Booking) :
    Store.SeatKeysDistinct { (st.saveShowSeats showId occ) with bookings := bookings } := by
  intro s hs
  simp only [Store.saveShowSeats, List.mem_map] at hs
  obtain ⟨s0, hs0, hupd⟩ := hs
  by_cases hid : s0.id = showId
  · rw [if_pos hid] at hupd
    subst hupd
    exact hocc
  · rw [if_neg hid] at hupd
    subst hupd
    exact hst s0 hs0

/-- Every reachable store keeps each own key of an `occupiedSeats` object once. -/
theorem seatKeysDistinct_runActions (acts : List Action) (st : Store)
    (hst : st.SeatKeysDistinct) : (runActions st acts).SeatKeysDistinct := by
  induction acts generalizing st with
  | nil => exact hst
  | cons a rest ih =>
    have hstep : runActions st (a :: rest) = runActions (applyAction st a) rest := rfl
    rw [hstep]
    apply ih
    cases a with
    | book env req =>
      show (createBooking st env req).store.SeatKeysDistinct
      rcases createBooking_store st env req with
        h | ⟨sd, _, _, _, hsd, _, _, _, _, hsame | hsaved⟩
      · rw [h]; exact hst
      · intro s hs
        rw [hsame] at hs
        exact hst s hs
      · intro s hs
        rw [hsaved] at hs
        exact seatKeysDistinct_saveShowSeats st sd.id _ hst
          (nodup_keys_markSeats _ _ _ (hst sd (Store.findShow_mem st _ _ hsd))) st.bookings s hs
    | reconcile env event =>
      show (checkPaymentStatus st env event).store.SeatKeysDistinct
      rcases checkPaymentStatus_store st env event with
        h | ⟨booking, showDoc, _, _, hs, h | h⟩
      · rw [h]; exact hst
      · rw [h]
        exact seatKeysDistinct_saveShowSeats st showDoc.id _ hst
          (nodup_keys_releaseSeats _ _ (hst showDoc (Store.findShow_mem st _ _ hs))) st.bookings
      · rw [h]
        exact seatKeysDistinct_saveShowSeats st showDoc.id _ hst
          (nodup_keys_releaseSeats _ _ (hst showDoc (Store.findShow_mem st _ _ hs))) _

/-- A step that completed for an unpaid booking has saved the show without the booking's
seats. -/
theorem checkPaymentStatus_completed_unpaid (st : Store) (env : ReleaseEnv)
    (event : CheckPaymentEvent) (v : JSPrim) (booking : Booking)
    (hd : destructureBookingId event.bookingId = .ok v)
    (hb : st.findBookingById v = some booking) (hp : booking.isPaid = false)
    (hdone : (checkPaymentStatus st env event).result = .completed) :
    ∃ showDoc, st.findShow booking.«show» = some showDoc ∧
      (checkPaymentStatus st env event).store.findShow booking.«show» =
        some { showDoc with
          occupiedSeats := releaseSeats showDoc.occupiedSeats booking.bookedSeats } := by
  cases hs : st.findShow booking.«show» with
  | none => simp [checkPaymentStatus, hd, hb, hp, hs] at hdone
  | some showDoc =>
    cases hss : env.showSave with
    | error msg => simp [checkPaymentStatus, hd, hb, hp, hs, hss] at hdone
    | ok u1 =>
      cases hbd : env.bookingDelete with
      | error msg => simp [checkPaymentStatus, hd, hb, hp, hs, hss, hbd] at hdone
      | ok u2 =>
        refine ⟨showDoc, rfl, ?_⟩
        have hstore : (checkPaymentStatus st env event).store.shows =
            (st.saveShowSeats showDoc.id
              (releaseSeats showDoc.occupiedSeats booking.bookedSeats)).shows := by
          simp [checkPaymentStatus, hd, hb, hp, hs, hss, hbd, Store.deleteBooking]
        have hfind : (checkPaymentStatus st env event).store.findShow booking.«show» =
            (st.saveShowSeats showDoc.id
              (releaseSeats showDoc.occupiedSeats booking.bookedSeats)).findShow
              booking.«show» := by
          unfold Store.findShow
          rw [hstore]
        rw [hfind, Store.findShow_saveShowSeats, hs]
        simp

/-- C16: for an existing show, `getOccupiedSeats` answers `success: true` with a list that
holds exactly the keys of the show's `occupiedSeats`, each once; right after a successful
`createBooking` on the show every requested label is in the list, and after a reconciliation
step that completed for an unpaid booking of the show none of the booking's seats is. -/
theorem getOccupiedSeats_lists_keys (st : Store) (showId : String) (showData : Show)
    (hshow : st.findShow showId = some showData)
    (hkeys : showData.occupiedSeats.keys.Nodup) :
    (∃ seats, getOccupiedSeats st showId =
        { status := 200, success := true, occupiedSeats := some seats, message := none } ∧
      seats.Nodup ∧ ∀ seat, seat ∈ seats ↔ seat ∈ showData.occupiedSeats.keys) ∧
    (∀ env req, req.showId = showId → (createBooking st env req).response.success = true →
      ∃ seats, (getOccupiedSeats (createBooking st env req).store showId).occupiedSeats =
          some seats ∧ seats.Nodup ∧ ∀ seat ∈ req.selectedSeats, seat ∈ seats) ∧
    (∀ env event v booking, destructureBookingId event.bookingId = .ok v →
      st.findBookingById v = some booking → booking.«show» = showId → booking.isPaid = false →
      (checkPaymentStatus st env event).result = .completed →
      ∃ seats, (getOccupiedSeats (checkPaymentStatus st env event).store showId).occupiedSeats =
          some seats ∧ ∀ seat ∈ booking.bookedSeats, seat ∉ seats) := by
  refine ⟨⟨showData.occupiedSeats.keys, by simp [getOccupiedSeats, hshow], hkeys,
    fun _ => Iff.rfl⟩, ?_, ?_⟩
  · intro env req hreq hok
    subst hreq
    obtain ⟨sd, bookingId, url, _, hsd, _, _, _, hshows, _, _⟩ :=
      createBooking_success st env req hok
    have hsdeq : sd = showData := Option.some.inj (hsd.symm.trans hshow)
    subst hsdeq
    have hfind : (createBooking st env req).store.findShow req.showId =
        some { sd with
          occupiedSeats := markSeats sd.occupiedSeats req.selectedSeats req.userId } := by
      have hfind' : (createBooking st env req).store.findShow req.showId =
          (st.saveShowSeats sd.id
            (markSeats sd.occupiedSeats req.selectedSeats req.userId)).findShow req.showId := by
        unfold Store.findShow
        rw [hshows]
      rw [hfind', Store.findShow_saveShowSeats, hshow]
      simp
    refine ⟨(markSeats sd.occupiedSeats req.selectedSeats req.userId).keys,
      by simp [getOccupiedSeats, hfind], nodup_keys_markSeats _ _ _ hkeys, ?_⟩
    intro seat hseat
    rw [SeatMap.mem_keys_iff, get_markSeats, if_pos hseat]
    simp
  · intro env event v booking hd hb hbshow hp hdone
    subst hbshow
    obtain ⟨showDoc, _, hfind⟩ :=
      checkPaymentStatus_completed_unpaid st env event v booking hd hb hp hdone
    refine ⟨(releaseSeats showDoc.occupiedSeats booking.bookedSeats).keys,
      by simp [getOccupiedSeats, hfind], ?_⟩
    intro seat hseat hmem
    exact (mem_keys_releaseSeats _ _ _ hmem).2 hseat

/-- Witness for C16: the scenario show after U1's booking lists A1 and A2; after a
reconciliation step that released the booking it lists nothing. -/
theorem getOccupiedSeats_lists_keys_witness :
    (store1.findShow "S" = some { showS with occupiedSeats := [("A1", U1), ("A2", U1)] } ∧
     (["A1", "A2"] : List String).Nodup) ∧
    (∃ seats, getOccupiedSeats store1 "S" =
        { status := 200, success := true, occupiedSeats := some seats, message := none } ∧
      seats.Nodup ∧ ∀ seat, seat ∈ seats ↔ seat ∈ ["A1", "A2"]) ∧
    getOccupiedSeats store1 "S" =
      { status := 200, success := true, occupiedSeats := some ["A1", "A2"], message := none } ∧
    getOccupiedSeats
        (checkPaymentStatus store1 releaseOk { bookingId := .obj [("booking_id", .str "b1")] }).store
        "S" =
      { status := 200, success := true, occupiedSeats := some [], message := none } :=
  ⟨⟨by decide, by decide⟩,
   (getOccupiedSeats_lists_keys store1 "S"
     { showS with occupiedSeats := [("A1", U1), ("A2", U1)] } (by decide) (by decide)).1,
   by decide, by decide⟩

/-! ## The reminder sweep -/

theorem settled_filter_length (delivered : Nat → Bool) (l : List Nat) :
    ((l.map (fun i => if delivered i then Settled.fulfilled else Settled.rejected)).filter
      (fun result => decide (result = Settled.fulfilled))).length =
      (l.filter (fun i => delivered i)).length := by
  induction l with
  | nil => rfl
  | cons i rest ih =>
    cases hd : delivered i <;> simp [List.filter_cons, hd, ih]

theorem filter_length_add (delivered : Nat → Bool) (l : List Nat) :
    (l.filter (fun i => delivered i)).length + (l.filter (fun i => !delivered i)).length =
      l.length := by
  induction l with
  | nil => rfl
  | cons i rest ih =>
    cases hd : delivered i <;> simp [List.filter_cons, hd] <;> omega

/-- The accounting of `sendReminders` on a non-empty task list. -/
theorem sendReminders_counts (tasks : List ReminderTask) (delivered : Nat → Bool)
    (hne : tasks ≠ []) :
    (sendReminders tasks delivered).attempts = tasks.map reminderEmail ∧
    (sendReminders tasks delivered).results =
      (List.range tasks.length).map
        (fun i => if delivered i then Settled.fulfilled else Settled.rejected) ∧
    (sendReminders tasks delivered).returned.sent =
      ((List.range tasks.length).filter (fun i => delivered i)).length ∧
    (sendReminders tasks delivered).returned.failed =
      some ((List.range tasks.length).filter (fun i => !delivered i)).length ∧
    (sendReminders tasks delivered).returned.sent +
      ((List.range tasks.length).filter (fun i => !delivered i)).length = tasks.length := by
  have hlen : ¬ tasks.length = 0 := fun h => hne (List.length_eq_zero.1 h)
  have hadd := filter_length_add delivered (List.range tasks.length)
  rw [List.length_range] at hadd
  have hsent : (sendReminders tasks delivered).returned.sent =
      ((List.range tasks.length).filter (fun i => delivered i)).length := by
    simp only [sendReminders, hlen, if_false, List.length_map]
    exact settled_filter_length delivered _
  refine ⟨by simp [sendReminders, hlen], by simp [sendReminders, hlen], hsent, ?_, ?_⟩
  · have hfailed : (sendReminders tasks delivered).returned.failed =
        some (tasks.length - ((List.range tasks.length).filter (fun i => delivered i)).length) := by
      simp only [sendReminders, hlen, if_false, List.length_map, List.length_range]
      rw [settled_filter_length]
    rw [hfailed]
    congr 1
    omega
  · rw [hsent]
    exact hadd

/-- C20: for a non-empty list of reminder tasks and any pattern of deliveries, `sendEmail` is
called once for every task, in order, whatever the outcome of the other calls; `sent` is the
number of calls that resolved, `failed` the number that rejected, and together they are
the number of tasks. -/
theorem sendReminders_accounting (tasks : List ReminderTask) (delivered : Nat → Bool)
    (hne : tasks ≠ []) :
    (sendReminders tasks delivered).attempts = tasks.map reminderEmail ∧
    (sendReminders tasks delivered).results =
      (List.range tasks.length).map
        (fun i => if delivered i then Settled.fulfilled else Settled.rejected) ∧
    (sendReminders tasks delivered).returned.sent =
      ((List.range tasks.length).filter (fun i => delivered i)).length ∧
    (sendReminders tasks delivered).returned.failed =
      some ((List.range tasks.length).filter (fun i => !delivered i)).length ∧
    (sendReminders tasks delivered).returned.sent +
      ((List.range tasks.length).filter (fun i => !delivered i)).length = tasks.length ∧
    ∀ i (hi : i < tasks.length),
      (sendReminders tasks delivered).attempts[i]? = some (reminderEmail (tasks.get ⟨i, hi⟩)) ∧
      (sendReminders tasks delivered).results[i]? =
        some (if delivered i then Settled.fulfilled else Settled.rejected) := by
  obtain ⟨hatt, hres, hsent, hfailed, hsum⟩ := sendReminders_counts tasks delivered hne
  refine ⟨hatt, hres, hsent, hfailed, hsum, ?_⟩
  intro i hi
  constructor
  · rw [hatt, List.getElem?_map, List.getElem?_eq_getElem hi]
    rfl
  · rw [hres, List.getElem?_map, List.getElem?_range hi]
    rfl

/-- Witness for C20: three tasks, the second send fails. -/
theorem sendReminders_accounting_witness :
    (sendReminders
      [⟨"ann@example.org", "Ann", "Movie"⟩, ⟨"bob@example.org", "Bob", "Movie"⟩,
       ⟨"cy@example.org", "Cy", "Movie"⟩] (fun i => decide (i ≠ 1))).attempts =
      [reminderEmail ⟨"ann@example.org", "Ann", "Movie"⟩,
       reminderEmail ⟨"bob@example.org", "Bob", "Movie"⟩,
       reminderEmail ⟨"cy@example.org", "Cy", "Movie"⟩] ∧
    (sendReminders
      [⟨"ann@example.org", "Ann", "Movie"⟩, ⟨"bob@example.org", "Bob", "Movie"⟩,
       ⟨"cy@example.org", "Cy", "Movie"⟩] (fun i => decide (i ≠ 1))).returned =
      { sent := 2, failed := some 1, message := "2 reminder(s) sent successfully, 1 failed" } :=
  ⟨(sendReminders_accounting
      [⟨"ann@example.org", "Ann", "Movie"⟩, ⟨"bob@example.org", "Bob", "Movie"⟩,
       ⟨"cy@example.org", "Cy", "Movie"⟩] (fun i => decide (i ≠ 1)) (by decide)).1,
   by decide⟩

theorem mem_distinctValues (l : List String) (x : String) :
    x ∈ distinctValues l ↔ x ∈ l := by
  induction l with
  | nil => simp [distinctValues]
  | cons y rest ih =>
    unfold distinctValues
    by_cases h : x = y
    · simp [h]
    · simp [h, List.mem_filter, ih]

theorem foldl_append_flatMap {α β : Type} (f : α → List β) (l : List α) (acc : List β) :
    l.foldl (fun tasks s => tasks ++ f s) acc = acc ++ l.flatMap f := by
  induction l generalizing acc with
  | nil => simp
  | cons a rest ih => simp [List.flatMap_cons, ih, List.append_assoc]

/-- The step pushes, show by show, the tasks of the loop body. -/
theorem prepareReminderTasks_eq (st : Store) (now : Int) :
    prepareReminderTasks st now =
      (st.findShowsBetween (now + 8 * 60 * 60 * 1000 - 10 * 60 * 1000)
        (now + 8 * 60 * 60 * 1000)).flatMap (tasksForShow st) := by
  unfold prepareReminderTasks
  simp only [foldl_append_flatMap, List.nil_append]

/-- The tasks pushed for a show whose movie is found: one per user record that `User.find`
returns. -/
theorem tasksForShow_eq (st : Store) (s : Show) (movie : Movie)
    (hmovie : st.findMovie s.movie = some movie) :
    tasksForShow st s =
      (st.users.filter (fun u => decide (u.id ∈ s.occupiedSeats.values))).map
        (fun user => { userEmail := user.email, userName := user.name,
                       movieTitle := movie.title }) := by
  have hfilter : st.findUsersIn (distinctValues s.occupiedSeats.values) =
      st.users.filter (fun u => decide (u.id ∈ s.occupiedSeats.values)) := by
    unfold Store.findUsersIn
    apply List.filter_congr
    intro u _
    simp [mem_distinctValues]
  unfold tasksForShow
  simp only [hmovie, hfilter]
  split
  · rename_i hzero
    have hnil : distinctValues s.occupiedSeats.values = [] := List.length_eq_zero.1 hzero
    have hvals : s.occupiedSeats.values = [] := by
      cases hv : s.occupiedSeats.values with
      | nil => rfl
      | cons x rest =>
        rw [hv] at hnil
        simp [distinctValues] at hnil
    simp [hvals]
  · rfl

/-- C19: for a show the sweep selected (its start is in the window and its movie is found),
the `prepare-reminder-tasks` step pushes one task for every user record whose id is among
the holders in the show's `occupiedSeats`, and no other: no two tasks of the show are for
the same user id, their number is the number of distinct holder identities that have a User
record, and a show with no occupied seat gets none. -/
theorem tasksForShow_one_per_holder (st : Store) (s : Show) (movie : Movie)
    (hmovie : st.findMovie s.movie = some movie)
    (hids : (st.users.map (fun u => u.id)).Nodup) :
    (∃ users : List User,
      tasksForShow st s = users.map (fun user =>
        { userEmail := user.email, userName := user.name, movieTitle := movie.title }) ∧
      (users.map (fun u => u.id)).Nodup ∧
      ∀ u, u ∈ users ↔ u ∈ st.users ∧ u.id ∈ s.occupiedSeats.values) ∧
    (tasksForShow st s).length =
      (s.occupiedSeats.values.dedup.filter
        (fun holder => st.users.any (fun u => decide (u.id = holder)))).length ∧
    (s.occupiedSeats = [] → tasksForShow st s = []) ∧
    (∀ now, s ∈ st.findShowsBetween (now + 8 * 60 * 60 * 1000 - 10 * 60 * 1000)
        (now + 8 * 60 * 60 * 1000) →
      ∀ task ∈ tasksForShow st s, task ∈ prepareReminderTasks st now) := by
  have heq := tasksForShow_eq st s movie hmovie
  have hsub : (st.users.filter (fun u => decide (u.id ∈ s.occupiedSeats.values))).Sublist
      st.users := List.filter_sublist _
  have hnodup : ((st.users.filter (fun u => decide (u.id ∈ s.occupiedSeats.values))).map
      (fun u => u.id)).Nodup := (hsub.map _).nodup hids
  refine ⟨⟨_, heq, hnodup, ?_⟩, ?_, ?_, ?_⟩
  · intro u
    simp [List.mem_filter]
  · rw [heq, List.length_map, ← List.length_map
      (st.users.filter (fun u => decide (u.id ∈ s.occupiedSeats.values))) (fun u => u.id)]
    apply List.Perm.length_eq
    rw [List.perm_ext_iff_of_nodup hnodup ((List.nodup_dedup _).filter _)]
    intro x
    simp only [List.mem_map, List.mem_filter, List.mem_dedup, List.any_eq_true,
      decide_eq_true_eq]
    constructor
    · rintro ⟨u, ⟨hu, hmem⟩, rfl⟩
      exact ⟨hmem, u, hu, rfl⟩
    · rintro ⟨hmem, u, hu, rfl⟩
      exact ⟨u, ⟨hu, hmem⟩, rfl⟩
  · intro hempty
    rw [heq, hempty]
    simp [SeatMap.values]
  · intro now hs task htask
    rw [prepareReminderTasks_eq, List.mem_flatMap]
    exact ⟨s, hs, htask⟩

/-- Witness for C19: U1 holds both seats of the scenario show and gets one task. -/
theorem tasksForShow_one_per_holder_witness :
    (store1.findMovie "M" = some { id := "M", title := "Movie" } ∧
     (store1.users.map (fun u => u.id)).Nodup) ∧
    (tasksForShow store1 { showS with occupiedSeats := [("A1", U1), ("A2", U1)] }).length =
      ((SeatMap.values [("A1", U1), ("A2", U1)]).dedup.filter
        (fun holder => store1.users.any (fun u => decide (u.id = holder)))).length ∧
    tasksForShow store1 { showS with occupiedSeats := [("A1", U1), ("A2", U1)] } =
      [{ userEmail := "ann@example.org", userName := "Ann", movieTitle := "Movie" }] :=
  ⟨⟨by decide, by decide⟩,
   (tasksForShow_one_per_holder store1 { showS with occupiedSeats := [("A1", U1), ("A2", U1)] }
     { id := "M", title := "Movie" } (by decide) (by decide)).2.1,
   by decide⟩

/-- C18 as stated fails: the sweep runs at time 0 and the only show starts 8h05m later
(29 100 000 ms), with its movie and two seats held by U1 and U2, both in the User store.  The
query selects shows starting from 7h50m up to, but not including, 8h after the run, so the
show is not selected: no reminder is attempted and the sweep returns
`sent: 0, message: 'No reminders to send'`. -/
theorem sendShowReminders_show_after_window :
    ((8 * 60 + 5) * 60 * 1000 = (29100000 : Int) ∧
      (sweepStore 29100000).shows.map (fun s => s.occupiedSeats) = [[("A1", U1), ("B1", U2)]] ∧
      (sweepStore 29100000).findMovie "M" = some { id := "M", title := "Movie" } ∧
      (sweepStore 29100000).users.map (fun u => u.id) = ["U1", "U2"]) ∧
    prepareReminderTasks (sweepStore 29100000) 0 = [] ∧
    ∀ delivered, sendShowReminders (sweepStore 29100000) 0 delivered =
      { attempts := [], results := [],
        returned := { sent := 0, failed := none, message := "No reminders to send" } } := by
  refine ⟨by decide, by decide, ?_⟩
  intro delivered
  have h : prepareReminderTasks (sweepStore 29100000) 0 = [] := by decide
  simp [sendShowReminders, h, sendReminders]

/-- C18 amended: when `sendShowReminders` runs at time t and the only show starting from
t + 7h50m up to, but not including, t + 8h has its movie and two occupied seats held by two
distinct users, both present in the User store, the sweep makes exactly two reminder
dispatch attempts, one to each of the two users, and reports two results whose `sent` and
`failed` counts add up to two. -/
theorem sendShowReminders_two_holders (st : Store) (now : Int) (s : Show) (movie : Movie)
    (seat1 seat2 : String) (holder1 holder2 : UserId) (user1 user2 : User)
    (delivered : Nat → Bool)
    (hwindow : st.findShowsBetween (now + 8 * 60 * 60 * 1000 - 10 * 60 * 1000)
      (now + 8 * 60 * 60 * 1000) = [s])
    (hmovie : st.findMovie s.movie = some movie)
    (hocc : s.occupiedSeats = [(seat1, holder1), (seat2, holder2)])
    (hdistinct : holder1 ≠ holder2)
    (hids : (st.users.map (fun u => u.id)).Nodup)
    (huser1 : user1 ∈ st.users) (hid1 : user1.id = holder1.val)
    (huser2 : user2 ∈ st.users) (hid2 : user2.id = holder2.val) :
    (sendShowReminders st now delivered).attempts.Perm
      [reminderEmail { userEmail := user1.email, userName := user1.name,
                       movieTitle := movie.title },
       reminderEmail { userEmail := user2.email, userName := user2.name,
                       movieTitle := movie.title }] ∧
    (sendShowReminders st now delivered).attempts.length = 2 ∧
    (sendShowReminders st now delivered).results.length = 2 ∧
    ∃ failed, (sendShowReminders st now delivered).returned.failed = some failed ∧
      (sendShowReminders st now delivered).returned.sent + failed = 2 := by
  have hval : holder1.val ≠ holder2.val := fun h => hdistinct (Subtype.ext h)
  have hne : user1 ≠ user2 := by
    intro h
    rw [h, hid2] at hid1
    exact hval hid1.symm
  have hperm : (st.users.filter (fun u => decide (u.id ∈ s.occupiedSeats.values))).Perm
      [user1, user2] := by
    rw [List.perm_ext_iff_of_nodup ((List.Nodup.of_map _ hids).filter _)
      (by simp [hne])]
    intro u
    simp only [hocc, SeatMap.values, List.map_cons, List.map_nil, List.mem_filter,
      List.mem_cons, List.mem_singleton, decide_eq_true_eq, List.not_mem_nil, or_false]
    constructor
    · rintro ⟨hu, h | h⟩
      · exact Or.inl (List.inj_on_of_nodup_map hids hu huser1 (h.trans hid1.symm))
      · exact Or.inr (List.inj_on_of_nodup_map hids hu huser2 (h.trans hid2.symm))
    · rintro (h | h)
      · subst h; exact ⟨huser1, Or.inl hid1⟩
      · subst h; exact ⟨huser2, Or.inr hid2⟩
  have htasks : (prepareReminderTasks st now).Perm
      [{ userEmail := user1.email, userName := user1.name, movieTitle := movie.title },
       { userEmail := user2.email, userName := user2.name, movieTitle := movie.title }] := by
    rw [prepareReminderTasks_eq, hwindow]
    simp only [List.flatMap_cons, List.flatMap_nil, List.append_nil]
    rw [tasksForShow_eq st s movie hmovie]
    exact hperm.map _
  have hlen : (prepareReminderTasks st now).length = 2 := htasks.length_eq
  have hnonempty : prepareReminderTasks st now ≠ [] := by
    intro h
    rw [h] at hlen
    cases hlen
  obtain ⟨hatt, hres, _, hfailed, hsum⟩ :=
    sendReminders_counts (prepareReminderTasks st now) delivered hnonempty
  unfold sendShowReminders
  refine ⟨?_, ?_, ?_, _, hfailed, ?_⟩
  · rw [hatt]
    exact htasks.map _
  · rw [hatt, List.length_map, hlen]
  · rw [hres, List.length_map, List.length_range, hlen]
  · rw [hsum, hlen]

/-- Witness for C18 amended: the sweep runs at time 0, the show starts 7h55m later; the
first send is delivered, the second is not. -/
theorem sendShowReminders_two_holders_witness :
    (sweepStore 28500000).findShowsBetween (0 + 8 * 60 * 60 * 1000 - 10 * 60 * 1000)
        (0 + 8 * 60 * 60 * 1000) =
      [{ showS with showDateTime := 28500000, occupiedSeats := [("A1", U1), ("B1", U2)] }] ∧
    (sendShowReminders (sweepStore 28500000) 0 (fun i => decide (i = 0))).attempts.length = 2 ∧
    sendShowReminders (sweepStore 28500000) 0 (fun i => decide (i = 0)) =
      { attempts :=
          [{ recipient := "ann@example.org",
             subject := "Reminder: Your movie Movie is starting soon!" },
           { recipient := "bob@example.org",
             subject := "Reminder: Your movie Movie is starting soon!" }],
        results := [.fulfilled, .rejected],
        returned := { sent := 1, failed := some 1,
                      message := "1 reminder(s) sent successfully, 1 failed" } } :=
  ⟨by decide,
   (sendShowReminders_two_holders (sweepStore 28500000) 0
     { showS with showDateTime := 28500000, occupiedSeats := [("A1", U1), ("B1", U2)] }
     { id := "M", title := "Movie" } "A1" "B1" U1 U2
     { id := "U1", name := "Ann", email := "ann@example.org" }
     { id := "U2", name := "Bob", email := "bob@example.org" }
     (fun i => decide (i = 0))
     (by decide) (by decide) rfl (by decide) (by decide) (by decide) rfl (by decide) rfl).2.1,
   by decide⟩

/-! ## New-show notifications -/

/-- Once a send is rejected the loop is left: no call is made for a later user. -/
theorem notifyLoop_stops (movieTitle : String) (delivered : Nat → Bool) (users : List User)
    (start k : Nat) (hk : k < users.length) (hfail : delivered (start + k) = false) :
    (notifyLoop movieTitle delivered users start).1.length ≤ k + 1 ∧
    (notifyLoop movieTitle delivered users start).2 = false := by
  induction users generalizing start k with
  | nil => simp at hk
  | cons user rest ih =>
    unfold notifyLoop
    cases hd : delivered start with
    | false => simp
    | true =>
      cases k with
      | zero =>
        rw [Nat.add_zero, hd] at hfail
        cases hfail
      | succ k =>
        have hk' : k < rest.length := by
          simp only [List.length_cons] at hk
          omega
        have hfail' : delivered (start + 1 + k) = false := by
          rw [← hfail]
          congr 1
          omega
        obtain ⟨h1, h2⟩ := ih (start + 1) k hk' hfail'
        simp only [if_true, List.length_cons]
        exact ⟨by omega, h2⟩

/-- C21 (the code fails the claim): the User store holds Ann and then Bob, and the send to
Ann is rejected.  The `await sendEmail(...)` in the loop is not caught, so the function
throws after that first call: one attempt was made, none to Bob, and nothing is
returned.  In general, when the send to the user at position k is rejected, no more than
k + 1 sends are attempted, however many users follow. -/
theorem sendNewShowNotifications_stops_at_failure :
    store0.users.map (fun u => u.email) = ["ann@example.org", "bob@example.org"] ∧
    sendNewShowNotifications store0 "Movie" (fun i => decide (i ≠ 0)) =
      { attempts := [{ recipient := "ann@example.org",
                       subject := "New Show Alert: Movie is now playing!" }],
        returned := none } ∧
    (∀ e ∈ (sendNewShowNotifications store0 "Movie" (fun i => decide (i ≠ 0))).attempts,
      e.recipient ≠ "bob@example.org") ∧
    (∀ (st : Store) (movieTitle : String) (delivered : Nat → Bool) (k : Nat),
      k < st.users.length → delivered k = false →
      (sendNewShowNotifications st movieTitle delivered).attempts.length ≤ k + 1 ∧
      (sendNewShowNotifications st movieTitle delivered).returned = none) := by
  refine ⟨by decide, by decide, by decide, ?_⟩
  intro st movieTitle delivered k hk hfail
  obtain ⟨h1, h2⟩ := notifyLoop_stops movieTitle delivered st.users 0 k hk
    (by rw [Nat.zero_add]; exact hfail)
  unfold sendNewShowNotifications
  exact ⟨h1, by simp [h2]⟩

/-! ## The verification code -/

theorem length_sliceLast8 (s : String) : (sliceLast8 s).length = min 8 s.length := by
  show (s.data.drop (s.data.length - 8)).length = min 8 s.data.length
  rw [List.length_drop]
  omega

theorem length_toUpperCase (s : String) : (toUpperCase s).length = s.length := by
  show (s.data.map Char.toUpper).length = s.data.length
  exact List.length_map _ _

/-- C22: the verification code is 'SZ-' followed by the last eight characters of the booking
id in upper case; it is the same for any two bookings with the same id, whatever their
show, seats, user and amount, and it has 3 + 8 = 11 characters when the id has at least 8
(24 for an ObjectId). -/
theorem verificationCode_of_id (b : PopulatedBooking) :
    (confirmationQrData b).verificationCode = "SZ-" ++ toUpperCase (sliceLast8 b.booking.id) ∧
    (∃ front, b.booking.id.data = front ++ (sliceLast8 b.booking.id).data ∧
      (sliceLast8 b.booking.id).length = min 8 b.booking.id.length) ∧
    (toUpperCase (sliceLast8 b.booking.id)).data =
      (sliceLast8 b.booking.id).data.map Char.toUpper ∧
    (∀ other : PopulatedBooking, other.booking.id = b.booking.id →
      (confirmationQrData other).verificationCode = (confirmationQrData b).verificationCode) ∧
    (confirmationQrData b).verificationCode.length = 3 + min 8 b.booking.id.length ∧
    (b.booking.id.length = 24 → (confirmationQrData b).verificationCode.length = 11) := by
  have hlen : (confirmationQrData b).verificationCode.length = 3 + min 8 b.booking.id.length := by
    show ("SZ-" ++ toUpperCase (sliceLast8 b.booking.id)).length = _
    rw [String.length_append, length_toUpperCase, length_sliceLast8]
    rfl
  refine ⟨rfl, ⟨b.booking.id.data.take (b.booking.id.data.length - 8), ?_,
    length_sliceLast8 _⟩, rfl, ?_, hlen, ?_⟩
  · simp [sliceLast8]
  · intro other hid
    show "SZ-" ++ toUpperCase (sliceLast8 other.booking.id) = _
    rw [hid]
    rfl
  · intro h24
    rw [hlen, h24]
    rfl

/-- Witness for C22: the scenario booking under the id 65a1b2c3d4e5f60718293a4b. -/
theorem verificationCode_of_id_witness :
    populatedB1.booking.id.length = 24 ∧
    (confirmationQrData populatedB1).verificationCode = "SZ-18293A4B" ∧
    (confirmationQrData populatedB1).verificationCode.length = 11 :=
  ⟨by decide, by decide, (verificationCode_of_id populatedB1).2.2.2.2.2 (by decide)⟩

/-! ## `handleTMDBError` -/

/-- C23: `handleTMDBError` always answers `success: false`; its message is decided by the
error's code, its response status and the operation name, in this order of precedence:
code ECONNRESET or ETIMEDOUT, then status 401, then status 429, then the generic
'Failed to <operation>. Please try again.'; the raw text of the upstream error plays no part
in the result. -/
theorem handleTMDBError_typed (error : UpstreamFailure) (operation : String) :
    (handleTMDBError error operation).success = false ∧
    ((error.code = some "ECONNRESET" ∨ error.code = some "ETIMEDOUT") →
      (handleTMDBError error operation).message =
        "Movie database temporarily unavailable. Please try again later.") ∧
    (¬ (error.code = some "ECONNRESET" ∨ error.code = some "ETIMEDOUT") →
      error.status = some 401 →
      (handleTMDBError error operation).message =
        "Invalid API configuration. Please contact support.") ∧
    (¬ (error.code = some "ECONNRESET" ∨ error.code = some "ETIMEDOUT") →
      error.status = some 429 →
      (handleTMDBError error operation).message =
        "Too many requests. Please wait a moment and try again.") ∧
    (¬ (error.code = some "ECONNRESET" ∨ error.code = some "ETIMEDOUT") →
      error.status ≠ some 401 → error.status ≠ some 429 →
      (handleTMDBError error operation).message =
        "Failed to " ++ operation ++ ". Please try again.") ∧
    (∀ raw, handleTMDBError { error with message := raw } operation =
      handleTMDBError error operation) := by
  refine ⟨?_, ?_, ?_, ?_, ?_, ?_⟩
  · unfold handleTMDBError
    split_ifs <;> rfl
  · intro h
    simp [handleTMDBError, h]
  · intro h h401
    simp [handleTMDBError, h, h401]
  · intro h h429
    simp [handleTMDBError, h, h429]
  · intro h h401 h429
    simp [handleTMDBError, h, h401, h429]
  · intro raw
    rfl

/-- Witness for C23: a timeout that also carries status 429, a rate-limited response and an
unknown movie. -/
theorem handleTMDBError_typed_witness :
    (handleTMDBError { code := some "ETIMEDOUT", status := some 429, message := "timeout" }
      "search movies").message =
      "Movie database temporarily unavailable. Please try again later." ∧
    (handleTMDBError rateLimited "search movies").message =
      "Too many requests. Please wait a moment and try again." ∧
    handleTMDBError { code := none, status := some 404, message := "Request failed" }
      "fetch movie details" =
      { success := false, message := "Failed to fetch movie details. Please try again." } :=
  ⟨(handleTMDBError_typed { code := some "ETIMEDOUT", status := some 429, message := "timeout" }
      "search movies").2.1 (Or.inr rfl),
   (handleTMDBError_typed rateLimited "search movies").2.2.2.1 (by decide) rfl,
   by decide⟩

/-! ## The retry interceptors -/

/-- What a retry of the interceptor of `tmdbController.js` looks like. -/
theorem tmdbInterceptor_retry (config c : RequestConfig) (f : UpstreamFailure)
    (random : UnitRandom) (d : ℚ)
    (h : tmdbInterceptor { config := some config, failure := f } random = .retry c d) :
    c = { config with retryCount := some (config.retryCount.getD 0 + 1) } ∧
    d = (config.retryDelay : ℚ) * 2 ^ (config.retryCount.getD 0) + random.val * 1000 ∧
    config.retryCount.getD 0 < config.retry ∧ tmdbRetryable f = true := by
  unfold tmdbInterceptor at h
  simp only at h
  split_ifs at h with h0 hr hc
  simp only [Decision.retry.injEq, Nat.add_sub_cancel] at h
  exact ⟨h.1.symm, h.2.symm, hc, hr⟩

/-- What a retry of the interceptor of `showController.js` looks like. -/
theorem showInterceptor_retry (config c : RequestConfig) (f : UpstreamFailure) (d : ℚ)
    (h : showInterceptor { config := some config, failure := f } = .retry c d) :
    c = { config with retryCount := some (config.retryCount.getD 0 + 1) } ∧
    d = (config.retryDelay : ℚ) * ((config.retryCount.getD 0 + 1 : ℕ) : ℚ) ∧
    config.retryCount.getD 0 < config.retry ∧ showRetryable f = true := by
  unfold showInterceptor at h
  simp only at h
  split_ifs at h with h0 hr hc
  simp only [Decision.retry.injEq] at h
  exact ⟨h.1.symm, h.2.symm, hc, hr⟩

/-- A client whose interceptor counts its retries re-issues a request at most
`retry - __retryCount` times. -/
theorem runRequest_bounded (intercept : AxiosError → UnitRandom → Decision)
    (hstep : ∀ config f r c d, intercept { config := some config, failure := f } r = .retry c d →
      c.retry = config.retry ∧ c.retryCount = some (config.retryCount.getD 0 + 1) ∧
      config.retryCount.getD 0 < config.retry)
    (upstream : List Upstream) (config : RequestConfig) :
    (runRequest intercept config upstream).delays.length ≤
      config.retry - config.retryCount.getD 0 ∧
    (runRequest intercept config upstream).attempts ≤
      (runRequest intercept config upstream).delays.length + 1 := by
  induction upstream generalizing config with
  | nil => simp [runRequest]
  | cons u rest ih =>
    cases u with
    | responded => simp [runRequest]
    | failed f r =>
      unfold runRequest
      cases hdec : intercept { config := some config, failure := f } r with
      | reject => simp
      | retry c d =>
        obtain ⟨hretry, hcount, hlt⟩ := hstep config f r c d hdec
        obtain ⟨ih1, ih2⟩ := ih c
        rw [hretry, hcount] at ih1
        simp only [Option.getD_some] at ih1
        simp only [List.length_cons]
        constructor <;> omega

theorem tmdbRequest_bounded (upstream : List Upstream) (config : RequestConfig) :
    (tmdbRequest config upstream).delays.length ≤ config.retry - config.retryCount.getD 0 ∧
    (tmdbRequest config upstream).attempts ≤ (tmdbRequest config upstream).delays.length + 1 := by
  apply runRequest_bounded
  intro config f r c d h
  obtain ⟨hc, _, hlt, _⟩ := tmdbInterceptor_retry config c f r d h
  subst hc
  exact ⟨rfl, rfl, hlt⟩

theorem showRequest_bounded (upstream : List Upstream) (config : RequestConfig) :
    (showRequest config upstream).delays.length ≤ config.retry - config.retryCount.getD 0 ∧
    (showRequest config upstream).attempts ≤ (showRequest config upstream).delays.length + 1 := by
  apply runRequest_bounded
  intro config f r c d h
  obtain ⟨hc, _, hlt, _⟩ := showInterceptor_retry config c f d h
  subst hc
  exact ⟨rfl, rfl, hlt⟩

/-- Against an upstream that keeps failing in a retryable way, a client that retries while
the counter is below `retry` gives up after `retry - __retryCount` re-issues and rejects the
last error. -/
theorem runRequest_exhausted (intercept : AxiosError → UnitRandom → Decision)
    (retryable : UpstreamFailure → Bool)
    (hretry : ∀ config f r, retryable f = true → config.retry ≠ 0 →
      config.retryCount.getD 0 < config.retry →
      ∃ d, intercept { config := some config, failure := f } r =
        .retry { config with retryCount := some (config.retryCount.getD 0 + 1) } d)
    (hreject : ∀ config f r, ¬ config.retryCount.getD 0 < config.retry →
      intercept { config := some config, failure := f } r = .reject)
    (upstream : List Upstream) (config : RequestConfig) (hpos : config.retry ≠ 0)
    (hall : ∀ u ∈ upstream, ∃ f r, u = .failed f r ∧ retryable f = true)
    (hlen : config.retry - config.retryCount.getD 0 + 1 ≤ upstream.length) :
    (runRequest intercept config upstream).attempts =
      config.retry - config.retryCount.getD 0 + 1 ∧
    (runRequest intercept config upstream).delays.length =
      config.retry - config.retryCount.getD 0 ∧
    ∃ f, (runRequest intercept config upstream).result = .rejected f := by
  induction upstream generalizing config with
  | nil => simp at hlen
  | cons u rest ih =>
    obtain ⟨f, r, hu, hf⟩ := hall u (List.mem_cons_self _ _)
    subst hu
    unfold runRequest
    by_cases hlt : config.retryCount.getD 0 < config.retry
    · obtain ⟨d, hd⟩ := hretry config f r hf hpos hlt
      rw [hd]
      have hall' : ∀ u ∈ rest, ∃ f r, u = .failed f r ∧ retryable f = true :=
        fun u hu => hall u (List.mem_cons_of_mem _ hu)
      have hlen' : config.retry - (config.retryCount.getD 0 + 1) + 1 ≤ rest.length := by
        simp only [List.length_cons] at hlen
        omega
      obtain ⟨h1, h2, f', h3⟩ :=
        ih { config with retryCount := some (config.retryCount.getD 0 + 1) } hpos hall'
          (by simpa using hlen')
      simp only [Option.getD_some] at h1 h2
      refine ⟨?_, ?_, f', h3⟩
      · simp only [h1]; omega
      · simp only [List.length_cons, h2]; omega
    · rw [hreject config f r hlt]
      refine ⟨?_, ?_, f, rfl⟩
      · simp only; omega
      · simp only [List.length_nil]; omega

theorem tmdbInterceptor_retries (config : RequestConfig) (f : UpstreamFailure)
    (r : UnitRandom) (hf : tmdbRetryable f = true) (hpos : config.retry ≠ 0)
    (hlt : config.retryCount.getD 0 < config.retry) :
    tmdbInterceptor { config := some config, failure := f } r =
      .retry { config with retryCount := some (config.retryCount.getD 0 + 1) }
        ((config.retryDelay : ℚ) * 2 ^ (config.retryCount.getD 0) + r.val * 1000) := by
  simp [tmdbInterceptor, hf, hpos, hlt]

theorem tmdbInterceptor_gives_up (config : RequestConfig) (f : UpstreamFailure)
    (r : UnitRandom) (hlt : ¬ config.retryCount.getD 0 < config.retry) :
    tmdbInterceptor { config := some config, failure := f } r = .reject := by
  unfold tmdbInterceptor
  simp only
  split_ifs <;> rfl

theorem showInterceptor_retries (config : RequestConfig) (f : UpstreamFailure)
    (hf : showRetryable f = true) (hpos : config.retry ≠ 0)
    (hlt : config.retryCount.getD 0 < config.retry) :
    showInterceptor { config := some config, failure := f } =
      .retry { config with retryCount := some (config.retryCount.getD 0 + 1) }
        ((config.retryDelay : ℚ) * ((config.retryCount.getD 0 + 1 : ℕ) : ℚ)) := by
  simp [showInterceptor, hf, hpos, hlt]

theorem showInterceptor_gives_up (config : RequestConfig) (f : UpstreamFailure)
    (hlt : ¬ config.retryCount.getD 0 < config.retry) :
    showInterceptor { config := some config, failure := f } = .reject := by
  unfold showInterceptor
  simp only
  split_ifs <;> rfl

/-- An error neither interceptor lists is rejected at once. -/
theorem tmdbInterceptor_not_retryable (config : RequestConfig) (f : UpstreamFailure)
    (r : UnitRandom) (hf : tmdbRetryable f = false) :
    tmdbInterceptor { config := some config, failure := f } r = .reject := by
  simp [tmdbInterceptor, hf]

theorem showInterceptor_not_retryable (config : RequestConfig) (f : UpstreamFailure)
    (hf : showRetryable f = false) :
    showInterceptor { config := some config, failure := f } = .reject := by
  simp [showInterceptor, hf]

/-- The delay before each re-issue by the client of `tmdbController.js`. -/
theorem tmdbRequest_delay (upstream : List Upstream) (config : RequestConfig) (i : Nat) (d : ℚ)
    (h : (tmdbRequest config upstream).delays[i]? = some d) :
    ∃ j : ℚ, 0 ≤ j ∧ j < 1000 ∧
      d = (config.retryDelay : ℚ) * 2 ^ (config.retryCount.getD 0 + i) + j := by
  unfold tmdbRequest at h
  induction upstream generalizing config i with
  | nil => simp [runRequest] at h
  | cons u rest ih =>
    cases u with
    | responded => simp [runRequest] at h
    | failed f r =>
      unfold runRequest at h
      cases hdec : tmdbInterceptor { config := some config, failure := f } r with
      | reject => simp [hdec] at h
      | retry c dd =>
        obtain ⟨hc, hd, _, _⟩ := tmdbInterceptor_retry config c f r dd hdec
        rw [hdec] at h
        simp only at h
        cases i with
        | zero =>
          simp only [List.getElem?_cons_zero, Option.some.injEq] at h
          refine ⟨r.val * 1000, by have := r.property.1; positivity, ?_, ?_⟩
          · have := r.property.2
            linarith
          · rw [← h, hd]
            simp
        | succ i =>
          simp only [List.getElem?_cons_succ] at h
          obtain ⟨j, hj0, hj1, hj⟩ := ih c i h
          refine ⟨j, hj0, hj1, ?_⟩
          have hexp : config.retryCount.getD 0 + 1 + i = config.retryCount.getD 0 + (i + 1) := by
            omega
          rw [hj, hc]
          simp only [Option.getD_some, hexp]

/-- The delay before each re-issue by the client of `showController.js`. -/
theorem showRequest_delay (upstream : List Upstream) (config : RequestConfig) (i : Nat) (d : ℚ)
    (h : (showRequest config upstream).delays[i]? = some d) :
    d = (config.retryDelay : ℚ) * ((config.retryCount.getD 0 + i + 1 : ℕ) : ℚ) := by
  unfold showRequest at h
  induction upstream generalizing config i with
  | nil => simp [runRequest] at h
  | cons u rest ih =>
    cases u with
    | responded => simp [runRequest] at h
    | failed f r =>
      unfold runRequest at h
      cases hdec : showInterceptor { config := some config, failure := f } with
      | reject => simp [hdec] at h
      | retry c dd =>
        obtain ⟨hc, hd, _, _⟩ := showInterceptor_retry config c f dd hdec
        simp only [hdec] at h
        cases i with
        | zero =>
          simp only [List.getElem?_cons_zero, Option.some.injEq] at h
          rw [← h, hd]
        | succ i =>
          simp only [List.getElem?_cons_succ] at h
          have hexp : config.retryCount.getD 0 + 1 + i + 1 =
              config.retryCount.getD 0 + (i + 1) + 1 := by omega
          rw [ih c i h, hc]
          simp only [Option.getD_some, hexp]

/-- C24 (the code fails the claim): a rate-limited response (status 429) reaches the
interceptor of `showController.js` on a fresh request (retry 3, no retry made yet).  Its retry
condition lists three error codes and status 500 and above, not 429: the error is rejected
at once, after one attempt and without any delay.  The interceptor of `tmdbController.js`
re-issues the same request. -/
theorem showInterceptor_rate_limited_rejected :
    rateLimited.status = some 429 ∧ showConfig.retryCount.getD 0 < showConfig.retry ∧
    showInterceptor { config := some showConfig, failure := rateLimited } = .reject ∧
    showRequest showConfig [.failed rateLimited halfRandom, .responded] =
      { attempts := 1, delays := [], result := .rejected rateLimited } ∧
    (∃ d, tmdbInterceptor { config := some tmdbConfig, failure := rateLimited } halfRandom =
      .retry { tmdbConfig with retryCount := some 1 } d) := by
  refine ⟨rfl, by decide, by decide, by decide, ?_⟩
  exact ⟨_, tmdbInterceptor_retries tmdbConfig rateLimited halfRandom (by decide) (by decide)
    (by decide)⟩

/-- C28: retry is bounded in both catalog clients.  Whatever the upstream does, the client of
`tmdbController.js` re-issues a request at most 5 times (at most 6 attempts) and the client of
`showController.js` at most 3 times (at most 4 attempts); against an upstream that keeps
failing in a retryable way the request is attempted exactly that often and the error is
then rejected to the caller; an error that does not meet the retry condition of a client is
rejected by it after the first attempt, without a retry, and this is the case in both
clients for every error with status 401 or 404 whose `code` is none of the network codes
the conditions list (the `ERR_BAD_REQUEST` that axios sets on such a response, or none). -/
theorem retry_bounded (upstream : List Upstream) :
    ((tmdbRequest tmdbConfig upstream).delays.length ≤ 5 ∧
      (tmdbRequest tmdbConfig upstream).attempts ≤ 6) ∧
    ((showRequest showConfig upstream).delays.length ≤ 3 ∧
      (showRequest showConfig upstream).attempts ≤ 4) ∧
    ((∀ u ∈ upstream, ∃ f r, u = .failed f r ∧ tmdbRetryable f = true) →
      6 ≤ upstream.length →
      (tmdbRequest tmdbConfig upstream).attempts = 6 ∧
      (tmdbRequest tmdbConfig upstream).delays.length = 5 ∧
      ∃ f, (tmdbRequest tmdbConfig upstream).result = .rejected f) ∧
    ((∀ u ∈ upstream, ∃ f r, u = .failed f r ∧ showRetryable f = true) →
      4 ≤ upstream.length →
      (showRequest showConfig upstream).attempts = 4 ∧
      (showRequest showConfig upstream).delays.length = 3 ∧
      ∃ f, (showRequest showConfig upstream).result = .rejected f) ∧
    (∀ f r, tmdbRetryable f = false →
      tmdbRequest tmdbConfig (.failed f r :: upstream) =
        { attempts := 1, delays := [], result := .rejected f }) ∧
    (∀ f r, showRetryable f = false →
      showRequest showConfig (.failed f r :: upstream) =
        { attempts := 1, delays := [], result := .rejected f }) ∧
    (∀ f r, (f.status = some 401 ∨ f.status = some 404) →
      f.code ∉ [some "ECONNRESET", some "ETIMEDOUT", some "ENOTFOUND", some "ECONNREFUSED",
        some "EPIPE"] →
      tmdbRequest tmdbConfig (.failed f r :: upstream) =
        { attempts := 1, delays := [], result := .rejected f } ∧
      showRequest showConfig (.failed f r :: upstream) =
        { attempts := 1, delays := [], result := .rejected f }) := by
  have htmdb : ∀ f r, tmdbRetryable f = false →
      tmdbRequest tmdbConfig (.failed f r :: upstream) =
        { attempts := 1, delays := [], result := .rejected f } := by
    intro f r ht
    unfold tmdbRequest runRequest
    rw [tmdbInterceptor_not_retryable tmdbConfig f r ht]
  have hshow : ∀ f (r : UnitRandom), showRetryable f = false →
      showRequest showConfig (.failed f r :: upstream) =
        { attempts := 1, delays := [], result := .rejected f } := by
    intro f r hs
    unfold showRequest runRequest
    simp only [showInterceptor_not_retryable showConfig f hs]
  refine ⟨?_, ?_, ?_, ?_, htmdb, hshow, ?_⟩
  · obtain ⟨h1, h2⟩ := tmdbRequest_bounded upstream tmdbConfig
    have h1' : (tmdbRequest tmdbConfig upstream).delays.length ≤ 5 := h1
    exact ⟨h1', by omega⟩
  · obtain ⟨h1, h2⟩ := showRequest_bounded upstream showConfig
    have h1' : (showRequest showConfig upstream).delays.length ≤ 3 := h1
    exact ⟨h1', by omega⟩
  · intro hall hlen
    exact runRequest_exhausted tmdbInterceptor tmdbRetryable
      (fun config f r hf hpos hlt => ⟨_, tmdbInterceptor_retries config f r hf hpos hlt⟩)
      (fun config f r hlt => tmdbInterceptor_gives_up config f r hlt)
      upstream tmdbConfig (by decide) hall hlen
  · intro hall hlen
    exact runRequest_exhausted (fun error _ => showInterceptor error) showRetryable
      (fun config f _ hf hpos hlt => ⟨_, showInterceptor_retries config f hf hpos hlt⟩)
      (fun config f _ hlt => showInterceptor_gives_up config f hlt)
      upstream showConfig (by decide) hall hlen
  · intro f r hstatus hcode
    simp only [List.mem_cons, List.mem_singleton, List.not_mem_nil, or_false, not_or] at hcode
    obtain ⟨h1, h2, h3, h4, h5⟩ := hcode
    have ht : tmdbRetryable f = false := by
      rcases hstatus with h | h <;> simp [tmdbRetryable, h1, h2, h3, h4, h5, h]
    have hs : showRetryable f = false := by
      rcases hstatus with h | h <;> simp [showRetryable, h1, h2, h3, h]
    exact ⟨htmdb f r ht, hshow f r hs⟩

/-- Witness for C28: seven server errors in a row against the client of `tmdbController.js`,
and the error axios raises for an unknown movie (status 404, code `ERR_BAD_REQUEST`), which
both clients reject after one attempt although a response would follow. -/
theorem retry_bounded_witness :
    ((tmdbRequest tmdbConfig (List.replicate 7 (.failed serverDown halfRandom))).attempts = 6 ∧
      (tmdbRequest tmdbConfig (List.replicate 7 (.failed serverDown halfRandom))).delays.length
        = 5 ∧
      ∃ f, (tmdbRequest tmdbConfig (List.replicate 7 (.failed serverDown halfRandom))).result =
        .rejected f) ∧
    (tmdbRequest tmdbConfig [.failed notFound halfRandom, .responded] =
      { attempts := 1, delays := [], result := .rejected notFound } ∧
     showRequest showConfig [.failed notFound halfRandom, .responded] =
      { attempts := 1, delays := [], result := .rejected notFound }) :=
  ⟨(retry_bounded (List.replicate 7 (.failed serverDown halfRandom))).2.2.1
      (by
        intro u hu
        rw [List.eq_of_mem_replicate hu]
        exact ⟨serverDown, halfRandom, rfl, by decide⟩)
      (by simp),
   (retry_bounded [.responded]).2.2.2.2.2.2 notFound halfRandom (Or.inr rfl) (by decide)⟩

/-- C29 as stated fails: against three server errors the client of `showController.js` waits
1000, 2000 and 3000 ms; the delay before the third retry is 3000 ms, which is not
1000 x 2^2 plus a jitter between 0 and 1000. -/
theorem showRequest_delay_not_exponential :
    (showRequest showConfig (List.replicate 3 (.failed serverDown halfRandom))).delays =
      [1000, 2000, 3000] ∧
    ¬ ∃ j : ℚ, 0 ≤ j ∧ j < 1000 ∧ (3000 : ℚ) = (showConfig.retryDelay : ℚ) * 2 ^ (3 - 1) + j := by
  constructor
  · have h : (showRequest showConfig (List.replicate 3 (.failed serverDown halfRandom))).delays =
        [((1000 : ℕ) : ℚ) * ((0 + 1 : ℕ) : ℚ), ((1000 : ℕ) : ℚ) * ((1 + 1 : ℕ) : ℚ),
         ((1000 : ℕ) : ℚ) * ((2 + 1 : ℕ) : ℚ)] := by rfl
    rw [h]
    norm_num
  · rintro ⟨j, hj0, _, hj⟩
    have h : ((showConfig.retryDelay : ℕ) : ℚ) = 1000 := by
      simp [showConfig]
    rw [h] at hj
    norm_num at hj
    linarith

/-- C29 amended: for a fresh request with the client's `retryDelay`, the delay waited before
the n-th retry (n >= 1) is `retryDelay * 2^(n-1) + j` milliseconds for some jitter j with
0 <= j < 1000 in the client of `tmdbController.js`, and `retryDelay * n` milliseconds, without
jitter, in the client of `showController.js`. -/
theorem retry_delay_formula (upstream : List Upstream) (config : RequestConfig) (n : Nat)
    (d : ℚ) (hfresh : config.retryCount = none) (hn : 1 ≤ n) :
    ((tmdbRequest config upstream).delays[n - 1]? = some d →
      ∃ j : ℚ, 0 ≤ j ∧ j < 1000 ∧ d = (config.retryDelay : ℚ) * 2 ^ (n - 1) + j) ∧
    ((showRequest config upstream).delays[n - 1]? = some d →
      d = (config.retryDelay : ℚ) * (n : ℚ)) := by
  constructor
  · intro h
    obtain ⟨j, hj0, hj1, hj⟩ := tmdbRequest_delay upstream config (n - 1) d h
    refine ⟨j, hj0, hj1, ?_⟩
    rw [hj, hfresh]
    simp
  · intro h
    rw [showRequest_delay upstream config (n - 1) d h, hfresh]
    have : (none : Option Nat).getD 0 + (n - 1) + 1 = n := by
      simp only [Option.getD_none]
      omega
    rw [this]

/-- Witness for C29 amended: the second retry of each client after two server errors. -/
theorem retry_delay_formula_witness :
    (tmdbConfig.retryCount = none ∧
      (tmdbRequest tmdbConfig (List.replicate 2 (.failed serverDown halfRandom))).delays[2 - 1]?
        = some 3500) ∧
    (∃ j : ℚ, 0 ≤ j ∧ j < 1000 ∧ (3500 : ℚ) = (tmdbConfig.retryDelay : ℚ) * 2 ^ (2 - 1) + j) := by
  have h : (tmdbRequest tmdbConfig (List.replicate 2 (.failed serverDown halfRandom))).delays[2 - 1]?
      = some 3500 := by
    have h' : (tmdbRequest tmdbConfig
        (List.replicate 2 (.failed serverDown halfRandom))).delays[2 - 1]? =
        some (((1500 : ℕ) : ℚ) * 2 ^ (0 + 1 + 1 - 1) + halfRandom.val * 1000) := by rfl
    rw [h']
    simp only [halfRandom]
    norm_num
  exact ⟨⟨rfl, h⟩,
    (retry_delay_formula (List.replicate 2 (.failed serverDown halfRandom)) tmdbConfig 2 3500
      rfl (by decide)).1 h⟩

theorem one_le_two_pow_rat (k : Nat) : (1 : ℚ) ≤ 2 ^ k := by
  induction k with
  | zero => norm_num
  | succ k ih =>
    rw [pow_succ]
    linarith

/-- Against an upstream that keeps failing in a retryable way, a client that retries while
the counter is below `retry` waits once per failed attempt, until `retry - __retryCount`
delays have been waited. -/
theorem runRequest_delays_length (intercept : AxiosError → UnitRandom → Decision)
    (retryable : UpstreamFailure → Bool)
    (hretry : ∀ config f r, retryable f = true → config.retry ≠ 0 →
      config.retryCount.getD 0 < config.retry →
      ∃ d, intercept { config := some config, failure := f } r =
        .retry { config with retryCount := some (config.retryCount.getD 0 + 1) } d)
    (hreject : ∀ config f r, ¬ config.retryCount.getD 0 < config.retry →
      intercept { config := some config, failure := f } r = .reject)
    (upstream : List Upstream) (config : RequestConfig) (hpos : config.retry ≠ 0)
    (hall : ∀ u ∈ upstream, ∃ f r, u = .failed f r ∧ retryable f = true) :
    (runRequest intercept config upstream).delays.length =
      min upstream.length (config.retry - config.retryCount.getD 0) := by
  induction upstream generalizing config with
  | nil => simp [runRequest]
  | cons u rest ih =>
    obtain ⟨f, r, hu, hf⟩ := hall u (List.mem_cons_self _ _)
    subst hu
    unfold runRequest
    by_cases hlt : config.retryCount.getD 0 < config.retry
    · obtain ⟨d, hd⟩ := hretry config f r hf hpos hlt
      rw [hd]
      have hrest := ih { config with retryCount := some (config.retryCount.getD 0 + 1) } hpos
        (fun u hu => hall u (List.mem_cons_of_mem _ hu))
      simp only [Option.getD_some] at hrest
      simp only [List.length_cons, hrest]
      omega
    · rw [hreject config f r hlt]
      simp only [List.length_nil, List.length_cons]
      omega

/-- C30: in both catalog clients the backoff delays of one request are strictly
increasing.  Whatever the upstream does and whatever jitter values are drawn, the delay
before retry n + 1 is greater than the delay before retry n, for every n >= 1 (the client of
`tmdbController.js` waits 1500 x 2^(n-1) + jitter, the client of `showController.js` 1000 x n).
These retries do take place: while the upstream keeps failing in a retryable way the client
of `tmdbController.js` waits once per failed attempt up to 5 times and the client of
`showController.js` up to 3 times, so for every n >= 1 below that number both delays exist
and the second is the greater. -/
theorem retry_delays_increasing (upstream : List Upstream) :
    (∀ n d d', 1 ≤ n → (tmdbRequest tmdbConfig upstream).delays[n - 1]? = some d →
      (tmdbRequest tmdbConfig upstream).delays[n]? = some d' → d < d') ∧
    (∀ n d d', 1 ≤ n → (showRequest showConfig upstream).delays[n - 1]? = some d →
      (showRequest showConfig upstream).delays[n]? = some d' → d < d') ∧
    ((∀ u ∈ upstream, ∃ f r, u = .failed f r ∧ tmdbRetryable f = true) →
      (tmdbRequest tmdbConfig upstream).delays.length = min upstream.length 5 ∧
      ∀ n, 1 ≤ n → n < min upstream.length 5 →
        ∃ d d', (tmdbRequest tmdbConfig upstream).delays[n - 1]? = some d ∧
          (tmdbRequest tmdbConfig upstream).delays[n]? = some d' ∧ d < d') ∧
    ((∀ u ∈ upstream, ∃ f r, u = .failed f r ∧ showRetryable f = true) →
      (showRequest showConfig upstream).delays.length = min upstream.length 3 ∧
      ∀ n, 1 ≤ n → n < min upstream.length 3 →
        ∃ d d', (showRequest showConfig upstream).delays[n - 1]? = some d ∧
          (showRequest showConfig upstream).delays[n]? = some d' ∧ d < d') := by
  have htmdb : ∀ n d d', 1 ≤ n → (tmdbRequest tmdbConfig upstream).delays[n - 1]? = some d →
      (tmdbRequest tmdbConfig upstream).delays[n]? = some d' → d < d' := by
    intro n d d' hn h h'
    obtain ⟨j, _, hj1, hj⟩ := tmdbRequest_delay upstream tmdbConfig (n - 1) d h
    obtain ⟨j', hj0', _, hj'⟩ := tmdbRequest_delay upstream tmdbConfig n d' h'
    have hdelay : ((tmdbConfig.retryDelay : ℕ) : ℚ) = 1500 := by simp [tmdbConfig]
    have hcount : tmdbConfig.retryCount.getD 0 = 0 := rfl
    rw [hdelay, hcount, Nat.zero_add] at hj hj'
    have hsplit : (2 : ℚ) ^ n = 2 * 2 ^ (n - 1) := by
      rw [← pow_succ']
      congr 1
      omega
    have hpow := one_le_two_pow_rat (n - 1)
    rw [hj, hj', hsplit]
    linarith
  have hshow : ∀ n d d', 1 ≤ n → (showRequest showConfig upstream).delays[n - 1]? = some d →
      (showRequest showConfig upstream).delays[n]? = some d' → d < d' := by
    intro n d d' hn h h'
    rw [showRequest_delay upstream showConfig (n - 1) d h,
      showRequest_delay upstream showConfig n d' h']
    have hdelay : ((showConfig.retryDelay : ℕ) : ℚ) = 1000 := by simp [showConfig]
    have hcount : showConfig.retryCount.getD 0 = 0 := rfl
    rw [hdelay, hcount]
    have hcast : (((0 + (n - 1) + 1 : ℕ) : ℚ)) < (((0 + n + 1 : ℕ) : ℚ)) := by
      exact_mod_cast (by omega : 0 + (n - 1) + 1 < 0 + n + 1)
    linarith
  refine ⟨htmdb, hshow, ?_, ?_⟩
  · intro hall
    have hlen : (tmdbRequest tmdbConfig upstream).delays.length = min upstream.length 5 :=
      runRequest_delays_length tmdbInterceptor tmdbRetryable
        (fun config f r hf hpos hlt => ⟨_, tmdbInterceptor_retries config f r hf hpos hlt⟩)
        (fun config f r hlt => tmdbInterceptor_gives_up config f r hlt)
        upstream tmdbConfig (by decide) hall
    refine ⟨hlen, ?_⟩
    intro n hn hlt
    have h0 : n - 1 < (tmdbRequest tmdbConfig upstream).delays.length := by omega
    have h1 : n < (tmdbRequest tmdbConfig upstream).delays.length := by omega
    exact ⟨_, _, List.getElem?_eq_getElem h0, List.getElem?_eq_getElem h1,
      htmdb n _ _ hn (List.getElem?_eq_getElem h0) (List.getElem?_eq_getElem h1)⟩
  · intro hall
    have hlen : (showRequest showConfig upstream).delays.length = min upstream.length 3 :=
      runRequest_delays_length (fun error _ => showInterceptor error) showRetryable
        (fun config f _ hf hpos hlt => ⟨_, showInterceptor_retries config f hf hpos hlt⟩)
        (fun config f _ hlt => showInterceptor_gives_up config f hlt)
        upstream showConfig (by decide) hall
    refine ⟨hlen, ?_⟩
    intro n hn hlt
    have h0 : n - 1 < (showRequest showConfig upstream).delays.length := by omega
    have h1 : n < (showRequest showConfig upstream).delays.length := by omega
    exact ⟨_, _, List.getElem?_eq_getElem h0, List.getElem?_eq_getElem h1,
      hshow n _ _ hn (List.getElem?_eq_getElem h0) (List.getElem?_eq_getElem h1)⟩

/-- Witness for C30: six server errors in a row, with the jitter alternating between its
largest and its smallest values.  The client of `tmdbController.js` waits 2499.9, 3000,
6999.9, 12000 and 24999.9 ms, the client of `showController.js` 1000, 2000 and 3000 ms; the
delays before the fourth and the fifth retry, and before the second and the third, are
among those the theorem compares. -/
theorem retry_delays_increasing_witness :
    (tmdbRequest tmdbConfig jitterUpstream).delays = [24999 / 10, 3000, 69999 / 10, 12000,
      249999 / 10] ∧
    (showRequest showConfig jitterUpstream).delays = [1000, 2000, 3000] ∧
    (∃ d d', (tmdbRequest tmdbConfig jitterUpstream).delays[4 - 1]? = some d ∧
      (tmdbRequest tmdbConfig jitterUpstream).delays[4]? = some d' ∧ d < d') ∧
    (∃ d d', (showRequest showConfig jitterUpstream).delays[2 - 1]? = some d ∧
      (showRequest showConfig jitterUpstream).delays[2]? = some d' ∧ d < d') := by
  have hall : ∀ u ∈ jitterUpstream, ∃ f r, u = .failed f r ∧ tmdbRetryable f = true := by
    intro u hu
    simp only [jitterUpstream, List.mem_cons, List.mem_singleton, List.not_mem_nil,
      or_false] at hu
    rcases hu with h | h | h | h | h | h <;> exact ⟨_, _, h, by decide⟩
  have hall' : ∀ u ∈ jitterUpstream, ∃ f r, u = .failed f r ∧ showRetryable f = true := by
    intro u hu
    simp only [jitterUpstream, List.mem_cons, List.mem_singleton, List.not_mem_nil,
      or_false] at hu
    rcases hu with h | h | h | h | h | h <;> exact ⟨_, _, h, by decide⟩
  refine ⟨?_, ?_,
    ((retry_delays_increasing jitterUpstream).2.2.1 hall).2 4 (by decide) (by decide),
    ((retry_delays_increasing jitterUpstream).2.2.2 hall').2 2 (by decide) (by decide)⟩
  · have h : (tmdbRequest tmdbConfig jitterUpstream).delays =
        [((1500 : ℕ) : ℚ) * 2 ^ (0 + 1 - 1) + lateRandom.val * 1000,
         ((1500 : ℕ) : ℚ) * 2 ^ (0 + 1 + 1 - 1) + earlyRandom.val * 1000,
         ((1500 : ℕ) : ℚ) * 2 ^ (0 + 1 + 1 + 1 - 1) + lateRandom.val * 1000,
         ((1500 : ℕ) : ℚ) * 2 ^ (0 + 1 + 1 + 1 + 1 - 1) + earlyRandom.val * 1000,
         ((1500 : ℕ) : ℚ) * 2 ^ (0 + 1 + 1 + 1 + 1 + 1 - 1) + lateRandom.val * 1000] := by rfl
    rw [h]
    simp only [lateRandom, earlyRandom]
    norm_num
  · have h : (showRequest showConfig jitterUpstream).delays =
        [((1000 : ℕ) : ℚ) * ((0 + 1 : ℕ) : ℚ), ((1000 : ℕ) : ℚ) * ((1 + 1 : ℕ) : ℚ),
         ((1000 : ℕ) : ℚ) * ((2 + 1 : ℕ) : ℚ)] := by rfl
    rw [h]
    norm_num

/-! ## The middleware -/

theorem requireAuth_next_iff (auth : AuthCall) :
    requireAuth auth = .next ↔ ∃ id, auth = .returns (some id) ∧ id ≠ "" := by
  cases auth with
  | throws msg => simp [requireAuth]
  | returns userId =>
    cases userId with
    | none => simp [requireAuth]
    | some id =>
      by_cases h : id = ""
      · simp [requireAuth, h]
      · simp [requireAuth, h]

theorem requireAuth_respond (auth : AuthCall) (h : requireAuth auth ≠ .next) :
    ∃ message, requireAuth auth =
      .respond { status := 401, success := false, message := some message, url := none } := by
  cases auth with
  | throws msg => exact ⟨_, rfl⟩
  | returns userId =>
    cases userId with
    | none => exact ⟨_, rfl⟩
    | some id =>
      by_cases hid : id = ""
      · exact ⟨"Authentication required", by simp [requireAuth, hid]⟩
      · exact absurd (by simp [requireAuth, hid]) h

theorem behindRequireAuth_rejected {α : Type} (auth : AuthCall) (handler : UserId → α)
    (response : Response) (h : requireAuth auth = .respond response) :
    behindRequireAuth auth handler = .rejected response := by
  unfold behindRequireAuth
  split
  · rename_i r hr
    rw [h] at hr
    injection hr with hr
    rw [hr]
  · rename_i hnext
    rw [h] at hnext
    cases hnext

theorem behindRequireAuth_handled {α : Type} (id : String) (hid : id ≠ "")
    (handler : UserId → α) :
    behindRequireAuth (.returns (some id)) handler = .handled (handler ⟨id, hid⟩) := by
  unfold behindRequireAuth
  split
  · rename_i r hr
    simp [requireAuth, hid] at hr
  · rfl

/-- C25: `requireAuth` calls `next()` if and only if `req.auth()` returns a truthy `userId`;
when the `userId` is missing or empty, or `req.auth()` throws, it answers 401 and does not
call `next()`.  On the routes mounted behind it, `createBooking` and `getOccupiedSeats` run
for an authenticated request and never run otherwise: the request is answered with that
401. -/
theorem requireAuth_gate (auth : AuthCall) :
    (requireAuth auth = .next ↔ ∃ id, auth = .returns (some id) ∧ id ≠ "") ∧
    (requireAuth auth ≠ .next →
      ∃ message, requireAuth auth =
        .respond { status := 401, success := false, message := some message, url := none } ∧
      (∀ st env showId selectedSeats, postCreateBooking st env auth showId selectedSeats =
        .rejected { status := 401, success := false, message := some message, url := none }) ∧
      (∀ st showId, getOccupiedSeatsRoute st auth showId =
        .rejected { status := 401, success := false, message := some message, url := none })) ∧
    (∀ id (hid : id ≠ ""), auth = .returns (some id) →
      (∀ st env showId selectedSeats, postCreateBooking st env auth showId selectedSeats =
        .handled (createBooking st env ⟨⟨id, hid⟩, showId, selectedSeats⟩)) ∧
      (∀ st showId, getOccupiedSeatsRoute st auth showId =
        .handled (getOccupiedSeats st showId))) := by
  refine ⟨requireAuth_next_iff auth, ?_, ?_⟩
  · intro h
    obtain ⟨message, hmsg⟩ := requireAuth_respond auth h
    refine ⟨message, hmsg, ?_, ?_⟩
    · intro st env showId selectedSeats
      exact behindRequireAuth_rejected auth _ _ hmsg
    · intro st showId
      exact behindRequireAuth_rejected auth _ _ hmsg
  · intro id hid hauth
    subst hauth
    constructor
    · intro st env showId selectedSeats
      exact behindRequireAuth_handled id hid _
    · intro st showId
      exact behindRequireAuth_handled id hid _

/-- Witness for C25: a request without `userId`, one whose `req.auth()` throws, and one of
U1. -/
theorem requireAuth_gate_witness :
    (requireAuth (.returns none) ≠ .next ∧ requireAuth (.throws "no session") ≠ .next) ∧
    (∃ message, requireAuth (.returns none) =
        .respond { status := 401, success := false, message := some message, url := none } ∧
      (∀ st env showId selectedSeats,
        postCreateBooking st env (.returns none) showId selectedSeats =
        .rejected { status := 401, success := false, message := some message, url := none }) ∧
      (∀ st showId, getOccupiedSeatsRoute st (.returns none) showId =
        .rejected { status := 401, success := false, message := some message, url := none })) ∧
    requireAuth (.throws "no session") =
      .respond { status := 401, success := false, message := some "Invalid authentication",
                 url := none } ∧
    requireAuth (.returns (some "U1")) = .next :=
  ⟨⟨by decide, by decide⟩,
   (requireAuth_gate (.returns none)).2.1 (by decide),
   by decide, by decide⟩

/-- C26: `protectAdmin` calls `next()` if and only if `req.auth()` returns and the identity
provider returns, for its `userId`, a user whose `privateMetadata.role` is 'admin'; for a
user with any other role, or none, it answers 403 'Access denied' and does not call
`next()`. -/
theorem protectAdmin_gate (auth : AuthCall)
    (getUser : Option String → Except String ClerkUser) :
    (protectAdmin auth getUser = .next ↔
      ∃ userId user, auth = .returns userId ∧ getUser userId = .ok user ∧
        user.role = some "admin") ∧
    (∀ userId user, auth = .returns userId → getUser userId = .ok user →
      user.role ≠ some "admin" →
      protectAdmin auth getUser =
        .respond { status := 403, success := false, message := some "Access denied",
                   url := none } ∧
      protectAdmin auth getUser ≠ .next) := by
  constructor
  · cases auth with
    | throws msg => simp [protectAdmin]
    | returns userId =>
      cases hget : getUser userId with
      | error msg => simp [protectAdmin, hget]
      | ok user =>
        by_cases hrole : user.role = some "admin"
        · simp [protectAdmin, hget, hrole]
        · simp [protectAdmin, hget, hrole]
  · intro userId user hauth hget hrole
    subst hauth
    constructor
    · simp [protectAdmin, hget, hrole]
    · simp [protectAdmin, hget, hrole]

/-- Witness for C26: U1 is an admin, U2 has no role. -/
theorem protectAdmin_gate_witness :
    (clerkUsers (some "U2") = .ok { role := none } ∧
      protectAdmin (.returns (some "U2")) clerkUsers =
        .respond { status := 403, success := false, message := some "Access denied",
                   url := none }) ∧
    protectAdmin (.returns (some "U1")) clerkUsers = .next :=
  ⟨⟨rfl, ((protectAdmin_gate (.returns (some "U2")) clerkUsers).2 (some "U2") { role := none }
      rfl rfl (by decide)).1⟩,
   (protectAdmin_gate (.returns (some "U1")) clerkUsers).1.2
     ⟨some "U1", { role := some "admin" }, rfl, rfl, rfl⟩⟩

/-! ## The most booked movie -/

theorem Store.findMovie_id (st : Store) (k : String) (m : Movie)
    (h : st.findMovie k = some m) : m.id = k := by
  unfold Store.findMovie at h
  simpa using List.find?_some h

theorem Store.findMovie_of_mem (st : Store) (m : Movie) (h : m ∈ st.movies) :
    ∃ m', st.findMovie m.id = some m' := by
  unfold Store.findMovie
  cases hf : st.movies.find? (fun x => decide (x.id = m.id)) with
  | some m' => exact ⟨m', rfl⟩
  | none =>
    have := List.find?_eq_none.1 hf m h
    simp at this

/-- The rows of one movie id are the paid bookings on shows of that movie. -/
theorem paidRows_filter (st : Store) (movieId : String)
    (hex : ∃ m0, st.findMovie movieId = some m0) :
    ((paidRows st).filter (fun r => decide (r.2.id = movieId))).map Prod.fst =
      paidBookingsOf st movieId := by
  unfold paidRows paidBookingsOf
  induction st.bookings with
  | nil => rfl
  | cons b rest ih =>
    cases hp : b.isPaid with
    | false => simpa [List.filter_cons, hp] using ih
    | true =>
      cases hs : st.findShow b.«show» with
      | none => simpa [List.filter_cons, hp, hs, List.filterMap_cons] using ih
      | some sd =>
        cases hm : st.findMovie sd.movie with
        | none =>
          have hne : sd.movie ≠ movieId := by
            intro heq
            obtain ⟨m0, hm0⟩ := hex
            rw [heq, hm0] at hm
            cases hm
          simpa [List.filter_cons, hp, hs, hm, List.filterMap_cons, hne] using ih
        | some m =>
          have hid : m.id = sd.movie := Store.findMovie_id st _ _ hm
          by_cases hk : sd.movie = movieId
          · subst hk
            simpa [List.filter_cons, hp, hs, hm, List.filterMap_cons, hid] using ih
          · have hk' : ¬ m.id = movieId := fun h => hk (hid.symm.trans h)
            simpa [List.filter_cons, hp, hs, hm, List.filterMap_cons, hk, hk'] using ih

/-- Every movie of a row is the stored movie of its id. -/
theorem paidRows_movie (st : Store) (r : Booking × Movie) (h : r ∈ paidRows st) :
    st.findMovie r.2.id = some r.2 := by
  unfold paidRows at h
  rw [List.mem_filterMap] at h
  obtain ⟨b, _, hb⟩ := h
  cases hs : st.findShow b.«show» with
  | none => simp [hs] at hb
  | some sd =>
    cases hm : st.findMovie sd.movie with
    | none => simp [hs, hm] at hb
    | some m =>
      simp only [hs, hm, Option.some.injEq] at hb
      subst hb
      rw [Store.findMovie_id st _ _ hm]
      exact hm

theorem groupStats_some (sumAmounts : SumAccumulator) (rows : List (Booking × Movie))
    (k : String) (g : MovieStats) (h : groupStats sumAmounts rows k = some g) :
    g.totalBookings = (rows.filter (fun r => decide (r.2.id = k))).length ∧
    g.totalSeats =
      ((rows.filter (fun r => decide (r.2.id = k))).map (fun r => r.1.bookedSeats.length)).sum ∧
    g.totalRevenue =
      sumAmounts ((rows.filter (fun r => decide (r.2.id = k))).map (fun r => r.1.amount)) ∧
    g.movie.id = k ∧ ∃ r ∈ rows, r.2 = g.movie := by
  unfold groupStats at h
  cases hf : rows.filter (fun r => decide (r.2.id = k)) with
  | nil => simp [hf] at h
  | cons first others =>
    simp only [hf, Option.some.injEq] at h
    subst h
    have hmem : first ∈ rows.filter (fun r => decide (r.2.id = k)) := by
      rw [hf]
      exact List.mem_cons_self _ _
    rw [List.mem_filter] at hmem
    exact ⟨rfl, rfl, rfl, by simpa using hmem.2, first, hmem.1, rfl⟩

theorem groupStats_of_nonempty (sumAmounts : SumAccumulator) (rows : List (Booking × Movie))
    (k : String) (h : rows.filter (fun r => decide (r.2.id = k)) ≠ []) :
    ∃ g, groupStats sumAmounts rows k = some g ∧ g ∈ groupByMovie sumAmounts rows := by
  cases hf : rows.filter (fun r => decide (r.2.id = k)) with
  | nil => exact absurd hf h
  | cons first others =>
    have hg : ∃ g, groupStats sumAmounts rows k = some g := by
      unfold groupStats
      rw [hf]
      exact ⟨_, rfl⟩
    obtain ⟨g, hg⟩ := hg
    refine ⟨g, hg, ?_⟩
    unfold groupByMovie
    rw [List.mem_filterMap]
    refine ⟨k, ?_, hg⟩
    rw [mem_distinctValues, List.mem_map]
    have hmem : first ∈ rows.filter (fun r => decide (r.2.id = k)) := by
      rw [hf]
      exact List.mem_cons_self _ _
    rw [List.mem_filter] at hmem
    exact ⟨first, hmem.1, by simpa using hmem.2⟩

theorem topGroup_none (l : List MovieStats) (h : topGroup l = none) : l = [] := by
  cases l with
  | nil => rfl
  | cons g rest =>
    unfold topGroup at h
    cases hr : topGroup rest with
    | none => simp [hr] at h
    | some best =>
      simp only [hr] at h
      split_ifs at h

theorem topGroup_some (l : List MovieStats) (top : MovieStats) (h : topGroup l = some top) :
    top ∈ l ∧ ∀ g ∈ l, g.totalBookings ≤ top.totalBookings := by
  induction l generalizing top with
  | nil => simp [topGroup] at h
  | cons g rest ih =>
    unfold topGroup at h
    cases hr : topGroup rest with
    | none =>
      simp only [hr, Option.some.injEq] at h
      subst h
      have hnil := topGroup_none rest hr
      subst hnil
      simp
    | some best =>
      obtain ⟨hmem, hmax⟩ := ih best hr
      simp only [hr] at h
      split_ifs at h with hlt
      · simp only [Option.some.injEq] at h
        subst h
        refine ⟨List.mem_cons_of_mem _ hmem, ?_⟩
        intro g' hg'
        rcases List.mem_cons.1 hg' with h1 | h1
        · subst h1; omega
        · exact hmax g' h1
      · simp only [Option.some.injEq] at h
        subst h
        refine ⟨List.mem_cons_self _ _, ?_⟩
        intro g' hg'
        rcases List.mem_cons.1 hg' with h1 | h1
        · subst h1; exact le_refl _
        · have := hmax g' h1
          omega

/-- Every movie with a paid booking has a group, counting its paid bookings. -/
theorem group_of_paidBookings (sumAmounts : SumAccumulator) (st : Store) (k : String)
    (hex : ∃ m0, st.findMovie k = some m0) (hne : paidBookingsOf st k ≠ []) :
    ∃ g ∈ groupByMovie sumAmounts (paidRows st),
      g.totalBookings = (paidBookingsOf st k).length := by
  have hrows := paidRows_filter st k hex
  have hnonempty : (paidRows st).filter (fun r => decide (r.2.id = k)) ≠ [] := by
    intro h
    rw [h] at hrows
    exact hne hrows.symm
  obtain ⟨g, hg, hmem⟩ := groupStats_of_nonempty sumAmounts (paidRows st) k hnonempty
  refine ⟨g, hmem, ?_⟩
  rw [(groupStats_some _ _ _ _ hg).1, ← hrows, List.length_map]

theorem map_fst_sum_seats (rows : List (Booking × Movie)) :
    (rows.map (fun r => r.1.bookedSeats.length)).sum =
      ((rows.map Prod.fst).map (fun b => b.bookedSeats.length)).sum := by
  rw [List.map_map]
  rfl

theorem map_fst_amount (rows : List (Booking × Movie)) :
    rows.map (fun r => r.1.amount) = (rows.map Prod.fst).map (fun b => b.amount) := by
  rw [List.map_map]
  rfl

/-- C27: whenever `getTopBookedMovie` answers with a movie, that movie's `totalBookings` is
the number of paid bookings on shows of the movie and `totalSeats` the sum of the sizes of
their `bookedSeats`; `totalRevenue` is what the accumulator `$sum` of the database yields on
the amounts of exactly these paid bookings, and 0 when there is none (unpaid bookings count
for nothing in any of the three); no stored movie has more paid bookings, so when a paid
booking exists the returned movie has at least one. -/
theorem getTopBookedMovie_ranked (sumAmounts : SumAccumulator) (st : Store)
    (stats : MovieStats)
    (h : (getTopBookedMovie sumAmounts st).movie = some stats) :
    stats.totalBookings = (paidBookingsOf st stats.movie.id).length ∧
    stats.totalSeats =
      ((paidBookingsOf st stats.movie.id).map (fun b => b.bookedSeats.length)).sum ∧
    (paidBookingsOf st stats.movie.id ≠ [] →
      stats.totalRevenue =
        sumAmounts ((paidBookingsOf st stats.movie.id).map (fun b => b.amount))) ∧
    (paidBookingsOf st stats.movie.id = [] → stats.totalRevenue = 0) ∧
    (∀ b ∈ paidBookingsOf st stats.movie.id, b ∈ st.bookings ∧ b.isPaid = true) ∧
    (∀ m ∈ st.movies, (paidBookingsOf st m.id).length ≤ stats.totalBookings) ∧
    (∀ m ∈ st.movies, paidBookingsOf st m.id ≠ [] → 1 ≤ stats.totalBookings) := by
  have hpaid : ∀ b ∈ paidBookingsOf st stats.movie.id, b ∈ st.bookings ∧ b.isPaid = true := by
    intro b hb
    unfold paidBookingsOf at hb
    rw [List.mem_filter] at hb
    refine ⟨hb.1, ?_⟩
    have h2 := hb.2
    simp only [Bool.and_eq_true] at h2
    exact h2.1
  have hone : (∀ m ∈ st.movies, (paidBookingsOf st m.id).length ≤ stats.totalBookings) →
      ∀ m ∈ st.movies, paidBookingsOf st m.id ≠ [] → 1 ≤ stats.totalBookings := by
    intro hmax m hm hne
    have hpos : 0 < (paidBookingsOf st m.id).length := List.length_pos.2 hne
    have := hmax m hm
    omega
  unfold getTopBookedMovie at h
  cases htop : topGroup (groupByMovie sumAmounts (paidRows st)) with
  | some top =>
    simp only [htop, Option.some.injEq] at h
    subst h
    obtain ⟨hmem, hmax⟩ := topGroup_some _ _ htop
    unfold groupByMovie at hmem
    rw [List.mem_filterMap] at hmem
    obtain ⟨k, _, hk⟩ := hmem
    have hfilter : (paidRows st).filter (fun r => decide (r.2.id = k)) ≠ [] := by
      intro hnil
      simp [groupStats, hnil] at hk
    obtain ⟨h1, h2, h3, hid, r, hr, hrm⟩ := groupStats_some _ _ _ _ hk
    have hfound : st.findMovie top.movie.id = some top.movie := by
      rw [← hrm]
      exact paidRows_movie st r hr
    have hrows := paidRows_filter st top.movie.id ⟨_, hfound⟩
    rw [← hid] at h1 h2 h3 hfilter
    have hmaxAll : ∀ m ∈ st.movies, (paidBookingsOf st m.id).length ≤ top.totalBookings := by
      intro m hm
      by_cases hne : paidBookingsOf st m.id = []
      · rw [hne]
        exact Nat.zero_le _
      · obtain ⟨g, hg, hcount⟩ :=
          group_of_paidBookings sumAmounts st m.id (Store.findMovie_of_mem st m hm) hne
        rw [← hcount]
        exact hmax g hg
    refine ⟨?_, ?_, ?_, ?_, hpaid, hmaxAll, hone hmaxAll⟩
    · rw [h1, ← hrows, List.length_map]
    · rw [h2, map_fst_sum_seats, hrows]
    · intro _
      rw [h3, map_fst_amount, hrows]
    · intro hnil
      rw [hnil] at hrows
      exact absurd (List.map_eq_nil_iff.1 hrows) hfilter
  | none =>
    have hnil : groupByMovie sumAmounts (paidRows st) = [] := topGroup_none _ htop
    have hempty : ∀ k, (∃ m0, st.findMovie k = some m0) → paidBookingsOf st k = [] := by
      intro k hex
      by_contra hne
      obtain ⟨g, hg, _⟩ := group_of_paidBookings sumAmounts st k hex hne
      rw [hnil] at hg
      cases hg
    simp only [htop] at h
    cases hlast : st.shows.getLast? with
    | none => simp [hlast] at h
    | some defaultShow =>
      cases hm : st.findMovie defaultShow.movie with
      | none => simp [hlast, hm] at h
      | some movie =>
        simp only [hlast, hm, Option.some.injEq] at h
        subst h
        have hid : movie.id = defaultShow.movie := Store.findMovie_id st _ _ hm
        have hzero : paidBookingsOf st movie.id = [] :=
          hempty movie.id ⟨movie, by rw [hid]; exact hm⟩
        have hmaxAll : ∀ m ∈ st.movies, (paidBookingsOf st m.id).length ≤ 0 := by
          intro m hmem
          rw [hempty m.id (Store.findMovie_of_mem st m hmem)]
          exact le_refl _
        refine ⟨?_, ?_, ?_, ?_, ?_, hmaxAll, ?_⟩
        · simp [hzero]
        · simp [hzero]
        · intro hne
          exact absurd hzero hne
        · intro _
          rfl
        · intro b hb
          simp only [hzero] at hb
          cases hb
        · intro m hmem hne
          exact absurd (hempty m.id (Store.findMovie_of_mem st m hmem)) hne

theorem getTopBookedMovie_storeTwoBookings (sumAmounts : SumAccumulator) :
    getTopBookedMovie sumAmounts storeTwoBookings =
      { status := 200, success := true,
        movie := some { movie := { id := "M", title := "Movie" }, totalBookings := 1,
                        totalSeats := 2, totalRevenue := sumAmounts [20] },
        message := none } := by
  rfl

/-- Witness for C27: U1's booking of two seats is paid, U2's booking is not; the top movie
counts one booking and two seats, and its revenue is the accumulator's total of the one
amount 20.00. -/
theorem getTopBookedMovie_ranked_witness :
    (getTopBookedMovie roundedSum storeTwoBookings).movie =
      some { movie := { id := "M", title := "Movie" }, totalBookings := 1, totalSeats := 2,
             totalRevenue := roundedSum [20] } ∧
    (1 : Nat) = (paidBookingsOf storeTwoBookings "M").length ∧
    (paidBookingsOf storeTwoBookings "M").map (fun b => b.amount) = [20] ∧
    storeTwoBookings.bookings.length = 2 :=
  ⟨by rw [getTopBookedMovie_storeTwoBookings],
   (getTopBookedMovie_ranked roundedSum storeTwoBookings
     { movie := { id := "M", title := "Movie" }, totalBookings := 1, totalSeats := 2,
       totalRevenue := roundedSum [20] } (by rw [getTopBookedMovie_storeTwoBookings])).1,
   rfl, rfl⟩

/-- The fallback of `getTopBookedMovie` is taken whenever no paid booking reaches the
`$group` stage, not only when no booking exists: with the one unpaid booking of the scenario
in the store the handler answers with the movie of the most recently created show and zero
totals. -/
theorem getTopBookedMovie_unpaid_only (sumAmounts : SumAccumulator) :
    store1.bookings.map (fun b => b.isPaid) = [false] ∧
    getTopBookedMovie sumAmounts store1 =
      { status := 200, success := true,
        movie := some { movie := { id := "M", title := "Movie" }, totalBookings := 0,
                        totalSeats := 0, totalRevenue := 0 },
        message := none } :=
  ⟨rfl, rfl⟩

end ShowZa
